import Mathlib

/-!
# GXS tunnel service (`gxstunnel/p3gxstunnel.cc`)

A shallow embedding of `p3GxsTunnelService`: the tunnel table, the
virtual-peer table, the three pending queues and the operations that act on
them.  The collaborators the service calls (crypto library, identity gateway,
item codec, random source) are gathered in the structure `Env`; the calls the
service makes to the turtle router and to client services are recorded as a
list of `Event`s.
-/

namespace GxsTunnel

/-! ## Identifiers -/

/-- Raw memory: a sequence of bytes. -/
abbrev Bytes := List Nat

/-- Modelled from the spec: the id class `t_RsGenericIdType` (declared in
`retroshare/rsids.h`) is a fixed-size array of `n` bytes. -/
abbrev RsId (n : Nat) := { l : Bytes // l.length = n }

/-- A 16-byte GXS identity. -/
abbrev RsGxsId := RsId 16
/-- The handle the turtle router gives to one virtual circuit. -/
abbrev RsPeerId := RsId 16
/-- A 20-byte SHA-1 sum, also used as the turtle hash. -/
abbrev Sha1CheckSum := RsId 20
/-- Modelled from the spec: `RsGxsTunnelId::SIZE_IN_BYTES` is declared outside
this file; the spec gives 20 bytes. -/
abbrev RsGxsTunnelId := RsId 20

/-- The id whose bytes are all zero: what `clear()` leaves and what the default
constructor builds. -/
def RsId.null (n : Nat) : RsId n := ⟨List.replicate n 0, by simp⟩

/-- Construction of an id from a pointer: the first `n` bytes are copied. -/
def RsId.fromBytes (n : Nat) (mem : Bytes) (h : n ≤ mem.length) : RsId n :=
  ⟨mem.take n, by simp [h]⟩

/-- Modelled from the spec: `operator<` of the id class is declared outside this
file; ids are ordered by byte-lexicographic comparison: the first byte that
differs decides, equal arrays are not smaller. -/
def bytesLt : Bytes → Bytes → Bool
  | x :: xs, y :: ys => if x ≠ y then decide (x < y) else bytesLt xs ys
  | _, _ => false

/-- The comparison `a < b` on ids. -/
def RsId.lt {n : Nat} (a b : RsId n) : Bool := bytesLt a.val b.val

/-! ## The collaborators -/

/-- A signature blob with the id of the signing key. -/
structure RsTlvKeySignature where
  keyId : RsGxsId
  signData : Bytes
deriving DecidableEq

/-- A public identity key. -/
structure RsTlvSecurityKey where
  keyId : RsGxsId
  keyData : Bytes
deriving DecidableEq

/-- Outcome of `locked_initDHSessionKey`: which of `DH_new`, `DH_check`,
`DH_generate_key` failed, or the generated key pair. -/
inductive DHInit where
  | new_failed
  | check_failed
  | generate_failed
  | ok (priv : Nat) (pub : Bytes)
deriving DecidableEq

/-- An OpenSSL `DH` object: allocated with the fixed group, and holding a key
pair once `DH_generate_key` succeeded.  A public value is identified with its
big-endian byte string (`BN_bn2bin`). -/
structure DH where
  keys : Option (Nat × Bytes)
deriving DecidableEq

/-! ## Items -/

/-- A `Data` item.  `data_size` is the length of `data`.  -/
structure RsGxsTunnelDataItem where
  peerId : RsPeerId
  unique_item_counter : Nat
  flags : Nat
  service_id : Nat
  data : Bytes
deriving DecidableEq

/-- A `DataAck` item. -/
structure RsGxsTunnelDataAckItem where
  peerId : RsPeerId
  unique_item_counter : Nat
deriving DecidableEq

/-- A `Status` item. -/
structure RsGxsTunnelStatusItem where
  peerId : RsPeerId
  flags : Nat
deriving DecidableEq

/-- A signed DH public key. -/
structure RsGxsTunnelDHPublicKeyItem where
  peerId : RsPeerId
  public_key : Bytes
  signature : RsTlvKeySignature
  gxs_key : RsTlvSecurityKey
deriving DecidableEq

/-- The four item kinds of the tunnel serialiser (`PacketSubType`). -/
inductive RsGxsTunnelItem where
  | data (i : RsGxsTunnelDataItem)
  | ack (i : RsGxsTunnelDataAckItem)
  | status (i : RsGxsTunnelStatusItem)
  | dhkey (i : RsGxsTunnelDHPublicKeyItem)
deriving DecidableEq

/-- The getter `PeerId()`. -/
def RsGxsTunnelItem.PeerId : RsGxsTunnelItem → RsPeerId
  | .data i => i.peerId
  | .ack i => i.peerId
  | .status i => i.peerId
  | .dhkey i => i.peerId

/-- The setter `PeerId(id)`. -/
def RsGxsTunnelItem.setPeerId (id : RsPeerId) : RsGxsTunnelItem → RsGxsTunnelItem
  | .data i => .data { i with peerId := id }
  | .ack i => .ack { i with peerId := id }
  | .status i => .status { i with peerId := id }
  | .dhkey i => .dhkey { i with peerId := id }

/-- Modelled from the spec: the status flags are declared in the item header;
the spec lists `KEEP_ALIVE=1`, `CLOSING=2`, `ACK_CONNECTION=4`. -/
def RS_GXS_TUNNEL_FLAG_KEEP_ALIVE : Nat := 1
/-- Modelled from the spec: see `RS_GXS_TUNNEL_FLAG_KEEP_ALIVE`. -/
def RS_GXS_TUNNEL_FLAG_CLOSING_DISTANT_CONNECTION : Nat := 2
/-- Modelled from the spec: see `RS_GXS_TUNNEL_FLAG_KEEP_ALIVE`. -/
def RS_GXS_TUNNEL_FLAG_ACK_DISTANT_CONNECTION : Nat := 4

/-- What the service calls during one operation: crypto library, item codec,
identity gateway, DH key generation and the random sources.  Every theorem
quantifies over it. -/
structure Env where
  /-- `RsDirUtil::sha1sum`. -/
  sha1sum : Bytes → Sha1CheckSum
  /-- `HMAC(EVP_sha1(), key, ..., data, ...)`: key, then data. -/
  HMAC : Bytes → Bytes → Sha1CheckSum
  /-- `RsAES::aes_crypt_8_16`: key, 8-byte IV, plaintext; `none` on failure. -/
  aes_crypt_8_16 : Bytes → Bytes → Bytes → Option Bytes
  /-- `RsAES::aes_decrypt_8_16`: key, 8-byte IV, ciphertext; `none` on failure. -/
  aes_decrypt_8_16 : Bytes → Bytes → Bytes → Option Bytes
  /-- `item->serialise`; `none` when it returns false. -/
  serialise : RsGxsTunnelItem → Option Bytes
  /-- `RsGxsTunnelSerialiser().deserialise`; `none` for `NULL`. -/
  deserialise : Bytes → Option RsGxsTunnelItem
  /-- `getOwnIds`. -/
  getOwnIds : List RsGxsId
  /-- `mGixs->signData(data, size, id, signature, error)`. -/
  signData : Bytes → RsGxsId → Option RsTlvKeySignature
  /-- `mGixs->getKey(id, key)` with a non-null key; the keys handed out are
  public halves (asserted by the caller). -/
  getKey : RsGxsId → Option RsTlvSecurityKey
  /-- `GxsSecurity::checkPublicKey`. -/
  checkPublicKey : RsTlvSecurityKey → Bool
  /-- `GxsSecurity::validateSignature(data, size, key, signature)`. -/
  validateSignature : Bytes → RsTlvSecurityKey → RsTlvKeySignature → Bool
  /-- What the OpenSSL calls of `locked_initDHSessionKey` produce. -/
  dh_init : DHInit
  /-- `DH_compute_key` on the peer's public value and our private key:
  the shared secret when the returned length equals `DH_size`. -/
  DH_compute_key : Bytes → Nat → Option Bytes
  /-- The `n`-th value returned by `RSRandom::random_u64`. -/
  random_u64 : Nat → Nat
  /-- The four bytes written by the `n`-th call of `RAND_bytes`. -/
  RAND_bytes : Nat → RsId 4

/-- A call made by the service to the turtle router, to the identity gateway
or to a client service. -/
inductive Event where
  /-- `service->receiveData(tunnel_id, data, size)` on the handler `service`. -/
  | receiveData (service : Nat) (tunnel_id : RsGxsTunnelId) (data : Bytes)
  /-- `mTurtle->sendTurtleData(vpid, item)` with the item's payload. -/
  | sendTurtleData (vpid : RsPeerId) (data_bytes : Bytes)
  | monitorTunnels (hash : Sha1CheckSum)
  | stopMonitoringTunnels (hash : Sha1CheckSum)
  | forceReDiggTunnels (hash : Sha1CheckSum)
  | timeStampKey (id : RsGxsId)
deriving DecidableEq

/-! ## The state of the service -/

/-- Tunnel status (`RS_GXS_TUNNEL_STATUS_*`). -/
inductive TunnelStatus where
  | UNKNOWN
  | TUNNEL_DN
  | CAN_TALK
  | REMOTELY_CLOSED
deriving DecidableEq

/-- Direction of a circuit (`RsTurtleGenericTunnelItem::Direction`). -/
inductive Direction where
  | CLIENT
  | SERVER
deriving DecidableEq

/-- DH status (`RS_GXS_TUNNEL_DH_STATUS_*`). -/
inductive DHStatus where
  | UNINITIALIZED
  | HALF_KEY_DONE
  | KEY_AVAILABLE
deriving DecidableEq

/-- One tunnel record of `_gxs_tunnel_contacts`. -/
structure GxsTunnelPeerInfo where
  last_contact : Nat
  last_keep_alive_sent : Nat
  aes_key : Bytes
  hash : Sha1CheckSum
  status : TunnelStatus
  virtual_peer_id : RsPeerId
  to_gxs_id : RsGxsId
  own_gxs_id : RsGxsId
  direction : Direction
deriving DecidableEq

/-- One virtual-peer record of `_gxs_tunnel_virtual_peer_ids`. -/
structure GxsTunnelDHInfo where
  dh : Option DH
  gxs_id : RsGxsId
  own_gxs_id : RsGxsId
  tunnel_id : RsGxsTunnelId
  status : DHStatus
  hash : Sha1CheckSum
  direction : Direction
deriving DecidableEq

/-- One entry of `pendingGxsTunnelDataItems`. -/
structure GxsTunnelData where
  data_item : RsGxsTunnelDataItem
  last_sending_attempt : Nat
deriving DecidableEq

/-- Modelled from the spec: the constructor of `GxsTunnelPeerInfo` is in the
header; ids start null, the key is zero, times are zero.  Every field but
`hash` and `to_gxs_id` is overwritten by the only caller that creates a record
this way. -/
def GxsTunnelPeerInfo.default : GxsTunnelPeerInfo :=
  { last_contact := 0, last_keep_alive_sent := 0, aes_key := List.replicate 16 0,
    hash := RsId.null 20, status := .UNKNOWN, virtual_peer_id := RsId.null 16,
    to_gxs_id := RsId.null 16, own_gxs_id := RsId.null 16, direction := .CLIENT }

/-- Modelled from the spec: the constructor of `GxsTunnelDHInfo` is in the
header; no DH object, null ids, status 0.  -/
def GxsTunnelDHInfo.default : GxsTunnelDHInfo :=
  { dh := none, gxs_id := RsId.null 16, own_gxs_id := RsId.null 16,
    tunnel_id := RsId.null 20, status := .UNINITIALIZED, hash := RsId.null 20,
    direction := .CLIENT }

/-! ### `std::map` -/

/-- A `std::map`: the entries in iteration order. -/
abbrev Map (K V : Type) := List (K × V)

/-- `m.find(k)`: the value of the first entry with key `k`. -/
def Map.find {K V : Type} [DecidableEq K] : Map K V → K → Option V
  | [], _ => none
  | (k', v) :: rest, k => if k' = k then some v else Map.find rest k

/-- `m[k] = v`: replaces the entry with key `k`, or inserts it before the first
larger key. -/
def Map.insert {K V : Type} [DecidableEq K] (lt : K → K → Bool) (k : K) (v : V) :
    Map K V → Map K V
  | [] => [(k, v)]
  | (k', v') :: rest =>
    if k' = k then (k, v) :: rest
    else if lt k k' then (k, v) :: (k', v') :: rest
    else (k', v') :: Map.insert lt k v rest

/-- `m.erase(it)` for the entry with key `k`. -/
def Map.erase {K V : Type} [DecidableEq K] (k : K) : Map K V → Map K V
  | [] => []
  | (k', v) :: rest => if k' = k then Map.erase k rest else (k', v) :: Map.erase k rest

/-- In-place update through an iterator to the entry with key `k`. -/
def Map.modify {K V : Type} [DecidableEq K] (k : K) (f : V → V) : Map K V → Map K V
  | [] => []
  | (k', v) :: rest =>
    if k' = k then (k', f v) :: Map.modify k f rest else (k', v) :: Map.modify k f rest

/-- Order of the counters in `pendingGxsTunnelDataItems`. -/
def natLt (a b : Nat) : Bool := decide (a < b)

/-- The fields of `p3GxsTunnelService`. -/
structure State where
  mRegisteredServices : Map Nat Nat
  _gxs_tunnel_contacts : Map RsGxsTunnelId GxsTunnelPeerInfo
  _gxs_tunnel_virtual_peer_ids : Map RsPeerId GxsTunnelDHInfo
  pendingDHItems : List RsGxsTunnelDHPublicKeyItem
  pendingGxsTunnelItems : List RsGxsTunnelItem
  pendingGxsTunnelDataItems : Map Nat GxsTunnelData
  global_item_counter : Nat
deriving DecidableEq

/-- The constructor: empty tables and queues, counter 0. -/
def State.init : State :=
  { mRegisteredServices := [], _gxs_tunnel_contacts := [],
    _gxs_tunnel_virtual_peer_ids := [], pendingDHItems := [],
    pendingGxsTunnelItems := [], pendingGxsTunnelDataItems := [],
    global_item_counter := 0 }

/-! ## Constants of the source file -/

/-- Seconds between two keep-alive packets. -/
def GXS_TUNNEL_KEEP_ALIVE_TIMEOUT : Nat := 6
/-- Seconds between two sending attempts of a data item. -/
def RS_GXS_TUNNEL_DELAY_BETWEEN_RESEND : Nat := 10
/-- `SHA_DIGEST_LENGTH`. -/
def GXS_TUNNEL_ENCRYPTION_HMAC_SIZE : Nat := 20
/-- Size of the IV at the head of a frame. -/
def GXS_TUNNEL_ENCRYPTION_IV_SIZE : Nat := 8
/-- Modelled from the spec: `GXS_TUNNEL_AES_KEY_SIZE` is declared in the
header; the key has 16 bytes. -/
def GXS_TUNNEL_AES_KEY_SIZE : Nat := 16

/-! ## Hashes and tunnel ids -/

/-- `makeGxsTunnelId`: SHA-1 of the two ids, the smaller one first. -/
def makeGxsTunnelId (env : Env) (own_id distant_id : RsGxsId) : RsGxsTunnelId :=
  let mem : Bytes :=
    if RsId.lt own_id distant_id then own_id.val ++ distant_id.val
    else distant_id.val ++ own_id.val
  RsId.fromBytes 20 (env.sha1sum mem).val (by rw [(env.sha1sum mem).property])

/-- `randomHashFromDestinationGxsId`: the 16 bytes of the destination followed
by 4 random bytes (the `c`-th draw of `RAND_bytes`). -/
def randomHashFromDestinationGxsId (env : Env) (c : Nat) (destination : RsGxsId) :
    Sha1CheckSum :=
  ⟨destination.val ++ (env.RAND_bytes c).val, by
    rw [List.length_append, destination.property, (env.RAND_bytes c).property]⟩

/-- `destinationGxsIdFromHash`: takes the first 16 bytes. -/
def destinationGxsIdFromHash (sum : Sha1CheckSum) : RsGxsId :=
  RsId.fromBytes 16 sum.val (by rw [sum.property]; decide)

/-! ## Registry -/

/-- `registerClientService`. -/
def registerClientService (s : State) (service_id service : Nat) : Bool × State :=
  match Map.find s.mRegisteredServices service_id with
  | some _ => (false, s)
  | none =>
    (true, { s with mRegisteredServices :=
                      Map.insert natLt service_id service s.mRegisteredServices })

/-! ## Sending -/

/-- `locked_sendClearTunnelData`: eight zero bytes, then the serialised item. -/
def locked_sendClearTunnelData (env : Env) (item : RsGxsTunnelDHPublicKeyItem) :
    Bool × List Event :=
  match env.serialise (.dhkey item) with
  | none => (false, [])
  | some body => (true, [Event.sendTurtleData item.peerId (List.replicate 8 0 ++ body)])

/-- The eight bytes of a `uint64_t` in memory (host order, least significant
byte first). -/
def u64Bytes (x : Nat) : Bytes :=
  (List.range 8).map (fun i => x / 256 ^ i % 256)

/-- The loop `while(IV == 0) IV = RSRandom::random_u64()`, starting at draw
`c`; `none` when `fuel` iterations did not leave the loop.  Returns the IV and
the index of the next draw. -/
def drawIV (env : Env) : Nat → Nat → Option (Nat × Nat)
  | 0, _ => none
  | fuel + 1, c =>
    let IV := env.random_u64 c % 2 ^ 64
    if IV = 0 then drawIV env fuel (c + 1) else some (IV, c + 1)

/-- `locked_sendEncryptedTunnelData`: the return value, the index of the next
random draw and the calls made.  The state is only read.  `none` stands for a
run without result: the IV loop did not end within `fuel` draws, or
`aes_crypt_8_16` failed, where the source runs `delete[]` on the buffer that
the `RsTemporaryMemory` object on the stack frees again when it goes out of
scope (a double free, no defined behaviour). -/
def locked_sendEncryptedTunnelData (env : Env) (fuel c : Nat) (s : State)
    (item : RsGxsTunnelItem) : Option (Bool × Nat × List Event) :=
  match env.serialise item with
  | none => some (false, c, [])
  | some buff =>
    match Map.find s._gxs_tunnel_virtual_peer_ids item.PeerId with
    | none => some (false, c, [])
    | some dhinfo =>
      match Map.find s._gxs_tunnel_contacts dhinfo.tunnel_id with
      | none => some (false, c, [])
      | some pinfo =>
        if pinfo.status ≠ TunnelStatus.CAN_TALK then some (false, c, [])
        else
          match drawIV env fuel c with
          | none => none
          | some (IV, c') =>
            match env.aes_crypt_8_16 pinfo.aes_key (u64Bytes IV) buff with
            | none => none
            | some encrypted_data =>
              some (true, c',
                [Event.sendTurtleData pinfo.virtual_peer_id
                  (u64Bytes IV ++ (env.HMAC pinfo.aes_key encrypted_data).val
                    ++ encrypted_data)])

/-! ## The periodic flush -/

/-- First loop of `flush`: `while(!pendingDHItems.empty())`, popping the front
only when it was sent.  `none`: still looping after `fuel` iterations. -/
def flushDHItems (env : Env) :
    Nat → List RsGxsTunnelDHPublicKeyItem →
      Option (List RsGxsTunnelDHPublicKeyItem × List Event)
  | _, [] => some ([], [])
  | 0, _ :: _ => none
  | fuel + 1, item :: rest =>
    match locked_sendClearTunnelData env item with
    | (true, ev) =>
      (flushDHItems env fuel rest).map (fun r => (r.1, ev ++ r.2))
    | (false, ev) =>
      (flushDHItems env fuel (item :: rest)).map (fun r => (r.1, ev ++ r.2))

/-- Second loop of `flush`: `while(!pendingGxsTunnelItems.empty())`, popping
the front only when it was sent.  `none`: still looping after `fuel`
iterations, or a send without result. -/
def flushTunnelItems (env : Env) (s : State) :
    Nat → Nat → List RsGxsTunnelItem → Option (List RsGxsTunnelItem × Nat × List Event)
  | _, c, [] => some ([], c, [])
  | 0, _, _ :: _ => none
  | fuel + 1, c, item :: rest =>
    match locked_sendEncryptedTunnelData env (fuel + 1) c s item with
    | none => none
    | some (true, c', ev) =>
      (flushTunnelItems env s fuel c' rest).map (fun r => (r.1, r.2.1, ev ++ r.2.2))
    | some (false, c', ev) =>
      (flushTunnelItems env s fuel c' (item :: rest)).map
        (fun r => (r.1, r.2.1, ev ++ r.2.2))

/-- Third loop of `flush`: every pending data entry that is due is sent again,
in the order of the map.  `none`: a send without result. -/
def flushDataItems (env : Env) (fuel now : Nat) (s : State) :
    Map Nat GxsTunnelData → Nat → Option (Map Nat GxsTunnelData × Nat × List Event)
  | [], c => some ([], c, [])
  | (k, d) :: rest, c =>
    if now > RS_GXS_TUNNEL_DELAY_BETWEEN_RESEND + d.last_sending_attempt then
      match locked_sendEncryptedTunnelData env fuel c s (.data d.data_item) with
      | none => none
      | some (sent, c', ev) =>
        (flushDataItems env fuel now s rest c').map (fun r =>
          ((k, if sent then { d with last_sending_attempt := now } else d) :: r.1,
            r.2.1, ev ++ r.2.2))
    else
      (flushDataItems env fuel now s rest c).map (fun r => ((k, d) :: r.1, r.2.1, r.2.2))

/-- Body of the last loop of `flush` for one tunnel record: the record
afterwards, the keep-alive to enqueue, the index of the next random draw and
the router calls. -/
def flushTunnel (env : Env) (now c : Nat) (t : GxsTunnelPeerInfo) :
    GxsTunnelPeerInfo × List RsGxsTunnelItem × Nat × List Event :=
  let dn : Bool := decide (t.last_contact + 20 + GXS_TUNNEL_KEEP_ALIVE_TIMEOUT < now)
    && decide (t.status = TunnelStatus.CAN_TALK)
  let t1 : GxsTunnelPeerInfo :=
    if dn then { t with status := TunnelStatus.TUNNEL_DN, virtual_peer_id := RsId.null 16 }
    else t
  let redig : Bool := dn && decide (t.direction = Direction.SERVER)
  let ev : List Event :=
    if redig then
      [Event.forceReDiggTunnels (randomHashFromDestinationGxsId env c t.to_gxs_id)]
    else []
  let c1 : Nat := if redig then c + 1 else c
  let ka : Bool := decide (t1.last_keep_alive_sent + GXS_TUNNEL_KEEP_ALIVE_TIMEOUT < now)
    && decide (t1.status = TunnelStatus.CAN_TALK)
  let cs : List RsGxsTunnelItem :=
    if ka then
      [RsGxsTunnelItem.status
        { peerId := t1.virtual_peer_id, flags := RS_GXS_TUNNEL_FLAG_KEEP_ALIVE }]
    else []
  let t2 : GxsTunnelPeerInfo := if ka then { t1 with last_keep_alive_sent := now } else t1
  (t2, cs, c1, ev)

/-- Last loop of `flush` over `_gxs_tunnel_contacts`. -/
def flushTunnels (env : Env) (now : Nat) :
    Map RsGxsTunnelId GxsTunnelPeerInfo → Nat →
      Map RsGxsTunnelId GxsTunnelPeerInfo × List RsGxsTunnelItem × Nat × List Event
  | [], c => ([], [], c, [])
  | (k, t) :: rest, c =>
    let r := flushTunnel env now c t
    let r' := flushTunnels env now rest r.2.2.1
    ((k, r.1) :: r'.1, r.2.1 ++ r'.2.1, r'.2.2.1, r.2.2.2 ++ r'.2.2.2)

/-- `flush` at time `now` (both readings of the clock return `now`): the state
afterwards and the calls made, or `none` when one of the loops was still
running after `fuel` iterations or a send had no result. -/
def flush (env : Env) (fuel now : Nat) (s : State) : Option (State × List Event) :=
  match flushDHItems env fuel s.pendingDHItems with
  | none => none
  | some (dhq, ev1) =>
    match flushTunnelItems env s fuel 0 s.pendingGxsTunnelItems with
    | none => none
    | some (q, c2, ev2) =>
      match flushDataItems env fuel now s s.pendingGxsTunnelDataItems c2 with
      | none => none
      | some (dq, c3, ev3) =>
        let r := flushTunnels env now s._gxs_tunnel_contacts c3
        some ({ s with pendingDHItems := dhq,
                       pendingGxsTunnelItems := q ++ r.2.1,
                       pendingGxsTunnelDataItems := dq,
                       _gxs_tunnel_contacts := r.1 },
              ev1 ++ ev2 ++ ev3 ++ r.2.2.2)

/-! ## Handling of decrypted items -/

/-- `handleRecvTunnelDataAckItem`: the tunnel id is not used. -/
def handleRecvTunnelDataAckItem (s : State) (_id : RsGxsTunnelId)
    (item : RsGxsTunnelDataAckItem) : State :=
  match Map.find s.pendingGxsTunnelDataItems item.unique_item_counter with
  | none => s
  | some _ =>
    { s with pendingGxsTunnelDataItems :=
               Map.erase item.unique_item_counter s.pendingGxsTunnelDataItems }

/-- `handleRecvTunnelDataItem`: enqueue the ACK, then hand the data to the
registered service. -/
def handleRecvTunnelDataItem (s : State) (tunnel_id : RsGxsTunnelId)
    (item : RsGxsTunnelDataItem) : State × List Event :=
  let ackitem : RsGxsTunnelDataAckItem :=
    { peerId := item.peerId, unique_item_counter := item.unique_item_counter }
  let s1 : State :=
    { s with pendingGxsTunnelItems := s.pendingGxsTunnelItems ++ [RsGxsTunnelItem.ack ackitem] }
  match Map.find s1.mRegisteredServices item.service_id with
  | none => (s1, [])
  | some service => (s1, [Event.receiveData service tunnel_id item.data])

/-- `markGxsTunnelAsClosed`. -/
def markGxsTunnelAsClosed (s : State) (tunnel_id : RsGxsTunnelId) : State :=
  match Map.find s._gxs_tunnel_contacts tunnel_id with
  | none => s
  | some pinfo =>
    if pinfo.direction = Direction.CLIENT then
      { s with _gxs_tunnel_contacts :=
                 Map.modify tunnel_id
                   (fun p => { p with status := TunnelStatus.REMOTELY_CLOSED })
                   s._gxs_tunnel_contacts }
    else s

/-- `handleRecvStatusItem`. -/
def handleRecvStatusItem (s : State) (tunnel_id : RsGxsTunnelId)
    (cs : RsGxsTunnelStatusItem) : State :=
  if cs.flags &&& RS_GXS_TUNNEL_FLAG_CLOSING_DISTANT_CONNECTION ≠ 0 then
    markGxsTunnelAsClosed s tunnel_id
  else s

/-- `handleIncomingItem`: dispatch on the packet subtype. -/
def handleIncomingItem (s : State) (tunnel_id : RsGxsTunnelId) :
    RsGxsTunnelItem → State × List Event
  | .data i => handleRecvTunnelDataItem s tunnel_id i
  | .ack i => (handleRecvTunnelDataAckItem s tunnel_id i, [])
  | .status i => (handleRecvStatusItem s tunnel_id i, [])
  | .dhkey _ => (s, [])

/-- `handleTunnelRequest`: linear search of the destination among the own ids. -/
def handleTunnelRequest (env : Env) (hash : Sha1CheckSum) (_peer_id : RsPeerId) : Bool :=
  env.getOwnIds.any (fun id => decide (id = destinationGxsIdFromHash hash))

/-! ## DH sessions -/

/-- `locked_initDHSessionKey`: frees the old object and generates a new key
pair; returns the success flag and the new value of the pointer. -/
def locked_initDHSessionKey (env : Env) (_dh : Option DH) : Bool × Option DH :=
  match env.dh_init with
  | .new_failed => (false, none)
  | .check_failed => (false, some { keys := none })
  | .generate_failed => (false, some { keys := none })
  | .ok priv pub => (true, some { keys := some (priv, pub) })

/-- `locked_sendDHPublicKey`: sign the public value and enqueue the item in
`pendingDHItems`.  The only caller passes an object whose key pair was just
generated. -/
def locked_sendDHPublicKey (env : Env) (s : State) (dh : Option DH) (own_gxs_id : RsGxsId)
    (virtual_peer_id : RsPeerId) : Bool × State :=
  match dh with
  | none => (false, s)
  | some d =>
    match d.keys with
    | none => (false, s)
    | some (_, public_key) =>
      match env.signData public_key own_gxs_id with
      | none => (false, s)
      | some signature =>
        match env.getKey own_gxs_id with
        | none => (false, s)
        | some signature_key_public =>
          (true, { s with pendingDHItems := s.pendingDHItems ++
            [{ peerId := virtual_peer_id, public_key := public_key,
               signature := signature, gxs_key := signature_key_public }] })

/-- `locked_restartDHSession`. -/
def locked_restartDHSession (env : Env) (s : State) (virtual_peer_id : RsPeerId)
    (own_gxs_id : RsGxsId) : State :=
  let dhinfo0 : GxsTunnelDHInfo :=
    (Map.find s._gxs_tunnel_virtual_peer_ids virtual_peer_id).getD GxsTunnelDHInfo.default
  let r := locked_initDHSessionKey env dhinfo0.dh
  let dhinfo1 : GxsTunnelDHInfo :=
    { dhinfo0 with status := DHStatus.UNINITIALIZED, own_gxs_id := own_gxs_id, dh := r.2 }
  if r.1 = false then
    { s with _gxs_tunnel_virtual_peer_ids :=
               Map.insert RsId.lt virtual_peer_id dhinfo1 s._gxs_tunnel_virtual_peer_ids }
  else
    let dhinfo2 : GxsTunnelDHInfo := { dhinfo1 with status := DHStatus.HALF_KEY_DONE }
    let s1 : State :=
      { s with _gxs_tunnel_virtual_peer_ids :=
                 Map.insert RsId.lt virtual_peer_id dhinfo2 s._gxs_tunnel_virtual_peer_ids }
    (locked_sendDHPublicKey env s1 dhinfo2.dh own_gxs_id virtual_peer_id).2

/-- `addVirtualPeer`. -/
def addVirtualPeer (env : Env) (s : State) (hash : Sha1CheckSum)
    (virtual_peer_id : RsPeerId) (dir : Direction) : State :=
  let dhinfo0 : GxsTunnelDHInfo :=
    (Map.find s._gxs_tunnel_virtual_peer_ids virtual_peer_id).getD GxsTunnelDHInfo.default
  let dhinfo : GxsTunnelDHInfo :=
    { dhinfo0 with gxs_id := RsId.null 16, dh := none, direction := dir, hash := hash,
                   status := DHStatus.UNINITIALIZED, tunnel_id := RsId.null 20 }
  let s1 : State :=
    { s with _gxs_tunnel_virtual_peer_ids :=
               Map.insert RsId.lt virtual_peer_id dhinfo s._gxs_tunnel_virtual_peer_ids }
  if dir = Direction.CLIENT then
    locked_restartDHSession env s1 virtual_peer_id (destinationGxsIdFromHash hash)
  else
    match s1._gxs_tunnel_contacts.find? (fun p => decide (p.2.hash = hash)) with
    | none => s1
    | some (_, pinfo) =>
      if pinfo.status = TunnelStatus.CAN_TALK then s1
      else locked_restartDHSession env s1 virtual_peer_id pinfo.own_gxs_id

/-- `removeVirtualPeer`. -/
def removeVirtualPeer (s : State) (_hash : Sha1CheckSum) (virtual_peer_id : RsPeerId) :
    State :=
  match Map.find s._gxs_tunnel_virtual_peer_ids virtual_peer_id with
  | none => s
  | some dhinfo =>
    let tunnel_id := dhinfo.tunnel_id
    let s1 : State :=
      { s with _gxs_tunnel_virtual_peer_ids :=
                 Map.erase virtual_peer_id s._gxs_tunnel_virtual_peer_ids }
    match Map.find s1._gxs_tunnel_contacts tunnel_id with
    | none => s1
    | some pinfo =>
      if pinfo.virtual_peer_id = virtual_peer_id then
        { s1 with _gxs_tunnel_contacts :=
                    Map.modify tunnel_id
                      (fun p => { p with status := TunnelStatus.TUNNEL_DN,
                                         virtual_peer_id := RsId.null 16 })
                      s1._gxs_tunnel_contacts }
      else s1

/-! ## Inbound frames -/

/-- `handleEncryptedData` at time `now`: return value, state and calls.
`none` stands for a run that reads past the end of `data_bytes`, which has no
defined behaviour: the size `data_size - 8 - 20` is computed in `uint32_t`
without a check of `data_size`. -/
def handleEncryptedData (env : Env) (now : Nat) (s : State) (data_bytes : Bytes)
    (_hash : Sha1CheckSum) (virtual_peer_id : RsPeerId) :
    Option (Bool × State × List Event) :=
  let data_size : Nat := data_bytes.length
  let encrypted_size : Nat :=
    (data_size + 2 ^ 32 - GXS_TUNNEL_ENCRYPTION_IV_SIZE - GXS_TUNNEL_ENCRYPTION_HMAC_SIZE)
      % 2 ^ 32
  match Map.find s._gxs_tunnel_virtual_peer_ids virtual_peer_id with
  | none => some (true, s, [])
  | some dhinfo =>
    let tunnel_id := dhinfo.tunnel_id
    match Map.find s._gxs_tunnel_contacts tunnel_id with
    | none => some (true, s, [])
    | some pinfo =>
      let aes_key := pinfo.aes_key
      if data_size <
          GXS_TUNNEL_ENCRYPTION_IV_SIZE + GXS_TUNNEL_ENCRYPTION_HMAC_SIZE + encrypted_size then
        none
      else
        let encrypted_data : Bytes :=
          (data_bytes.drop (GXS_TUNNEL_ENCRYPTION_IV_SIZE + GXS_TUNNEL_ENCRYPTION_HMAC_SIZE)).take
            encrypted_size
        let hm := env.HMAC aes_key encrypted_data
        if hm.val ≠ (data_bytes.drop GXS_TUNNEL_ENCRYPTION_IV_SIZE).take
            GXS_TUNNEL_ENCRYPTION_HMAC_SIZE then
          some (false, locked_restartDHSession env s virtual_peer_id pinfo.own_gxs_id, [])
        else
          match env.aes_decrypt_8_16 aes_key (data_bytes.take GXS_TUNNEL_ENCRYPTION_IV_SIZE)
              encrypted_data with
          | none =>
            some (false, locked_restartDHSession env s virtual_peer_id pinfo.own_gxs_id, [])
          | some decrypted_data =>
            let s1 : State :=
              { s with _gxs_tunnel_contacts :=
                         Map.modify tunnel_id
                           (fun p => { p with status := TunnelStatus.CAN_TALK,
                                              last_contact := now })
                           s._gxs_tunnel_contacts }
            match env.deserialise decrypted_data with
            | none => some (true, s1, [])
            | some citem =>
              let r := handleIncomingItem s1 tunnel_id (citem.setPeerId virtual_peer_id)
              some (true, r.1, r.2)

/-- The loop of `handleRecvDHPublicKey` that asks `getKey` up to `n` times. -/
def getKeyRetry (env : Env) (id : RsGxsId) : Nat → Option RsTlvSecurityKey
  | 0 => none
  | n + 1 =>
    match env.getKey id with
    | some key => some key
    | none => getKeyRetry env id n

/-- `handleRecvDHPublicKey` at time `now` (both readings of the clock return
`now`; the key cache gives the same answer at each of the six tries).  `none`
stands for a run that calls `DH_size` on a null pointer (after a restart whose
`DH_new` failed). -/
def handleRecvDHPublicKey (env : Env) (now : Nat) (s : State)
    (item : RsGxsTunnelDHPublicKeyItem) : Option (State × List Event) :=
  let vpid := item.peerId
  match Map.find s._gxs_tunnel_virtual_peer_ids vpid with
  | none => some (s, [])
  | some dhinfo =>
    let data := item.public_key
    let senders_id := item.signature.keyId
    let signature_key : Option RsTlvSecurityKey :=
      match getKeyRetry env senders_id 6 with
      | some key => some key
      | none =>
        if env.checkPublicKey item.gxs_key = false then none
        else if item.gxs_key.keyId ≠ item.signature.keyId then none
        else some item.gxs_key
    match signature_key with
    | none => some (s, [])
    | some key =>
      if env.validateSignature data key item.signature = false then some (s, [])
      else
        let ev := [Event.timeStampKey item.signature.keyId]
        match dhinfo.dh with
        | none => some (s, ev)
        | some _ =>
          let s1 : State :=
            if dhinfo.status = DHStatus.KEY_AVAILABLE then
              locked_restartDHSession env s vpid dhinfo.own_gxs_id
            else s
          let dhinfo1 : GxsTunnelDHInfo :=
            (Map.find s1._gxs_tunnel_virtual_peer_ids vpid).getD dhinfo
          let own_id := dhinfo1.own_gxs_id
          let tunnel_id := makeGxsTunnelId env own_id senders_id
          let s2 : State :=
            { s1 with _gxs_tunnel_virtual_peer_ids :=
                        Map.modify vpid
                          (fun d => { d with tunnel_id := tunnel_id, gxs_id := senders_id })
                          s1._gxs_tunnel_virtual_peer_ids }
          match dhinfo1.dh with
          | none => none
          | some d =>
            match d.keys.bind (fun kp => env.DH_compute_key item.public_key kp.1) with
            | none => some (s2, ev)
            | some key_buff =>
              let pinfo0 : GxsTunnelPeerInfo :=
                (Map.find s2._gxs_tunnel_contacts tunnel_id).getD GxsTunnelPeerInfo.default
              let pinfo : GxsTunnelPeerInfo :=
                { pinfo0 with
                    aes_key := (env.sha1sum key_buff).val.take GXS_TUNNEL_AES_KEY_SIZE,
                    last_contact := now, last_keep_alive_sent := now,
                    status := TunnelStatus.CAN_TALK, virtual_peer_id := vpid,
                    direction := dhinfo1.direction, own_gxs_id := own_id }
              let cs : RsGxsTunnelItem :=
                .status { peerId := vpid, flags := RS_GXS_TUNNEL_FLAG_ACK_DISTANT_CONNECTION }
              some ({ s2 with
                        _gxs_tunnel_virtual_peer_ids :=
                          Map.modify vpid
                            (fun d => { d with status := DHStatus.KEY_AVAILABLE })
                            s2._gxs_tunnel_virtual_peer_ids,
                        _gxs_tunnel_contacts :=
                          Map.insert RsId.lt tunnel_id pinfo s2._gxs_tunnel_contacts,
                        pendingGxsTunnelItems := s2.pendingGxsTunnelItems ++ [cs] },
                    ev)

/-- `receiveTurtleData` for a data item with payload `data_bytes` at time
`now`; `none` as in `handleEncryptedData` and `handleRecvDHPublicKey`. -/
def receiveTurtleData (env : Env) (now : Nat) (s : State) (data_bytes : Bytes)
    (hash : Sha1CheckSum) (virtual_peer_id : RsPeerId) : Option (State × List Event) :=
  if data_bytes.length < 8 then some (s, [])
  else if data_bytes.take 8 ≠ List.replicate 8 0 then
    (handleEncryptedData env now s data_bytes hash virtual_peer_id).map (fun r => r.2)
  else
    match env.deserialise (data_bytes.drop 8) with
    | some (.dhkey dhitem) =>
      handleRecvDHPublicKey env now s { dhitem with peerId := virtual_peer_id }
    | _ => some (s, [])

/-! ## Public operations -/

/-- Error code of `requestSecuredTunnel`. -/
inductive TunnelError where
  | RS_GXS_TUNNEL_ERROR_NO_ERROR
  | RS_GXS_TUNNEL_ERROR_UNKNOWN_GXS_ID
deriving DecidableEq

/-- `startClientGxsTunnelConnection` at time `now`: the tunnel id, the state
and the router calls. -/
def startClientGxsTunnelConnection (env : Env) (now : Nat) (s : State)
    (to_gxs_id from_gxs_id : RsGxsId) : RsGxsTunnelId × State × List Event :=
  let hash := randomHashFromDestinationGxsId env 0 to_gxs_id
  let tunnel_id := makeGxsTunnelId env from_gxs_id to_gxs_id
  match Map.find s._gxs_tunnel_contacts tunnel_id with
  | some _ => (tunnel_id, s, [])
  | none =>
    let info : GxsTunnelPeerInfo :=
      { last_contact := now, last_keep_alive_sent := now,
        status := TunnelStatus.TUNNEL_DN, own_gxs_id := from_gxs_id,
        to_gxs_id := to_gxs_id, hash := hash, direction := Direction.SERVER,
        virtual_peer_id := RsId.null 16,
        aes_key := List.replicate GXS_TUNNEL_AES_KEY_SIZE 0 }
    (tunnel_id,
     { s with _gxs_tunnel_contacts := Map.insert RsId.lt tunnel_id info s._gxs_tunnel_contacts },
     [Event.monitorTunnels hash])

/-- `requestSecuredTunnel`: return value, the tunnel id when it was written,
the error code, the state and the router calls. -/
def requestSecuredTunnel (env : Env) (now : Nat) (s : State)
    (to_gxs_id from_gxs_id : RsGxsId) :
    Bool × Option RsGxsTunnelId × TunnelError × State × List Event :=
  if env.getOwnIds.any (fun id => decide (id = from_gxs_id)) = false then
    (false, none, TunnelError.RS_GXS_TUNNEL_ERROR_UNKNOWN_GXS_ID, s, [])
  else
    let r := startClientGxsTunnelConnection env now s to_gxs_id from_gxs_id
    (true, some r.1, TunnelError.RS_GXS_TUNNEL_ERROR_NO_ERROR, r.2.1, r.2.2)

/-- `sendData`: the item is stored in `pendingGxsTunnelDataItems`; its peer id
is the one the item constructor leaves (no call of `PeerId(...)`). -/
def sendData (s : State) (tunnel_id : RsGxsTunnelId) (service_id : Nat) (data : Bytes) :
    Bool × State :=
  match Map.find s._gxs_tunnel_contacts tunnel_id with
  | none => (false, s)
  | some _ =>
    match Map.find s.mRegisteredServices service_id with
    | none => (false, s)
    | some _ =>
      let item : RsGxsTunnelDataItem :=
        { peerId := RsId.null 16, unique_item_counter := s.global_item_counter,
          flags := 0, service_id := service_id, data := data }
      let tdata : GxsTunnelData := { data_item := item, last_sending_attempt := 0 }
      (true,
       { s with global_item_counter := (s.global_item_counter + 1) % 2 ^ 64,
                pendingGxsTunnelDataItems :=
                  Map.insert natLt item.unique_item_counter tdata
                    s.pendingGxsTunnelDataItems })

/-- `getTunnelStatus`. -/
def getTunnelStatus (s : State) (tunnel_id : RsGxsTunnelId) : Bool × TunnelStatus :=
  match Map.find s._gxs_tunnel_contacts tunnel_id with
  | some pinfo => (true, pinfo.status)
  | none => (false, TunnelStatus.UNKNOWN)

/-- `closeExistingTunnel`: return value, state and router calls; `none` when
the send of the closing packet has no result (see
`locked_sendEncryptedTunnelData`). -/
def closeExistingTunnel (env : Env) (fuel : Nat) (s : State) (tunnel_id : RsGxsTunnelId) :
    Option (Bool × State × List Event) :=
  match Map.find s._gxs_tunnel_contacts tunnel_id with
  | none => some (false, s, [])
  | some pinfo =>
    let vpid := pinfo.virtual_peer_id
    if pinfo.direction = Direction.CLIENT then some (true, s, [])
    else
      let hash : Sha1CheckSum :=
        match Map.find s._gxs_tunnel_virtual_peer_ids vpid with
        | some dhinfo => dhinfo.hash
        | none => RsId.null 20
      let cs : RsGxsTunnelItem :=
        .status { peerId := vpid, flags := RS_GXS_TUNNEL_FLAG_CLOSING_DISTANT_CONNECTION }
      match locked_sendEncryptedTunnelData env fuel 0 s cs with
      | none => none
      | some (_, _, ev) =>
        match Map.find s._gxs_tunnel_contacts tunnel_id with
        | none => some (false, s, ev ++ [Event.stopMonitoringTunnels hash])
        | some _ =>
          some (true,
                { s with _gxs_tunnel_contacts := Map.erase tunnel_id s._gxs_tunnel_contacts },
                ev ++ [Event.stopMonitoringTunnels hash])

/-! ## The tunnel id as the spec words it -/

/-- The smaller of two ids in the byte-lexicographic order. -/
def lexMin (a b : RsGxsId) : RsGxsId :=
  if List.Lex (· < ·) b.val a.val then b else a

/-- The larger of two ids in the byte-lexicographic order. -/
def lexMax (a b : RsGxsId) : RsGxsId :=
  if List.Lex (· < ·) b.val a.val then a else b

/-- The tunnel id of the spec: the SHA-1 digest of `min(a,b) || max(a,b)`. -/
def specTunnelId (env : Env) (a b : RsGxsId) : Sha1CheckSum :=
  env.sha1sum ((lexMin a b).val ++ (lexMax a b).val)

/-! ## The key a DH public key is checked against -/

/-- The key `handleRecvDHPublicKey` leaves in `signature_key` before it calls
`validateSignature`: the key of the sender from the key cache, else the key
carried by the item when that key is consistent and has the id of the
signature; `none` when the handler gives up before the check. -/
def signatureKey (env : Env) (item : RsGxsTunnelDHPublicKeyItem) : Option RsTlvSecurityKey :=
  match getKeyRetry env item.signature.keyId 6 with
  | some key => some key
  | none =>
    if env.checkPublicKey item.gxs_key = false then none
    else if item.gxs_key.keyId ≠ item.signature.keyId then none
    else some item.gxs_key

/-! ## Sequences of inbound frames -/

/-- One `receiveTurtleData` callback with the environment and time at which it
happens. -/
structure InboundFrame where
  env : Env
  now : Nat
  data_bytes : Bytes
  hash : Sha1CheckSum
  virtual_peer_id : RsPeerId

/-- The callbacks of `frames` one after the other: the last state and all the
calls made; `none` when one of them has no defined behaviour. -/
def receiveFrames : State → List InboundFrame → Option (State × List Event)
  | s, [] => some (s, [])
  | s, f :: rest =>
    match receiveTurtleData f.env f.now s f.data_bytes f.hash f.virtual_peer_id with
    | none => none
    | some r => (receiveFrames r.1 rest).map (fun r' => (r'.1, r.2 ++ r'.2))

/-! ## Reachable states -/

/-- The states reachable from the initial state through the public operations
and the overlay callbacks, each step with any environment, time and fuel. -/
inductive Reachable : State → Prop where
  | init : Reachable State.init
  | registerClientService {s : State} (service_id service : Nat) :
      Reachable s → Reachable (registerClientService s service_id service).2
  | requestSecuredTunnel {s : State} (env : Env) (now : Nat) (to_gxs_id from_gxs_id : RsGxsId) :
      Reachable s → Reachable (requestSecuredTunnel env now s to_gxs_id from_gxs_id).2.2.2.1
  | closeExistingTunnel {s s' : State} (env : Env) (fuel : Nat) (tunnel_id : RsGxsTunnelId)
      (ret : Bool) (ev : List Event) :
      Reachable s → closeExistingTunnel env fuel s tunnel_id = some (ret, s', ev) →
      Reachable s'
  | sendData {s : State} (tunnel_id : RsGxsTunnelId) (service_id : Nat) (data : Bytes) :
      Reachable s → Reachable (sendData s tunnel_id service_id data).2
  | flush {s s' : State} (env : Env) (fuel now : Nat) (ev : List Event) :
      Reachable s → flush env fuel now s = some (s', ev) → Reachable s'
  | addVirtualPeer {s : State} (env : Env) (hash : Sha1CheckSum) (vpid : RsPeerId)
      (dir : Direction) :
      Reachable s → Reachable (addVirtualPeer env s hash vpid dir)
  | removeVirtualPeer {s : State} (hash : Sha1CheckSum) (vpid : RsPeerId) :
      Reachable s → Reachable (removeVirtualPeer s hash vpid)
  | receiveTurtleData {s s' : State} (env : Env) (now : Nat) (data : Bytes)
      (hash : Sha1CheckSum) (vpid : RsPeerId) (ev : List Event) :
      Reachable s → receiveTurtleData env now s data hash vpid = some (s', ev) →
      Reachable s'

/-- A tunnel record that is `TUNNEL_DN` has an empty `virtual_peer_id`. -/
def DownUnbound (r : GxsTunnelPeerInfo) : Prop :=
  r.status = TunnelStatus.TUNNEL_DN → r.virtual_peer_id = RsId.null 16

/-- Every record of a tunnel table is `DownUnbound`. -/
def AllDownUnbound (m : Map RsGxsTunnelId GxsTunnelPeerInfo) : Prop :=
  ∀ p ∈ m, DownUnbound p.2

/-! ## Runs and the item counter -/

/-- One operation or overlay callback other than a `sendData` that returns
true. -/
inductive OtherStep : State → State → Prop where
  | registerClientService {s : State} (service_id service : Nat) :
      OtherStep s (registerClientService s service_id service).2
  | requestSecuredTunnel {s : State} (env : Env) (now : Nat) (to_gxs_id from_gxs_id : RsGxsId) :
      OtherStep s (requestSecuredTunnel env now s to_gxs_id from_gxs_id).2.2.2.1
  | closeExistingTunnel {s s' : State} (env : Env) (fuel : Nat) (tunnel_id : RsGxsTunnelId)
      (ret : Bool) (ev : List Event) :
      closeExistingTunnel env fuel s tunnel_id = some (ret, s', ev) → OtherStep s s'
  | sendData_refused {s : State} (tunnel_id : RsGxsTunnelId) (service_id : Nat)
      (data : Bytes) :
      (sendData s tunnel_id service_id data).1 = false →
      OtherStep s (sendData s tunnel_id service_id data).2
  | flush {s s' : State} (env : Env) (fuel now : Nat) (ev : List Event) :
      flush env fuel now s = some (s', ev) → OtherStep s s'
  | addVirtualPeer {s : State} (env : Env) (hash : Sha1CheckSum) (vpid : RsPeerId)
      (dir : Direction) :
      OtherStep s (addVirtualPeer env s hash vpid dir)
  | removeVirtualPeer {s : State} (hash : Sha1CheckSum) (vpid : RsPeerId) :
      OtherStep s (removeVirtualPeer s hash vpid)
  | receiveTurtleData {s s' : State} (env : Env) (now : Nat) (data : Bytes)
      (hash : Sha1CheckSum) (vpid : RsPeerId) (ev : List Event) :
      receiveTurtleData env now s data hash vpid = some (s', ev) → OtherStep s s'

/-- `Run s0 n s`: the state `s` is reached from `s0` by a sequence of
operations among which exactly `n` calls of `sendData` returned true. -/
inductive Run (s0 : State) : Nat → State → Prop where
  | start : Run s0 0 s0
  | other {n : Nat} {s1 s2 : State} : Run s0 n s1 → OtherStep s1 s2 → Run s0 n s2
  | sendData {n : Nat} {s1 : State} (tunnel_id : RsGxsTunnelId) (service_id : Nat)
      (data : Bytes) :
      Run s0 n s1 → (sendData s1 tunnel_id service_id data).1 = true →
      Run s0 (n + 1) (sendData s1 tunnel_id service_id data).2

/-- The step from `s` to `s'` keeps `global_item_counter` and adds no key to
`pendingGxsTunnelDataItems`. -/
def CounterKept (s s' : State) : Prop :=
  s'.global_item_counter = s.global_item_counter
  ∧ ∀ p ∈ s'.pendingGxsTunnelDataItems, ∃ q ∈ s.pendingGxsTunnelDataItems, q.1 = p.1

/-! ## A sample environment and sample runs

Concrete collaborators with which the operations can be evaluated: a codec
with one tag byte per item kind, a cipher that leaves the bytes as they are, a
digest that takes the first 20 bytes and a checksum as MAC. -/

/-- The 16-byte id `00 .. 00 n`. -/
def sampleId (n : Nat) : RsId 16 := ⟨List.replicate 15 0 ++ [n], by simp⟩

/-- Sample codec, writing. -/
def sampleSerialise : RsGxsTunnelItem → Option Bytes
  | .data i => some ([1, i.unique_item_counter, i.service_id] ++ i.data)
  | .ack i => some [2, i.unique_item_counter]
  | .status i => some [3, i.flags]
  | .dhkey i => some (4 :: i.signature.keyId.val.getLastD 0 :: i.public_key)

/-- Sample codec, reading. -/
def sampleDeserialise : Bytes → Option RsGxsTunnelItem
  | 1 :: c :: sid :: d =>
    some (.data { peerId := RsId.null 16, unique_item_counter := c, flags := 0,
                  service_id := sid, data := d })
  | [2, c] => some (.ack { peerId := RsId.null 16, unique_item_counter := c })
  | [3, f] => some (.status { peerId := RsId.null 16, flags := f })
  | 4 :: k :: pub =>
    some (.dhkey { peerId := RsId.null 16, public_key := pub,
                   signature := { keyId := sampleId k, signData := [] },
                   gxs_key := { keyId := sampleId k, keyData := [] } })
  | _ => none

/-- The sample environment: every call of a collaborator succeeds. -/
def sampleEnv : Env :=
  { sha1sum := fun b => ⟨(b ++ List.replicate 20 0).take 20, by simp⟩
    HMAC := fun key data => ⟨(key.sum + data.sum) % 256 :: List.replicate 19 0, by simp⟩
    aes_crypt_8_16 := fun _ _ p => some p
    aes_decrypt_8_16 := fun _ _ c => some c
    serialise := sampleSerialise
    deserialise := sampleDeserialise
    getOwnIds := [sampleId 1]
    signData := fun _ id => some { keyId := id, signData := [] }
    getKey := fun id => some { keyId := id, keyData := [] }
    checkPublicKey := fun _ => true
    validateSignature := fun _ _ _ => true
    dh_init := DHInit.ok 3 [5]
    DH_compute_key := fun pub priv => some (priv :: pub)
    random_u64 := fun n => n + 1
    RAND_bytes := fun _ => ⟨[0, 0, 0, 0], rfl⟩ }

/-- The sample environment with a cold key cache: `getKey` finds nothing. -/
def sampleEnvColdCache : Env := { sampleEnv with getKey := fun _ => none }

/-- Our identity in the sample runs. -/
def idA : RsGxsId := sampleId 1
/-- The peer's identity in the sample runs. -/
def idB : RsGxsId := sampleId 2
/-- A virtual peer. -/
def vpid1 : RsPeerId := sampleId 77
/-- The hash under which `idA` is reached. -/
def hashA : Sha1CheckSum := randomHashFromDestinationGxsId sampleEnv 0 idA
/-- The hash under which `idB` is reached. -/
def hashB : Sha1CheckSum := randomHashFromDestinationGxsId sampleEnv 0 idB

/-- A clear frame with the DH public key `[9]` signed by `idB`. -/
def frameDH : Bytes := List.replicate 8 0 ++ [4, 2, 9]

/-- The AES key both sides derive in the sample handshake. -/
def sampleKey : Bytes := (sampleEnv.sha1sum [3, 9]).val.take 16

/-- An encrypted frame with IV 1 around the plaintext `pt`, keyed with
`sampleKey`. -/
def frameEnc (pt : Bytes) : Bytes :=
  u64Bytes 1 ++ (sampleEnv.HMAC sampleKey pt).val ++ pt

/-- Answering side: the overlay announces `vpid1` for `hashA`. -/
def answer1 : State := addVirtualPeer sampleEnv State.init hashA vpid1 Direction.CLIENT

/-- Answering side after the peer's DH public key arrived at time 100. -/
def answer2 : State :=
  match receiveTurtleData sampleEnv 100 answer1 frameDH hashA vpid1 with
  | some r => r.1
  | none => answer1

/-- Digging side: `requestSecuredTunnel(idB, idA)` at time 100. -/
def dig1 : State := (requestSecuredTunnel sampleEnv 100 State.init idB idA).2.2.2.1

/-- Digging side: the overlay announces `vpid1` for `hashB`. -/
def dig2 : State := addVirtualPeer sampleEnv dig1 hashB vpid1 Direction.SERVER

/-- Digging side after the peer's DH public key arrived at time 100. -/
def dig3 : State :=
  match receiveTurtleData sampleEnv 100 dig2 frameDH hashB vpid1 with
  | some r => r.1
  | none => dig2

/-- The tunnel id of the sample conversation. -/
def tunnelAB : RsGxsTunnelId := makeGxsTunnelId sampleEnv idA idB

/-- Answering side with the client service 7 registered (handler 99). -/
def answerReg : State := (registerClientService answer2 7 99).2

/-- An encrypted frame that carries the data item with counter 5 for service 7
and the byte 42. -/
def frameData : Bytes := frameEnc [1, 5, 7, 42]

/-- Answering side after `frameData` arrived at time 101. -/
def answerData : State :=
  match receiveTurtleData sampleEnv 101 answerReg frameData hashA vpid1 with
  | some r => r.1
  | none => answerReg

/-- The frame `frameData` with a MAC field that does not match. -/
def frameBadMac : Bytes := u64Bytes 1 ++ List.replicate 20 255 ++ [1, 5, 7, 42]

/-- The record of `vpid1` on the answering side after the handshake. -/
def answer2Vpid : GxsTunnelDHInfo :=
  (Map.find answer2._gxs_tunnel_virtual_peer_ids vpid1).getD GxsTunnelDHInfo.default

/-- The tunnel record on the answering side after the handshake. -/
def answer2Tunnel : GxsTunnelPeerInfo :=
  (Map.find answer2._gxs_tunnel_contacts tunnelAB).getD GxsTunnelPeerInfo.default

/-- Answering side after the handshake, once the overlay removed `vpid1`:
the connection ACK for `vpid1` is still in `pendingGxsTunnelItems`. -/
def answerGone : State := removeVirtualPeer answer2 hashA vpid1

/-- The sample environment with an item codec that cannot serialise. -/
def sampleEnvNoCodec : Env := { sampleEnv with serialise := fun _ => none }

/-- Digging side after the handshake, with the client service 7 registered
(handler 99). -/
def digReg : State := (registerClientService dig3 7 99).2

/-- Digging side after a first `flush` at time 100 sent what was pending. -/
def digDrained : State :=
  match flush sampleEnv 10 100 digReg with
  | some r => r.1
  | none => digReg

/-- Digging side after `sendData(tunnelAB, 7, [42])`. -/
def digSent : State := (sendData digDrained tunnelAB 7 [42]).2

/-- The tunnel record on the digging side after the handshake. -/
def dig3Tunnel : GxsTunnelPeerInfo :=
  (Map.find dig3._gxs_tunnel_contacts tunnelAB).getD GxsTunnelPeerInfo.default

/-- Digging side after `closeExistingTunnel(tunnelAB)`. -/
def digClosed : State :=
  { digReg with _gxs_tunnel_contacts := Map.erase tunnelAB digReg._gxs_tunnel_contacts }

/-- Digging side after the close and a further DH public key of the peer. -/
def digReopened : State :=
  match receiveTurtleData sampleEnv 102 digClosed frameDH hashB vpid1 with
  | some r => r.1
  | none => digClosed

/-- The tunnel record on the digging side, service registered. -/
def digRegTunnel : GxsTunnelPeerInfo :=
  (Map.find digReg._gxs_tunnel_contacts tunnelAB).getD GxsTunnelPeerInfo.default

/-- An encrypted frame that carries a status item with the closing flag. -/
def frameClosing : Bytes := frameEnc [3, 2]

/-- Answering side after the peer's closing packet arrived at time 101. -/
def answerRemoteClosed : State :=
  match receiveTurtleData sampleEnv 101 answer2 frameClosing hashA vpid1 with
  | some r => r.1
  | none => answer2

/-- The tunnel record that `requestSecuredTunnel` creates in the sample run. -/
def dig3Tunnel0 : GxsTunnelPeerInfo :=
  (Map.find dig1._gxs_tunnel_contacts tunnelAB).getD GxsTunnelPeerInfo.default

/-- The DH public key item of `frameDH` as `receiveTurtleData` hands it on. -/
def sampleDHItem : RsGxsTunnelDHPublicKeyItem :=
  { peerId := vpid1, public_key := [9],
    signature := { keyId := idB, signData := [] },
    gxs_key := { keyId := idB, keyData := [] } }

/-- The record of `vpid1` on the digging side after the handshake. -/
def dig3Vpid : GxsTunnelDHInfo :=
  (Map.find dig3._gxs_tunnel_virtual_peer_ids vpid1).getD GxsTunnelDHInfo.default

/-- Digging side after the handshake and `closeExistingTunnel(tunnelAB)`. -/
def dig4 : State :=
  { dig3 with _gxs_tunnel_contacts := Map.erase tunnelAB dig3._gxs_tunnel_contacts }

/-- An inbound payload of 10 bytes with a nonzero head. -/
def frameShort : Bytes := [1, 0, 0, 0, 0, 0, 0, 0, 9, 9]

/-- The sample environment with a signature check that always fails. -/
def sampleEnvBadSig : Env := { sampleEnv with validateSignature := fun _ _ _ => false }

/-- The data item carried by `frameData`, as `handleEncryptedData` hands it
on. -/
def sampleDataItem : RsGxsTunnelDataItem :=
  { peerId := vpid1, unique_item_counter := 5, flags := 0, service_id := 7, data := [42] }

/-- Another hash under which `idA` is reached: other random bytes. -/
def hashA2 : Sha1CheckSum := ⟨idA.val ++ [9, 8, 7, 6], by decide⟩

/-- A keep-alive packet for `vpid1`. -/
def keepAlive1 : RsGxsTunnelItem :=
  .status { peerId := vpid1, flags := RS_GXS_TUNNEL_FLAG_KEEP_ALIVE }

/-- The sample environment whose first random draw is 0: draws are
`0, 1, 2, ...`. -/
def sampleEnvZeroDraw : Env := { sampleEnv with random_u64 := fun n => n }

/-! ## Frames and the phases of `flush`, for the statements about `flush` -/

/-- The router call `e` is a `sendTurtleData`. -/
def IsSend (e : Event) : Prop := ∃ v d, e = Event.sendTurtleData v d

/-- The router call `e` hands on the clear frame of the DH public key `item`:
eight zero bytes and the serialised item, to the peer id of the item. -/
def ClearFrame (env : Env) (item : RsGxsTunnelDHPublicKeyItem) (e : Event) : Prop :=
  ∃ body, env.serialise (.dhkey item) = some body
    ∧ e = Event.sendTurtleData item.peerId (List.replicate 8 0 ++ body)

/-- The router call `e` hands on an encrypted frame of `item` in state `s`:
a nonzero IV, the MAC of the ciphertext and the ciphertext of the serialised
item under the key of the `CAN_TALK` tunnel bound to the peer id of the item,
sent to the `virtual_peer_id` of that tunnel. -/
def EncryptedFrame (env : Env) (s : State) (item : RsGxsTunnelItem) (e : Event) : Prop :=
  ∃ buff dhinfo pinfo iv ct,
    env.serialise item = some buff
    ∧ Map.find s._gxs_tunnel_virtual_peer_ids item.PeerId = some dhinfo
    ∧ Map.find s._gxs_tunnel_contacts dhinfo.tunnel_id = some pinfo
    ∧ pinfo.status = TunnelStatus.CAN_TALK
    ∧ iv ≠ 0 ∧ iv < 2 ^ 64
    ∧ env.aes_crypt_8_16 pinfo.aes_key (u64Bytes iv) buff = some ct
    ∧ e = Event.sendTurtleData pinfo.virtual_peer_id
            (u64Bytes iv ++ (env.HMAC pinfo.aes_key ct).val ++ ct)

/-- Nothing but the IV loop stands between `item` and a successful
`locked_sendEncryptedTunnelData` in state `s`: the item can be serialised, its
peer id is a virtual peer bound to a `CAN_TALK` tunnel and the cipher accepts
the serialised item with every IV. -/
def Sendable (env : Env) (s : State) (item : RsGxsTunnelItem) : Prop :=
  ∃ buff dhinfo pinfo,
    env.serialise item = some buff
    ∧ Map.find s._gxs_tunnel_virtual_peer_ids item.PeerId = some dhinfo
    ∧ Map.find s._gxs_tunnel_contacts dhinfo.tunnel_id = some pinfo
    ∧ pinfo.status = TunnelStatus.CAN_TALK
    ∧ ∀ iv, ∃ ct, env.aes_crypt_8_16 pinfo.aes_key iv buff = some ct

/-- The test `now > RS_GXS_TUNNEL_DELAY_BETWEEN_RESEND + last_sending_attempt`
of the third loop of `flush`. -/
def resendDue (now : Nat) (p : Nat × GxsTunnelData) : Bool :=
  decide (now > RS_GXS_TUNNEL_DELAY_BETWEEN_RESEND + p.2.last_sending_attempt)

/-- The liveness test of the last loop of `flush`: the record is `CAN_TALK`
and `last_contact + 20 + GXS_TUNNEL_KEEP_ALIVE_TIMEOUT < now`. -/
def timedOut (now : Nat) (t : GxsTunnelPeerInfo) : Bool :=
  decide (t.last_contact + 20 + GXS_TUNNEL_KEEP_ALIVE_TIMEOUT < now)
    && decide (t.status = TunnelStatus.CAN_TALK)

/-- Digging side after the handshake, `pendingGxsTunnelItems` sent, seen at
time 127 by `flush`: the last contact, at time 100, is more than 26 seconds
ago. -/
def digTimedOut : Option (State × List Event) := flush sampleEnv 10 127 digDrained

/-- Answering side after the handshake, seen at time 127 by `flush`. -/
def answerTimedOut : Option (State × List Event) := flush sampleEnv 10 127 answer2

/-- Digging side after the handshake, seen at time 107 by `flush`: the last
keep-alive, at time 100, is more than 6 seconds ago. -/
def digKeptAlive : Option (State × List Event) := flush sampleEnv 10 107 digDrained

/-- Digging side with a data entry, counter 5, whose item is addressed to
`vpid1` (the entries made by `sendData` carry the null peer id). -/
def digQueued : State :=
  { digDrained with
    pendingGxsTunnelDataItems := [(5, { data_item := sampleDataItem, last_sending_attempt := 0 })] }

/-- Answering side after the handshake with two data entries, counters 5 and
6, whose items are addressed to `vpid1`. -/
def answerQueued : State :=
  { answer2 with
    pendingGxsTunnelDataItems :=
      [(5, { data_item := sampleDataItem, last_sending_attempt := 0 }),
       (6, { data_item := { sampleDataItem with unique_item_counter := 6 },
             last_sending_attempt := 0 })] }

/-- An encrypted frame with IV `iv` around the plaintext `pt`, keyed with
`sampleKey`. -/
def frameEncWith (iv : Nat) (pt : Bytes) : Bytes :=
  u64Bytes iv ++ (sampleEnv.HMAC sampleKey pt).val ++ pt

/-- Answering side after the handshake when the overlay announces `vpid1`
again, for `hashA2`: the record of `vpid1` had DH status `KEY_AVAILABLE`. -/
def answerAgain : State := addVirtualPeer sampleEnv answer2 hashA2 vpid1 Direction.CLIENT

/-- Answering side with a cold key cache: the overlay announces `vpid1` for
`hashA`. -/
def answerColdCache : State :=
  addVirtualPeer sampleEnvColdCache State.init hashA vpid1 Direction.CLIENT

/-- Digging side after the handshake when the overlay announces a second
virtual peer for `hashB`: the tunnel of `hashB` is `CAN_TALK`. -/
def digSecondPeer : State := addVirtualPeer sampleEnv dig3 hashB (sampleId 78) Direction.SERVER

/-- The overlay announces `vpid1` as a dug tunnel for `hashB` when no tunnel
was requested. -/
def digUnrequested : State := addVirtualPeer sampleEnv State.init hashB vpid1 Direction.SERVER

/-- The sample environment with a digest that tells the pairs of ids apart:
the sum of the bytes. -/
def sampleEnvDigest : Env :=
  { sampleEnv with
    sha1sum := fun b => ⟨b.sum % 256 :: List.replicate 19 0, by simp⟩ }

/-- A second peer. -/
def idC : RsGxsId := sampleId 3
/-- A second virtual peer. -/
def vpid2 : RsPeerId := sampleId 78
/-- The hash under which `idC` is reached. -/
def hashC : Sha1CheckSum := randomHashFromDestinationGxsId sampleEnv 0 idC
/-- The tunnel to `idB` under `sampleEnvDigest`. -/
def tunnelB2 : RsGxsTunnelId := makeGxsTunnelId sampleEnvDigest idA idB
/-- The tunnel to `idC` under `sampleEnvDigest`. -/
def tunnelC2 : RsGxsTunnelId := makeGxsTunnelId sampleEnvDigest idA idC

/-- The state of `r`, or `s` when the run has no result. -/
def stateOr (s : State) (r : Option (State × List Event)) : State :=
  match r with
  | some x => x.1
  | none => s

/-- Digging side with two tunnels requested at time 100, to `idB` and to
`idC`, and the virtual peers `vpid1` and `vpid2` announced for them. -/
def twoDug : State :=
  addVirtualPeer sampleEnvDigest
    (addVirtualPeer sampleEnvDigest
      (requestSecuredTunnel sampleEnvDigest 100
        (requestSecuredTunnel sampleEnvDigest 100 State.init idB idA).2.2.2.1 idC idA).2.2.2.1
      hashB vpid1 Direction.SERVER)
    hashC vpid2 Direction.SERVER

/-- Digging side with both handshakes done and the client service 7
registered: the DH public key of `idB` arrived on `vpid1`, that of `idC` on
`vpid2`. -/
def twoTunnels : State :=
  (registerClientService
    (stateOr twoDug
      (receiveTurtleData sampleEnvDigest 100
        (stateOr twoDug (receiveTurtleData sampleEnvDigest 100 twoDug frameDH hashB vpid1))
        (List.replicate 8 0 ++ [4, 3, 9]) hashC vpid2))
    7 99).2

/-- Digging side after `sendData(tunnelC2, 7, [42])`: the data item with
counter 0 is pending for the tunnel to `idC`. -/
def twoSent : State := (sendData twoTunnels tunnelC2 7 [42]).2

/-- An encrypted frame that carries the ack of counter 0, keyed with the key
that the sample handshakes derive under `sampleEnvDigest`. -/
def frameAck0 : Bytes :=
  u64Bytes 1 ++ (sampleEnvDigest.HMAC ((sampleEnvDigest.sha1sum [3, 9]).val.take 16) [2, 0]).val
    ++ [2, 0]

/-- Digging side after `frameAck0` arrived on `vpid1`, the virtual peer of the
tunnel to `idB`. -/
def twoAcked : Option (State × List Event) :=
  receiveTurtleData sampleEnvDigest 101 twoSent frameAck0 hashB vpid1

/-- The sample environment with a cipher that fails to encrypt. -/
def sampleEnvNoCrypt : Env := { sampleEnv with aes_crypt_8_16 := fun _ _ _ => none }

/-! ## Runs with their calls -/

/-- One public operation or overlay callback: the state before, the calls it
makes to the router and to the client services, and the state after. -/
inductive Step : State → List Event → State → Prop where
  | registerClientService {s : State} (service_id service : Nat) :
      Step s [] (registerClientService s service_id service).2
  | requestSecuredTunnel {s : State} (env : Env) (now : Nat) (to_gxs_id from_gxs_id : RsGxsId) :
      Step s (requestSecuredTunnel env now s to_gxs_id from_gxs_id).2.2.2.2
        (requestSecuredTunnel env now s to_gxs_id from_gxs_id).2.2.2.1
  | closeExistingTunnel {s s' : State} (env : Env) (fuel : Nat) (tunnel_id : RsGxsTunnelId)
      (ret : Bool) (ev : List Event) :
      closeExistingTunnel env fuel s tunnel_id = some (ret, s', ev) → Step s ev s'
  | sendData {s : State} (tunnel_id : RsGxsTunnelId) (service_id : Nat) (data : Bytes) :
      Step s [] (sendData s tunnel_id service_id data).2
  | flush {s s' : State} (env : Env) (fuel now : Nat) (ev : List Event) :
      flush env fuel now s = some (s', ev) → Step s ev s'
  | addVirtualPeer {s : State} (env : Env) (hash : Sha1CheckSum) (vpid : RsPeerId)
      (dir : Direction) :
      Step s [] (addVirtualPeer env s hash vpid dir)
  | removeVirtualPeer {s : State} (hash : Sha1CheckSum) (vpid : RsPeerId) :
      Step s [] (removeVirtualPeer s hash vpid)
  | receiveTurtleData {s s' : State} (env : Env) (now : Nat) (data : Bytes)
      (hash : Sha1CheckSum) (vpid : RsPeerId) (ev : List Event) :
      receiveTurtleData env now s data hash vpid = some (s', ev) → Step s ev s'

/-- `RunWithout t s ev s'`: a run of operations and overlay callbacks from `s`
to `s'` that makes the calls `ev`, each step of which starts in a state whose
tunnel table has no record for `t`: the run up to and including the step that
creates a record for `t` again, if there is one. -/
inductive RunWithout (t : RsGxsTunnelId) : State → List Event → State → Prop where
  | done {s : State} : RunWithout t s [] s
  | step {s s1 s2 : State} {ev1 ev2 : List Event} :
      Map.find s._gxs_tunnel_contacts t = none → Step s ev1 s1 → RunWithout t s1 ev2 s2 →
      RunWithout t s (ev1 ++ ev2) s2

/-- Digging side after the handshake, the first `flush` and
`closeExistingTunnel(tunnelAB)`. -/
def digDrainedClosed : State :=
  { digDrained with
    _gxs_tunnel_contacts := Map.erase tunnelAB digDrained._gxs_tunnel_contacts }

/-- `pendingGxsTunnelDataItems` as a `std::map` filled by `sendData`: the keys
ascend in iteration order, and every entry is stored under the counter of its
item. -/
def DataMapOk (m : Map Nat GxsTunnelData) : Prop :=
  (m.map Prod.fst).Pairwise (fun a b => a < b)
  ∧ ∀ p ∈ m, p.2.data_item.unique_item_counter = p.1

/-- Answering side when the overlay announces the virtual peer with the
all-zero id for `hashA`. -/
def zeroAnswer1 : State :=
  addVirtualPeer sampleEnv State.init hashA (RsId.null 16) Direction.CLIENT

/-- That side after the peer's DH public key arrived at time 100. -/
def zeroAnswer2 : State :=
  stateOr zeroAnswer1 (receiveTurtleData sampleEnv 100 zeroAnswer1 frameDH hashA (RsId.null 16))

/-- That side with the client service 7 registered and two calls of
`sendData` made: the DH public key and the connection ACK of the handshake
are still pending, and the data items 0 and 1 carry the null peer id, which
here is the id of the bound virtual peer. -/
def zeroQueued : State :=
  (sendData (sendData (registerClientService zeroAnswer2 7 99).2 tunnelAB 7 [42]).2
    tunnelAB 7 [43]).2

/-! ## Theorems -/

/-! ### `std::map` lemmas -/

theorem Map.find_insert_self {K V : Type} [DecidableEq K] (lt : K → K → Bool) (k : K) (v : V) :
    ∀ m : Map K V, Map.find (Map.insert lt k v m) k = some v
  | [] => by simp [Map.insert, Map.find]
  | (k', v') :: rest => by
    unfold Map.insert
    by_cases h : k' = k
    · rw [if_pos h]; simp [Map.find]
    · rw [if_neg h]
      by_cases hl : lt k k' = true
      · rw [if_pos hl]; simp [Map.find]
      · rw [if_neg hl, Map.find, if_neg h]
        exact Map.find_insert_self lt k v rest

theorem Map.find_insert_other {K V : Type} [DecidableEq K] (lt : K → K → Bool) (k k2 : K)
    (v : V) (hne : k2 ≠ k) :
    ∀ m : Map K V, Map.find (Map.insert lt k v m) k2 = Map.find m k2
  | [] => by simp [Map.insert, Map.find, Ne.symm hne]
  | (k', v') :: rest => by
    unfold Map.insert
    by_cases h : k' = k
    · rw [if_pos h, Map.find, if_neg (Ne.symm hne), Map.find, if_neg (by rw [h]; exact Ne.symm hne)]
    · rw [if_neg h]
      by_cases hl : lt k k' = true
      · rw [if_pos hl, Map.find, if_neg (Ne.symm hne)]
      · rw [if_neg hl, Map.find, Map.find, Map.find_insert_other lt k k2 v hne rest]

theorem Map.find_modify {K V : Type} [DecidableEq K] (k k2 : K) (f : V → V) :
    ∀ m : Map K V, Map.find (Map.modify k f m) k2
      = if k2 = k then (Map.find m k2).map f else Map.find m k2
  | [] => by simp [Map.modify, Map.find]
  | (k', v') :: rest => by
    have ih := Map.find_modify k k2 f rest
    unfold Map.modify
    by_cases h : k' = k
    · rw [if_pos h, Map.find, Map.find, ih]
      by_cases h2 : k' = k2
      · have h3 : k2 = k := by rw [← h2, h]
        rw [if_pos h2, if_pos h2, if_pos h3]; rfl
      · rw [if_neg h2, if_neg h2]
    · rw [if_neg h, Map.find, Map.find, ih]
      by_cases h2 : k' = k2
      · have h3 : ¬ k2 = k := by rw [← h2]; exact h
        rw [if_pos h2, if_pos h2, if_neg h3]
      · rw [if_neg h2, if_neg h2]

theorem Map.find_erase_self {K V : Type} [DecidableEq K] (k : K) :
    ∀ m : Map K V, Map.find (Map.erase k m) k = none
  | [] => by simp [Map.erase, Map.find]
  | (k', v') :: rest => by
    unfold Map.erase
    by_cases h : k' = k
    · rw [if_pos h]; exact Map.find_erase_self k rest
    · rw [if_neg h, Map.find, if_neg h]; exact Map.find_erase_self k rest

theorem Map.find_erase_other {K V : Type} [DecidableEq K] (k k2 : K) (hne : k2 ≠ k) :
    ∀ m : Map K V, Map.find (Map.erase k m) k2 = Map.find m k2
  | [] => by simp [Map.erase, Map.find]
  | (k', v') :: rest => by
    unfold Map.erase
    by_cases h : k' = k
    · rw [if_pos h, Map.find, if_neg (by rw [h]; exact Ne.symm hne)]
      exact Map.find_erase_other k k2 hne rest
    · rw [if_neg h, Map.find, Map.find, Map.find_erase_other k k2 hne rest]

theorem Map.mem_insert {K V : Type} [DecidableEq K] (lt : K → K → Bool) (k : K) (v : V)
    (p : K × V) :
    ∀ m : Map K V, p ∈ Map.insert lt k v m → p = (k, v) ∨ p ∈ m
  | [] => by simp [Map.insert]
  | (k', v') :: rest => by
    intro hp
    unfold Map.insert at hp
    by_cases h : k' = k
    · rw [if_pos h] at hp
      rcases List.mem_cons.1 hp with h1 | h1
      · exact Or.inl h1
      · exact Or.inr (List.mem_cons_of_mem _ h1)
    · rw [if_neg h] at hp
      by_cases hl : lt k k' = true
      · rw [if_pos hl] at hp
        rcases List.mem_cons.1 hp with h1 | h1
        · exact Or.inl h1
        · exact Or.inr h1
      · rw [if_neg hl] at hp
        rcases List.mem_cons.1 hp with h1 | h1
        · exact Or.inr (by rw [h1]; exact List.mem_cons_self _ _)
        · rcases Map.mem_insert lt k v p rest h1 with h2 | h2
          · exact Or.inl h2
          · exact Or.inr (List.mem_cons_of_mem _ h2)

theorem Map.mem_modify {K V : Type} [DecidableEq K] (k : K) (f : V → V) (p : K × V) :
    ∀ m : Map K V, p ∈ Map.modify k f m → p ∈ m ∨ ∃ v, (k, v) ∈ m ∧ p = (k, f v)
  | [] => by simp [Map.modify]
  | (k', v') :: rest => by
    intro hp
    unfold Map.modify at hp
    by_cases h : k' = k
    · rw [if_pos h] at hp
      rcases List.mem_cons.1 hp with h1 | h1
      · exact Or.inr ⟨v', by rw [← h]; exact List.mem_cons_self _ _, by rw [h1, h]⟩
      · rcases Map.mem_modify k f p rest h1 with h2 | ⟨v, h2, h3⟩
        · exact Or.inl (List.mem_cons_of_mem _ h2)
        · exact Or.inr ⟨v, List.mem_cons_of_mem _ h2, h3⟩
    · rw [if_neg h] at hp
      rcases List.mem_cons.1 hp with h1 | h1
      · exact Or.inl (by rw [h1]; exact List.mem_cons_self _ _)
      · rcases Map.mem_modify k f p rest h1 with h2 | ⟨v, h2, h3⟩
        · exact Or.inl (List.mem_cons_of_mem _ h2)
        · exact Or.inr ⟨v, List.mem_cons_of_mem _ h2, h3⟩

theorem Map.mem_erase {K V : Type} [DecidableEq K] (k : K) (p : K × V) :
    ∀ m : Map K V, p ∈ Map.erase k m → p ∈ m
  | [] => by simp [Map.erase]
  | (k', v') :: rest => by
    intro hp
    unfold Map.erase at hp
    by_cases h : k' = k
    · rw [if_pos h] at hp
      exact List.mem_cons_of_mem _ (Map.mem_erase k p rest hp)
    · rw [if_neg h] at hp
      rcases List.mem_cons.1 hp with h1 | h1
      · rw [h1]; exact List.mem_cons_self _ _
      · exact List.mem_cons_of_mem _ (Map.mem_erase k p rest h1)

theorem bytesLt_iff_lex : ∀ (a b : Bytes), a.length = b.length →
    (bytesLt a b = true ↔ List.Lex (· < ·) a b)
  | [], [], _ => by simp [bytesLt]
  | [], _ :: _, h => by simp at h
  | _ :: _, [], h => by simp at h
  | x :: xs, y :: ys, h => by
    have hl : xs.length = ys.length := by simpa using h
    have ih := bytesLt_iff_lex xs ys hl
    by_cases hxy : x = y
    · subst hxy
      simp only [bytesLt, ne_eq, not_true_eq_false, if_false, ih]
      constructor
      · intro h1
        exact List.Lex.cons h1
      · intro h1
        cases h1 with
        | cons h2 => exact h2
        | rel h2 => exact absurd h2 (lt_irrefl _)
    · simp only [bytesLt, ne_eq, hxy, not_false_eq_true, if_true, decide_eq_true_eq]
      constructor
      · intro h1
        exact List.Lex.rel h1
      · intro h1
        cases h1 with
        | cons h2 => exact absurd rfl hxy
        | rel h2 => exact h2

theorem bytesLt_asymm : ∀ (a b : Bytes), bytesLt a b = true → bytesLt b a = false
  | [], _, h => by simp [bytesLt] at h
  | _ :: _, [], h => by simp [bytesLt] at h
  | x :: xs, y :: ys, h => by
    by_cases hxy : x = y
    · subst hxy
      simp only [bytesLt, ne_eq, not_true_eq_false, if_false] at h ⊢
      exact bytesLt_asymm xs ys h
    · have hyx : ¬ y = x := fun e => hxy e.symm
      simp only [bytesLt, ne_eq, hxy, not_false_eq_true, if_true, decide_eq_true_eq] at h
      simp only [bytesLt, ne_eq, hyx, not_false_eq_true, if_true, decide_eq_false_iff_not]
      omega

theorem bytesLt_total : ∀ (a b : Bytes), a.length = b.length →
    bytesLt a b = false → bytesLt b a = false → a = b
  | [], [], _, _, _ => rfl
  | [], _ :: _, h, _, _ => by simp at h
  | _ :: _, [], h, _, _ => by simp at h
  | x :: xs, y :: ys, h, h1, h2 => by
    have hl : xs.length = ys.length := by simpa using h
    by_cases hxy : x = y
    · subst hxy
      simp only [bytesLt, ne_eq, not_true_eq_false, if_false] at h1 h2
      rw [bytesLt_total xs ys hl h1 h2]
    · have hyx : ¬ y = x := fun e => hxy e.symm
      simp only [bytesLt, ne_eq, hxy, not_false_eq_true, if_true,
        decide_eq_false_iff_not] at h1
      simp only [bytesLt, ne_eq, hyx, not_false_eq_true, if_true,
        decide_eq_false_iff_not] at h2
      omega

/-- The bytes hashed by `makeGxsTunnelId` do not depend on the order of the
two ids. -/
theorem tunnel_mem_comm (a b : RsGxsId) :
    (if RsId.lt a b then a.val ++ b.val else b.val ++ a.val)
      = (if RsId.lt b a then b.val ++ a.val else a.val ++ b.val) := by
  unfold RsId.lt
  cases hab : bytesLt a.val b.val
  · cases hba : bytesLt b.val a.val
    · have e : a.val = b.val :=
        bytesLt_total a.val b.val (by rw [a.property, b.property]) hab hba
      simp [e]
    · simp
  · have hba := bytesLt_asymm a.val b.val hab
    simp [hba]

/-- C3: `makeGxsTunnelId(a, b) = makeGxsTunnelId(b, a)` for all GXS ids `a` and
`b`, the case `a = b` included. -/
theorem makeGxsTunnelId_comm (env : Env) (a b : RsGxsId) :
    makeGxsTunnelId env a b = makeGxsTunnelId env b a := by
  unfold makeGxsTunnelId
  simp only [tunnel_mem_comm a b]

/-- C4: for all 16-byte ids `a` and `b`, `makeGxsTunnelId(a, b)` is the 20-byte
SHA-1 digest of the 32-byte string `min(a,b) || max(a,b)`, min and max taken in
the byte-lexicographic order. -/
theorem makeGxsTunnelId_eq_spec (env : Env) (a b : RsGxsId) :
    makeGxsTunnelId env a b = specTunnelId env a b
      ∧ ((lexMin a b).val ++ (lexMax a b).val).length = 32
      ∧ (makeGxsTunnelId env a b).val.length = 20 := by
  have hlen : a.val.length = b.val.length := by rw [a.property, b.property]
  have hmem : (if RsId.lt a b then a.val ++ b.val else b.val ++ a.val)
      = (lexMin a b).val ++ (lexMax a b).val := by
    unfold RsId.lt lexMin lexMax
    cases hab : bytesLt a.val b.val
    · cases hba : bytesLt b.val a.val
      · have e : a.val = b.val := bytesLt_total a.val b.val hlen hab hba
        have e' : a = b := Subtype.ext e
        subst e'
        simp
      · have hy : List.Lex (· < ·) b.val a.val :=
          (bytesLt_iff_lex b.val a.val hlen.symm).1 hba
        simp [hy]
    · have hba := bytesLt_asymm a.val b.val hab
      have hn : ¬ List.Lex (· < ·) b.val a.val := by
        rw [← bytesLt_iff_lex b.val a.val hlen.symm, hba]; simp
      simp [hn]
  refine ⟨?_, ?_, (makeGxsTunnelId env a b).property⟩
  · unfold makeGxsTunnelId specTunnelId RsId.fromBytes
    apply Subtype.ext
    simp only [hmem]
    apply List.take_of_length_le
    rw [(env.sha1sum _).property]
  · rw [List.length_append, (lexMin a b).property, (lexMax a b).property]

/-! ### Inbound frames: what reaches a client service -/

theorem encrypted_region (data : Bytes) (h : data.length < 2 ^ 32)
    (hb : ¬ data.length <
        GXS_TUNNEL_ENCRYPTION_IV_SIZE + GXS_TUNNEL_ENCRYPTION_HMAC_SIZE +
          (data.length + 2 ^ 32 - GXS_TUNNEL_ENCRYPTION_IV_SIZE
            - GXS_TUNNEL_ENCRYPTION_HMAC_SIZE) % 2 ^ 32) :
    28 ≤ data.length ∧
    (data.drop (GXS_TUNNEL_ENCRYPTION_IV_SIZE + GXS_TUNNEL_ENCRYPTION_HMAC_SIZE)).take
        ((data.length + 2 ^ 32 - GXS_TUNNEL_ENCRYPTION_IV_SIZE
            - GXS_TUNNEL_ENCRYPTION_HMAC_SIZE) % 2 ^ 32)
      = data.drop 28 := by
  simp only [GXS_TUNNEL_ENCRYPTION_IV_SIZE, GXS_TUNNEL_ENCRYPTION_HMAC_SIZE] at hb ⊢
  norm_num at hb h ⊢
  have h28 : 28 ≤ data.length := by omega
  refine ⟨h28, ?_⟩
  omega

theorem handleRecvDHPublicKey_events (env : Env) (now : Nat) (s s' : State)
    (item : RsGxsTunnelDHPublicKeyItem) (ev : List Event)
    (h : handleRecvDHPublicKey env now s item = some (s', ev)) :
    ∀ e ∈ ev, e = Event.timeStampKey item.signature.keyId := by
  unfold handleRecvDHPublicKey at h
  simp only at h
  repeat' split at h
  all_goals
    first
    | (simp only [Option.some.injEq, Prod.mk.injEq] at h
       obtain ⟨-, rfl⟩ := h
       simp)
    | simp at h

theorem handleIncomingItem_receiveData (s : State) (t : RsGxsTunnelId)
    (item : RsGxsTunnelItem) (service : Nat) (tid : RsGxsTunnelId) (d : Bytes)
    (h : Event.receiveData service tid d ∈ (handleIncomingItem s t item).2) :
    tid = t := by
  cases item with
  | data i =>
    simp only [handleIncomingItem, handleRecvTunnelDataItem] at h
    split at h
    · simp at h
    · simp at h
      exact h.2.1
  | ack i => simp [handleIncomingItem] at h
  | status i => simp [handleIncomingItem] at h
  | dhkey i => simp [handleIncomingItem] at h

/-- What `handleEncryptedData` has checked when it hands data to a service. -/
theorem handleEncryptedData_receiveData (env : Env) (now : Nat) (s s' : State)
    (data : Bytes) (hash : Sha1CheckSum) (vpid : RsPeerId) (ret : Bool)
    (ev : List Event) (service : Nat) (tid : RsGxsTunnelId) (d : Bytes)
    (hsize : data.length < 2 ^ 32)
    (hrun : handleEncryptedData env now s data hash vpid = some (ret, s', ev))
    (hev : Event.receiveData service tid d ∈ ev) :
    ∃ dhinfo pinfo,
      Map.find s._gxs_tunnel_virtual_peer_ids vpid = some dhinfo
      ∧ Map.find s._gxs_tunnel_contacts dhinfo.tunnel_id = some pinfo
      ∧ tid = dhinfo.tunnel_id
      ∧ 28 ≤ data.length
      ∧ (data.drop 8).take 20 = (env.HMAC pinfo.aes_key (data.drop 28)).val := by
  unfold handleEncryptedData at hrun
  simp only at hrun
  split at hrun
  · simp only [Option.some.injEq, Prod.mk.injEq] at hrun
    obtain ⟨-, -, rfl⟩ := hrun
    simp at hev
  · rename_i dhinfo hv
    split at hrun
    · simp only [Option.some.injEq, Prod.mk.injEq] at hrun
      obtain ⟨-, -, rfl⟩ := hrun
      simp at hev
    · rename_i pinfo ht
      split at hrun
      · simp at hrun
      · rename_i hb
        obtain ⟨h28, hreg⟩ := encrypted_region data hsize hb
        rw [hreg] at hrun
        split at hrun
        · simp only [Option.some.injEq, Prod.mk.injEq] at hrun
          obtain ⟨-, -, rfl⟩ := hrun
          simp at hev
        · rename_i hmac
          split at hrun
          · simp only [Option.some.injEq, Prod.mk.injEq] at hrun
            obtain ⟨-, -, rfl⟩ := hrun
            simp at hev
          · split at hrun
            · simp only [Option.some.injEq, Prod.mk.injEq] at hrun
              obtain ⟨-, -, rfl⟩ := hrun
              simp at hev
            · simp only [Option.some.injEq, Prod.mk.injEq] at hrun
              obtain ⟨-, -, rfl⟩ := hrun
              have htid := handleIncomingItem_receiveData _ _ _ _ _ _ hev
              refine ⟨dhinfo, pinfo, hv, ht, htid, h28, ?_⟩
              simp only [GXS_TUNNEL_ENCRYPTION_IV_SIZE, GXS_TUNNEL_ENCRYPTION_HMAC_SIZE,
                ne_eq, not_not] at hmac
              exact hmac.symm

/-- C1: a client service's `receiveData` is invoked for an inbound overlay
payload only if the payload has a nonzero 8-byte head and its MAC field (bytes
8..28) equals the HMAC, keyed with the `aes_key` of the tunnel record bound to
the receiving virtual peer, of the payload bytes from offset 28 on; a clear
frame (zero head) causes no `receiveData` call.  Stated for every run of
`receiveTurtleData` with defined behaviour and a payload size that fits
`uint32_t`. -/
theorem receiveData_only_after_hmac (env : Env) (now : Nat) (s s' : State)
    (data : Bytes) (hash : Sha1CheckSum) (vpid : RsPeerId)
    (ev : List Event) (service : Nat) (tid : RsGxsTunnelId) (d : Bytes)
    (hsize : data.length < 2 ^ 32)
    (hrun : receiveTurtleData env now s data hash vpid = some (s', ev))
    (hev : Event.receiveData service tid d ∈ ev) :
    data.take 8 ≠ List.replicate 8 0
    ∧ ∃ dhinfo pinfo,
        Map.find s._gxs_tunnel_virtual_peer_ids vpid = some dhinfo
        ∧ Map.find s._gxs_tunnel_contacts dhinfo.tunnel_id = some pinfo
        ∧ tid = dhinfo.tunnel_id
        ∧ (data.drop 8).take 20 = (env.HMAC pinfo.aes_key (data.drop 28)).val := by
  unfold receiveTurtleData at hrun
  split at hrun
  · simp only [Option.some.injEq, Prod.mk.injEq] at hrun
    obtain ⟨-, rfl⟩ := hrun
    simp at hev
  · split at hrun
    · rename_i hhead
      refine ⟨hhead, ?_⟩
      cases hr : handleEncryptedData env now s data hash vpid with
      | none => simp [hr] at hrun
      | some r =>
        obtain ⟨ret, s1, ev1⟩ := r
        simp only [hr, Option.map_some', Option.some.injEq, Prod.mk.injEq] at hrun
        obtain ⟨-, rfl⟩ := hrun
        obtain ⟨dhinfo, pinfo, hv, ht, htid, -, hmac⟩ :=
          handleEncryptedData_receiveData env now s s1 data hash vpid ret ev1 service tid d
            hsize hr hev
        exact ⟨dhinfo, pinfo, hv, ht, htid, hmac⟩
    · split at hrun
      · have h := handleRecvDHPublicKey_events env now s s' _ ev hrun _ hev
        simp at h
      · simp only [Option.some.injEq, Prod.mk.injEq] at hrun
        obtain ⟨-, rfl⟩ := hrun
        simp at hev

/-- Witness of C1: the data frame of the sample run is delivered to handler 99,
and its MAC field is the HMAC under the bound tunnel's key. -/
theorem receiveData_only_after_hmac_witness :
    receiveTurtleData sampleEnv 101 answerReg frameData hashA vpid1
        = some (answerData, [Event.receiveData 99 tunnelAB [42]])
    ∧ frameData.take 8 ≠ List.replicate 8 0
    ∧ ∃ dhinfo pinfo,
        Map.find answerReg._gxs_tunnel_virtual_peer_ids vpid1 = some dhinfo
        ∧ Map.find answerReg._gxs_tunnel_contacts dhinfo.tunnel_id = some pinfo
        ∧ tunnelAB = dhinfo.tunnel_id
        ∧ (frameData.drop 8).take 20 = (sampleEnv.HMAC pinfo.aes_key (frameData.drop 28)).val :=
  ⟨by decide,
   receiveData_only_after_hmac sampleEnv 101 answerReg answerData frameData hashA vpid1
     [Event.receiveData 99 tunnelAB [42]] 99 tunnelAB [42] (by decide) (by decide)
     (by simp)⟩

/-! ### Restart of a DH session -/

/-- `locked_sendDHPublicKey` touches nothing but `pendingDHItems`. -/
theorem locked_sendDHPublicKey_frame (env : Env) (s : State) (dh : Option DH)
    (own : RsGxsId) (v : RsPeerId) :
    ∃ q, (locked_sendDHPublicKey env s dh own v).2 = { s with pendingDHItems := q } := by
  unfold locked_sendDHPublicKey
  repeat' split
  all_goals first | exact ⟨s.pendingDHItems, rfl⟩ | exact ⟨_, rfl⟩

/-- `locked_restartDHSession` touches the virtual-peer table and
`pendingDHItems` only. -/
theorem locked_restartDHSession_frame (env : Env) (s : State) (v : RsPeerId) (own : RsGxsId) :
    (locked_restartDHSession env s v own)._gxs_tunnel_contacts = s._gxs_tunnel_contacts
    ∧ (locked_restartDHSession env s v own).pendingGxsTunnelItems = s.pendingGxsTunnelItems
    ∧ (locked_restartDHSession env s v own).pendingGxsTunnelDataItems
        = s.pendingGxsTunnelDataItems
    ∧ (locked_restartDHSession env s v own).mRegisteredServices = s.mRegisteredServices
    ∧ (locked_restartDHSession env s v own).global_item_counter = s.global_item_counter := by
  unfold locked_restartDHSession
  simp only
  split
  · simp
  · rename_i h
    obtain ⟨q, hq⟩ := locked_sendDHPublicKey_frame env
      { s with _gxs_tunnel_virtual_peer_ids :=
                 Map.insert RsId.lt v
                   { (Map.find s._gxs_tunnel_virtual_peer_ids v).getD GxsTunnelDHInfo.default with
                     status := DHStatus.HALF_KEY_DONE, own_gxs_id := own,
                     dh := (locked_initDHSessionKey env
                       ((Map.find s._gxs_tunnel_virtual_peer_ids v).getD
                         GxsTunnelDHInfo.default).dh).2 }
                   s._gxs_tunnel_virtual_peer_ids }
      (locked_initDHSessionKey env
        ((Map.find s._gxs_tunnel_virtual_peer_ids v).getD GxsTunnelDHInfo.default).dh).2
      own v
    rw [hq]
    simp

/-- After `locked_restartDHSession` the virtual peer has a record whose DH
status is not `KEY_AVAILABLE` and whose own id is the one passed. -/
theorem locked_restartDHSession_vpid (env : Env) (s : State) (v : RsPeerId) (own : RsGxsId) :
    ∃ d, Map.find (locked_restartDHSession env s v own)._gxs_tunnel_virtual_peer_ids v = some d
      ∧ d.status ≠ DHStatus.KEY_AVAILABLE ∧ d.own_gxs_id = own := by
  unfold locked_restartDHSession
  simp only
  split
  · exact ⟨_, Map.find_insert_self _ _ _ _, by simp, rfl⟩
  · obtain ⟨q, hq⟩ := locked_sendDHPublicKey_frame env
      { s with _gxs_tunnel_virtual_peer_ids :=
                 Map.insert RsId.lt v
                   { (Map.find s._gxs_tunnel_virtual_peer_ids v).getD GxsTunnelDHInfo.default with
                     status := DHStatus.HALF_KEY_DONE, own_gxs_id := own,
                     dh := (locked_initDHSessionKey env
                       ((Map.find s._gxs_tunnel_virtual_peer_ids v).getD
                         GxsTunnelDHInfo.default).dh).2 }
                   s._gxs_tunnel_virtual_peer_ids }
      (locked_initDHSessionKey env
        ((Map.find s._gxs_tunnel_virtual_peer_ids v).getD GxsTunnelDHInfo.default).dh).2
      own v
    rw [hq]
    exact ⟨_, Map.find_insert_self _ _ _ _, by simp, rfl⟩

/-- When key generation, signing and the lookup of the own public key succeed,
`locked_restartDHSession` appends exactly one DH public key item. -/
theorem locked_restartDHSession_pendingDH (env : Env) (s : State) (v : RsPeerId)
    (own : RsGxsId) (priv : Nat) (pub : Bytes) (sig : RsTlvKeySignature)
    (key : RsTlvSecurityKey) (hdh : env.dh_init = DHInit.ok priv pub)
    (hsig : env.signData pub own = some sig) (hkey : env.getKey own = some key) :
    (locked_restartDHSession env s v own).pendingDHItems
      = s.pendingDHItems ++
          [{ peerId := v, public_key := pub, signature := sig, gxs_key := key }] := by
  simp [locked_restartDHSession, locked_initDHSessionKey, locked_sendDHPublicKey, hdh, hsig,
    hkey]

/-- When the lookup of the own public key fails, `locked_restartDHSession`
leaves `pendingDHItems` as it is. -/
theorem locked_restartDHSession_pendingDH_nokey (env : Env) (s : State) (v : RsPeerId)
    (own : RsGxsId) (hkey : env.getKey own = none) :
    (locked_restartDHSession env s v own).pendingDHItems = s.pendingDHItems := by
  unfold locked_restartDHSession locked_sendDHPublicKey locked_initDHSessionKey
  simp only [hkey]
  repeat' split
  all_goals simp_all

/-! ### C2: a frame whose MAC does not match -/

/-- C2, as amended: for an encrypted frame of at least 28 bytes on a known
virtual peer bound to an existing tunnel, a MAC field that differs from the
HMAC of the ciphertext makes `handleEncryptedData` return false without any
call to a client service; the tunnel table (so `last_contact`), the control
queue and the pending data are unchanged; the DH session of the virtual peer
is restarted with the tunnel's `own_gxs_id`, its DH status is no longer
`KEY_AVAILABLE`, and when key generation, signing and the lookup of the own
public key all succeed exactly one fresh DH public key item for that virtual
peer is appended to `pendingDHItems`. -/
theorem mac_mismatch_restarts_dh (env : Env) (now : Nat) (s : State) (data : Bytes)
    (hash : Sha1CheckSum) (vpid : RsPeerId) (dhinfo : GxsTunnelDHInfo)
    (pinfo : GxsTunnelPeerInfo)
    (hsize : data.length < 2 ^ 32) (hlen : 28 ≤ data.length)
    (hv : Map.find s._gxs_tunnel_virtual_peer_ids vpid = some dhinfo)
    (ht : Map.find s._gxs_tunnel_contacts dhinfo.tunnel_id = some pinfo)
    (hmac : (data.drop 8).take 20 ≠ (env.HMAC pinfo.aes_key (data.drop 28)).val) :
    handleEncryptedData env now s data hash vpid
        = some (false, locked_restartDHSession env s vpid pinfo.own_gxs_id, [])
    ∧ (locked_restartDHSession env s vpid pinfo.own_gxs_id)._gxs_tunnel_contacts
        = s._gxs_tunnel_contacts
    ∧ (locked_restartDHSession env s vpid pinfo.own_gxs_id).pendingGxsTunnelItems
        = s.pendingGxsTunnelItems
    ∧ (locked_restartDHSession env s vpid pinfo.own_gxs_id).pendingGxsTunnelDataItems
        = s.pendingGxsTunnelDataItems
    ∧ (∃ d, Map.find
          (locked_restartDHSession env s vpid pinfo.own_gxs_id)._gxs_tunnel_virtual_peer_ids
          vpid = some d
        ∧ d.status ≠ DHStatus.KEY_AVAILABLE ∧ d.own_gxs_id = pinfo.own_gxs_id)
    ∧ (∀ (priv : Nat) (pub : Bytes) (sig : RsTlvKeySignature) (key : RsTlvSecurityKey),
        env.dh_init = DHInit.ok priv pub →
        env.signData pub pinfo.own_gxs_id = some sig →
        env.getKey pinfo.own_gxs_id = some key →
        (locked_restartDHSession env s vpid pinfo.own_gxs_id).pendingDHItems
          = s.pendingDHItems ++
              [{ peerId := vpid, public_key := pub, signature := sig, gxs_key := key }]) := by
  have hfr := locked_restartDHSession_frame env s vpid pinfo.own_gxs_id
  refine ⟨?_, hfr.1, hfr.2.1, hfr.2.2.1,
    locked_restartDHSession_vpid env s vpid pinfo.own_gxs_id, ?_⟩
  · have hb : ¬ data.length <
        GXS_TUNNEL_ENCRYPTION_IV_SIZE + GXS_TUNNEL_ENCRYPTION_HMAC_SIZE +
          (data.length + 2 ^ 32 - GXS_TUNNEL_ENCRYPTION_IV_SIZE
            - GXS_TUNNEL_ENCRYPTION_HMAC_SIZE) % 2 ^ 32 := by
      simp only [GXS_TUNNEL_ENCRYPTION_IV_SIZE, GXS_TUNNEL_ENCRYPTION_HMAC_SIZE]
      norm_num at hsize ⊢
      omega
    obtain ⟨-, hreg⟩ := encrypted_region data hsize hb
    unfold handleEncryptedData
    simp only [hv, ht, hb, if_false, hreg]
    have hmac' : (env.HMAC pinfo.aes_key (List.drop 28 data)).val
        ≠ List.take GXS_TUNNEL_ENCRYPTION_HMAC_SIZE
            (List.drop GXS_TUNNEL_ENCRYPTION_IV_SIZE data) := by
      simp only [GXS_TUNNEL_ENCRYPTION_IV_SIZE, GXS_TUNNEL_ENCRYPTION_HMAC_SIZE]
      exact fun e => hmac e.symm
    rw [if_pos hmac']
  · intro priv pub sig key hdh hsig hkey
    exact locked_restartDHSession_pendingDH env s vpid pinfo.own_gxs_id priv pub sig key
      hdh hsig hkey

/-- Witness of C2: the frame with the wrong MAC on the answering side of the
sample run. -/
theorem mac_mismatch_restarts_dh_witness :
    frameBadMac.length < 2 ^ 32 ∧ 28 ≤ frameBadMac.length
    ∧ (frameBadMac.drop 8).take 20
        ≠ (sampleEnv.HMAC answer2Tunnel.aes_key (frameBadMac.drop 28)).val
    ∧ handleEncryptedData sampleEnv 101 answer2 frameBadMac hashA vpid1
        = some (false, locked_restartDHSession sampleEnv answer2 vpid1
            answer2Tunnel.own_gxs_id, []) :=
  ⟨by decide, by decide, by decide,
   (mac_mismatch_restarts_dh sampleEnv 101 answer2 frameBadMac hashA vpid1 answer2Vpid
      answer2Tunnel (by decide) (by decide) (by decide) (by decide) (by decide)).1⟩

/-- C2 as worded fails: key generation and signing succeed, but the own public
key is not in the cache (`getKey` fails); the frame with the wrong MAC is
rejected and no DH public key item is appended to `pendingDHItems`. -/
theorem mac_mismatch_cold_cache_enqueues_nothing :
    sampleEnvColdCache.dh_init = DHInit.ok 3 [5]
    ∧ sampleEnvColdCache.signData [5] idA = some { keyId := idA, signData := [] }
    ∧ answer2Tunnel.own_gxs_id = idA
    ∧ (handleEncryptedData sampleEnvColdCache 101 answer2 frameBadMac hashA vpid1).map
        (fun r => (r.1, r.2.1.pendingDHItems)) = some (false, answer2.pendingDHItems) := by
  decide

/-! ### C5: the two `while` loops of `flush` -/

/-- An item whose virtual peer is unknown, whose tunnel record is missing or
whose tunnel is not `CAN_TALK` is refused by `locked_sendEncryptedTunnelData`
before any random draw, whatever the fuel. -/
theorem locked_sendEncryptedTunnelData_unsendable (env : Env) (s : State)
    (item : RsGxsTunnelItem)
    (h : Map.find s._gxs_tunnel_virtual_peer_ids item.PeerId = none
      ∨ (∃ d, Map.find s._gxs_tunnel_virtual_peer_ids item.PeerId = some d
          ∧ Map.find s._gxs_tunnel_contacts d.tunnel_id = none)
      ∨ (∃ d p, Map.find s._gxs_tunnel_virtual_peer_ids item.PeerId = some d
          ∧ Map.find s._gxs_tunnel_contacts d.tunnel_id = some p
          ∧ p.status ≠ TunnelStatus.CAN_TALK))
    (fuel c : Nat) :
    locked_sendEncryptedTunnelData env fuel c s item = some (false, c, []) := by
  unfold locked_sendEncryptedTunnelData
  cases env.serialise item with
  | none => rfl
  | some buff =>
    rcases h with h | ⟨d, h1, h2⟩ | ⟨d, p, h1, h2, h3⟩
    · simp [h]
    · simp [h1, h2]
    · simp [h1, h2, h3]

/-- The second loop of `flush` never ends when the front item is refused
without a change of the random cursor. -/
theorem flushTunnelItems_spins (env : Env) (s : State) (c : Nat) (item : RsGxsTunnelItem)
    (rest : List RsGxsTunnelItem)
    (h : ∀ fuel, locked_sendEncryptedTunnelData env fuel c s item = some (false, c, [])) :
    ∀ fuel, flushTunnelItems env s fuel c (item :: rest) = none
  | 0 => rfl
  | fuel + 1 => by
    unfold flushTunnelItems
    rw [h (fuel + 1)]
    simp [flushTunnelItems_spins env s c item rest h fuel]

/-- The first loop of `flush` never ends when the front item cannot be
serialised. -/
theorem flushDHItems_spins (env : Env) (item : RsGxsTunnelDHPublicKeyItem)
    (rest : List RsGxsTunnelDHPublicKeyItem)
    (h : env.serialise (.dhkey item) = none) :
    ∀ fuel, flushDHItems env fuel (item :: rest) = none
  | 0 => rfl
  | fuel + 1 => by
    unfold flushDHItems
    simp [locked_sendClearTunnelData, h, flushDHItems_spins env item rest h fuel]

/-- `flush` does not return when the item at the head of
`pendingGxsTunnelItems` cannot be sent for one of the three reasons. -/
theorem flush_spins_of_unsendable_head (env : Env) (now : Nat) (s : State)
    (item : RsGxsTunnelItem) (rest : List RsGxsTunnelItem)
    (hq : s.pendingGxsTunnelItems = item :: rest)
    (h : Map.find s._gxs_tunnel_virtual_peer_ids item.PeerId = none
      ∨ (∃ d, Map.find s._gxs_tunnel_virtual_peer_ids item.PeerId = some d
          ∧ Map.find s._gxs_tunnel_contacts d.tunnel_id = none)
      ∨ (∃ d p, Map.find s._gxs_tunnel_virtual_peer_ids item.PeerId = some d
          ∧ Map.find s._gxs_tunnel_contacts d.tunnel_id = some p
          ∧ p.status ≠ TunnelStatus.CAN_TALK))
    (fuel : Nat) : flush env fuel now s = none := by
  unfold flush
  cases flushDHItems env fuel s.pendingDHItems with
  | none => rfl
  | some r =>
    simp only [hq]
    rw [flushTunnelItems_spins env s 0 item rest
      (fun f => locked_sendEncryptedTunnelData_unsendable env s item h f 0) fuel]

/-- `flush` does not return when the item at the head of `pendingDHItems`
cannot be serialised. -/
theorem flush_spins_of_unserialisable_head (env : Env) (now : Nat) (s : State)
    (item : RsGxsTunnelDHPublicKeyItem) (rest : List RsGxsTunnelDHPublicKeyItem)
    (hq : s.pendingDHItems = item :: rest) (h : env.serialise (.dhkey item) = none)
    (fuel : Nat) : flush env fuel now s = none := by
  unfold flush
  rw [hq, flushDHItems_spins env item rest h fuel]

/-- C5, the code at a failing input: after the handshake of the sample run and
the removal of `vpid1`, the connection ACK for `vpid1` is at the head of
`pendingGxsTunnelItems` and its virtual peer is unknown; `flush` then never
returns, whatever the number of loop iterations allowed.  The same holds for a
DH public key at the head of `pendingDHItems` that cannot be serialised. -/
theorem flush_never_returns_on_failing_head :
    answerGone.pendingGxsTunnelItems
        = [RsGxsTunnelItem.status
            { peerId := vpid1, flags := RS_GXS_TUNNEL_FLAG_ACK_DISTANT_CONNECTION }]
    ∧ Map.find answerGone._gxs_tunnel_virtual_peer_ids vpid1 = none
    ∧ (∀ fuel, flush sampleEnv fuel 101 answerGone = none)
    ∧ answer1.pendingDHItems.length = 1
    ∧ (∀ fuel, flush sampleEnvNoCodec fuel 101 answer1 = none) := by
  have h1 : answerGone.pendingGxsTunnelItems
        = [RsGxsTunnelItem.status
            { peerId := vpid1, flags := RS_GXS_TUNNEL_FLAG_ACK_DISTANT_CONNECTION }] := by
    decide
  have h2 : Map.find answerGone._gxs_tunnel_virtual_peer_ids vpid1 = none := by decide
  refine ⟨h1, h2, ?_, by decide, ?_⟩
  · intro fuel
    exact flush_spins_of_unsendable_head sampleEnv 101 answerGone _ _ h1 (Or.inl h2) fuel
  · intro fuel
    have h3 : answer1.pendingDHItems
        = [{ peerId := vpid1, public_key := [5],
             signature := { keyId := idA, signData := [] },
             gxs_key := { keyId := idA, keyData := [] } }] := by decide
    exact flush_spins_of_unserialisable_head sampleEnvNoCodec 101 answer1 _ _ h3 rfl fuel

/-! ### C6: the item queued by `sendData` -/

/-- The item stored by `sendData` carries the null peer id; as long as no
virtual peer has the null id it is refused by
`locked_sendEncryptedTunnelData`. -/
theorem sendData_item_unsendable (env : Env) (s : State) (tunnel_id : RsGxsTunnelId)
    (service_id : Nat) (data : Bytes) (fuel c : Nat)
    (hnull : Map.find s._gxs_tunnel_virtual_peer_ids (RsId.null 16) = none) :
    locked_sendEncryptedTunnelData env fuel c (sendData s tunnel_id service_id data).2
      (.data { peerId := RsId.null 16, unique_item_counter := s.global_item_counter,
               flags := 0, service_id := service_id, data := data })
      = some (false, c, []) := by
  apply locked_sendEncryptedTunnelData_unsendable
  left
  unfold sendData
  repeat' split
  all_goals exact hnull

/-- C6, the code at a failing input: on the digging side of the sample run the
tunnel is `CAN_TALK`, its virtual peer `vpid1` is registered and bound to it,
service 7 is registered and both queues are empty.  `sendData` returns true
and stores the item under counter 0 with `last_sending_attempt = 0`, but the
next `flush` hands nothing to the overlay and leaves the entry as it was: the
item was never given the virtual peer id. -/
theorem sendData_item_not_sent_by_flush :
    getTunnelStatus digDrained tunnelAB = (true, TunnelStatus.CAN_TALK)
    ∧ (Map.find digDrained._gxs_tunnel_contacts tunnelAB).map (fun p => p.virtual_peer_id)
        = some vpid1
    ∧ (Map.find digDrained._gxs_tunnel_virtual_peer_ids vpid1).map (fun d => d.tunnel_id)
        = some tunnelAB
    ∧ Map.find digDrained.mRegisteredServices 7 = some 99
    ∧ digDrained.pendingDHItems = [] ∧ digDrained.pendingGxsTunnelItems = []
    ∧ sendData digDrained tunnelAB 7 [42] = (true, digSent)
    ∧ digSent.pendingGxsTunnelDataItems
        = [(0, { data_item := { peerId := RsId.null 16, unique_item_counter := 0, flags := 0,
                                service_id := 7, data := [42] },
                 last_sending_attempt := 0 })]
    ∧ flush sampleEnv 10 101 digSent = some (digSent, []) := by
  decide

/-! ### C7: `closeExistingTunnel` and the tunnel table -/

/-- The IV loop ends as soon as the random source returns a nonzero value
within the draws allowed. -/
theorem drawIV_isSome (env : Env) :
    ∀ (fuel c : Nat), (∃ n, c ≤ n ∧ n < c + fuel ∧ env.random_u64 n % 2 ^ 64 ≠ 0) →
      (drawIV env fuel c).isSome = true
  | 0, c, ⟨n, h1, h2, _⟩ => by omega
  | fuel + 1, c, ⟨n, h1, h2, h3⟩ => by
    unfold drawIV
    simp only
    split
    · rename_i hz
      apply drawIV_isSome env fuel (c + 1)
      refine ⟨n, ?_, by omega, h3⟩
      by_contra hlt
      have e : n = c := by omega
      rw [e] at h3
      exact h3 hz
    · rfl

/-- `locked_sendEncryptedTunnelData` returns whenever its IV loop ends and the
cipher does not fail on the serialised item. -/
theorem locked_sendEncryptedTunnelData_isSome (env : Env) (fuel c : Nat) (s : State)
    (item : RsGxsTunnelItem) (h : (drawIV env fuel c).isSome = true)
    (hcrypt : ∀ buff dhinfo pinfo iv, env.serialise item = some buff →
      Map.find s._gxs_tunnel_virtual_peer_ids item.PeerId = some dhinfo →
      Map.find s._gxs_tunnel_contacts dhinfo.tunnel_id = some pinfo →
      pinfo.status = TunnelStatus.CAN_TALK →
      (env.aes_crypt_8_16 pinfo.aes_key (u64Bytes iv) buff).isSome = true) :
    (locked_sendEncryptedTunnelData env fuel c s item).isSome = true := by
  unfold locked_sendEncryptedTunnelData
  split
  · rfl
  · rename_i buff hbuff
    split
    · rfl
    · rename_i dhinfo hv
      split
      · rfl
      · rename_i pinfo ht
        split
        · rfl
        · rename_i hst
          have hst' : pinfo.status = TunnelStatus.CAN_TALK := by simpa using hst
          split
          · rename_i hiv
            rw [hiv] at h
            simp at h
          · rename_i IV c' hiv
            have hc := hcrypt buff dhinfo pinfo IV hbuff hv ht hst'
            split
            · rename_i hn
              rw [hn] at hc
              simp at hc
            · rfl

/-- `locked_sendEncryptedTunnelData` has no result when the item reaches the
cipher and the cipher fails: the source then frees the ciphertext buffer
twice. -/
theorem locked_sendEncryptedTunnelData_no_result (env : Env) (s : State)
    (item : RsGxsTunnelItem) (buff : Bytes) (dhinfo : GxsTunnelDHInfo)
    (pinfo : GxsTunnelPeerInfo)
    (hser : env.serialise item = some buff)
    (hv : Map.find s._gxs_tunnel_virtual_peer_ids item.PeerId = some dhinfo)
    (ht : Map.find s._gxs_tunnel_contacts dhinfo.tunnel_id = some pinfo)
    (hst : pinfo.status = TunnelStatus.CAN_TALK)
    (hcrypt : ∀ iv, env.aes_crypt_8_16 pinfo.aes_key iv buff = none) (fuel c : Nat) :
    locked_sendEncryptedTunnelData env fuel c s item = none := by
  unfold locked_sendEncryptedTunnelData
  simp only [hser, hv, ht, hst, ne_eq, not_true_eq_false, if_false]
  split
  · rfl
  · simp only [hcrypt]

/-- C7, as amended: for an existing record of direction SERVER,
`closeExistingTunnel(t)` can only return true, and then the tunnel record of
`t` has been erased (nothing else of the state changes), so
`getTunnelStatus(t)` returns false with status UNKNOWN; and the call does
return, with true, when the random source yields a nonzero IV within `fuel`
draws and the cipher does not fail on the closing packet, should the packet
get that far.  For a record of direction CLIENT it returns true at once and
leaves the state, the record included, as it was. -/
theorem closeExistingTunnel_erases_server_record (env : Env) (fuel : Nat) (s : State)
    (t : RsGxsTunnelId) (pinfo : GxsTunnelPeerInfo)
    (ht : Map.find s._gxs_tunnel_contacts t = some pinfo) :
    (pinfo.direction = Direction.SERVER →
      (∀ ret s' ev, closeExistingTunnel env fuel s t = some (ret, s', ev) →
        ret = true
        ∧ s' = { s with _gxs_tunnel_contacts := Map.erase t s._gxs_tunnel_contacts }
        ∧ Map.find s'._gxs_tunnel_contacts t = none
        ∧ getTunnelStatus s' t = (false, TunnelStatus.UNKNOWN))
      ∧ ((∃ n, n < fuel ∧ env.random_u64 n % 2 ^ 64 ≠ 0) →
          (∀ buff dhinfo p iv,
            env.serialise
                (.status { peerId := pinfo.virtual_peer_id,
                           flags := RS_GXS_TUNNEL_FLAG_CLOSING_DISTANT_CONNECTION })
              = some buff →
            Map.find s._gxs_tunnel_virtual_peer_ids pinfo.virtual_peer_id = some dhinfo →
            Map.find s._gxs_tunnel_contacts dhinfo.tunnel_id = some p →
            p.status = TunnelStatus.CAN_TALK →
            (env.aes_crypt_8_16 p.aes_key (u64Bytes iv) buff).isSome = true) →
          ∃ ev, closeExistingTunnel env fuel s t
            = some (true,
                { s with _gxs_tunnel_contacts := Map.erase t s._gxs_tunnel_contacts }, ev)))
    ∧ (pinfo.direction = Direction.CLIENT →
        closeExistingTunnel env fuel s t = some (true, s, [])
        ∧ getTunnelStatus s t = (true, pinfo.status)) := by
  constructor
  · intro hdir
    have hshape : ∀ ret s' ev, closeExistingTunnel env fuel s t = some (ret, s', ev) →
        ret = true
        ∧ s' = { s with _gxs_tunnel_contacts := Map.erase t s._gxs_tunnel_contacts } := by
      intro ret s' ev hrun
      unfold closeExistingTunnel at hrun
      simp only [ht, hdir, reduceCtorEq, if_false] at hrun
      split at hrun
      · simp at hrun
      · simp only [Option.some.injEq, Prod.mk.injEq] at hrun
        exact ⟨hrun.1.symm, hrun.2.1.symm⟩
    constructor
    · intro ret s' ev hrun
      obtain ⟨h1, h2⟩ := hshape ret s' ev hrun
      refine ⟨h1, h2, ?_, ?_⟩
      · rw [h2]
        exact Map.find_erase_self t _
      · rw [h2]
        unfold getTunnelStatus
        simp only [Map.find_erase_self]
    · intro hiv hcrypt
      obtain ⟨n, hn, hr⟩ := hiv
      have hsome := locked_sendEncryptedTunnelData_isSome env fuel 0 s
        (.status { peerId := pinfo.virtual_peer_id,
                   flags := RS_GXS_TUNNEL_FLAG_CLOSING_DISTANT_CONNECTION })
        (drawIV_isSome env fuel 0 ⟨n, Nat.zero_le n, by omega, hr⟩) hcrypt
      cases hrun : closeExistingTunnel env fuel s t with
      | none =>
        unfold closeExistingTunnel at hrun
        simp only [ht, hdir, reduceCtorEq, if_false] at hrun
        split at hrun
        · rename_i hsend
          rw [hsend] at hsome
          simp at hsome
        · simp at hrun
      | some r =>
        obtain ⟨ret, s', ev⟩ := r
        obtain ⟨h1, h2⟩ := hshape ret s' ev hrun
        rw [h1, h2]
        exact ⟨ev, rfl⟩
  · intro hdir
    constructor
    · unfold closeExistingTunnel
      simp [ht, hdir]
    · unfold getTunnelStatus
      simp [ht]

/-- Witness of C7: closing the tunnel on the digging side of the sample run;
with a cipher that fails the same call has no result. -/
theorem closeExistingTunnel_erases_server_record_witness :
    Map.find dig3._gxs_tunnel_contacts tunnelAB = some dig3Tunnel
    ∧ dig3Tunnel.direction = Direction.SERVER
    ∧ sampleEnv.random_u64 0 % 2 ^ 64 ≠ 0
    ∧ (∃ ev, closeExistingTunnel sampleEnv 10 dig3 tunnelAB
          = some (true,
              { dig3 with _gxs_tunnel_contacts := Map.erase tunnelAB dig3._gxs_tunnel_contacts },
              ev))
    ∧ Map.find (Map.erase tunnelAB dig3._gxs_tunnel_contacts) tunnelAB = none
    ∧ getTunnelStatus
        { dig3 with _gxs_tunnel_contacts := Map.erase tunnelAB dig3._gxs_tunnel_contacts }
        tunnelAB = (false, TunnelStatus.UNKNOWN)
    ∧ ∀ fuel, closeExistingTunnel sampleEnvNoCrypt fuel dig3 tunnelAB = none := by
  have h := (closeExistingTunnel_erases_server_record sampleEnv 10 dig3 tunnelAB dig3Tunnel
    (by decide)).1 (by decide)
  have hrun := h.2 ⟨0, by decide, by decide⟩ (fun _ _ _ _ _ _ _ _ => rfl)
  obtain ⟨ev, hev⟩ := hrun
  have hpost := h.1 true _ ev hev
  refine ⟨by decide, by decide, by decide, ⟨ev, hev⟩, hpost.2.2.1, hpost.2.2.2, ?_⟩
  intro fuel
  have hsend := locked_sendEncryptedTunnelData_no_result sampleEnvNoCrypt dig3
    (.status { peerId := vpid1, flags := RS_GXS_TUNNEL_FLAG_CLOSING_DISTANT_CONNECTION })
    [3, 2] dig3Vpid dig3Tunnel (by decide) (by decide) (by decide) (by decide)
    (fun _ => rfl) fuel 0
  have ht : Map.find dig3._gxs_tunnel_contacts tunnelAB = some dig3Tunnel := by decide
  have hvp : dig3Tunnel.virtual_peer_id = vpid1 := by decide
  have hdir : dig3Tunnel.direction = Direction.SERVER := by decide
  unfold closeExistingTunnel
  simp only [ht, hdir, reduceCtorEq, if_false, hvp, hsend]

/-- C7 as worded fails for direction CLIENT: on the answering side of the
sample run `closeExistingTunnel` returns true, the state is unchanged and
`getTunnelStatus` still returns true with `CAN_TALK`. -/
theorem closeExistingTunnel_keeps_client_record :
    (Map.find answer2._gxs_tunnel_contacts tunnelAB).map (fun p => p.direction)
        = some Direction.CLIENT
    ∧ closeExistingTunnel sampleEnv 10 answer2 tunnelAB = some (true, answer2, [])
    ∧ getTunnelStatus answer2 tunnelAB = (true, TunnelStatus.CAN_TALK) := by
  decide

/-! ### C8: deliveries after `closeExistingTunnel` -/

/-- The handlers of decrypted items create no tunnel record. -/
theorem handleIncomingItem_absent (s : State) (tid t : RsGxsTunnelId)
    (item : RsGxsTunnelItem) (h : Map.find s._gxs_tunnel_contacts t = none) :
    Map.find (handleIncomingItem s tid item).1._gxs_tunnel_contacts t = none := by
  cases item with
  | data i =>
    simp only [handleIncomingItem, handleRecvTunnelDataItem]
    split <;> exact h
  | ack i =>
    simp only [handleIncomingItem, handleRecvTunnelDataAckItem]
    split <;> exact h
  | status i =>
    simp only [handleIncomingItem, handleRecvStatusItem, markGxsTunnelAsClosed]
    repeat' split
    all_goals first | exact h | (simp only [Map.find_modify, h]; simp)
  | dhkey i => exact h

/-- `handleEncryptedData` delivers only to the id of an existing tunnel record
and creates no tunnel record. -/
theorem handleEncryptedData_absent (env : Env) (now : Nat) (s s' : State)
    (data : Bytes) (hash : Sha1CheckSum) (vpid : RsPeerId) (ret : Bool)
    (ev : List Event) (t : RsGxsTunnelId)
    (habs : Map.find s._gxs_tunnel_contacts t = none)
    (hrun : handleEncryptedData env now s data hash vpid = some (ret, s', ev)) :
    (∀ service d, Event.receiveData service t d ∉ ev)
    ∧ Map.find s'._gxs_tunnel_contacts t = none := by
  unfold handleEncryptedData at hrun
  simp only at hrun
  split at hrun
  · simp only [Option.some.injEq, Prod.mk.injEq] at hrun
    obtain ⟨-, rfl, rfl⟩ := hrun
    exact ⟨by simp, habs⟩
  · rename_i dhinfo hv
    split at hrun
    · simp only [Option.some.injEq, Prod.mk.injEq] at hrun
      obtain ⟨-, rfl, rfl⟩ := hrun
      exact ⟨by simp, habs⟩
    · rename_i pinfo ht
      have hne : t ≠ dhinfo.tunnel_id := by
        intro e
        rw [e, ht] at habs
        simp at habs
      split at hrun
      · simp at hrun
      · split at hrun
        · simp only [Option.some.injEq, Prod.mk.injEq] at hrun
          obtain ⟨-, rfl, rfl⟩ := hrun
          refine ⟨by simp, ?_⟩
          rw [(locked_restartDHSession_frame env s vpid pinfo.own_gxs_id).1]
          exact habs
        · have hmod : Map.find
              (Map.modify dhinfo.tunnel_id
                (fun p => { p with status := TunnelStatus.CAN_TALK, last_contact := now })
                s._gxs_tunnel_contacts) t = none := by
            rw [Map.find_modify, if_neg hne]
            exact habs
          split at hrun
          · simp only [Option.some.injEq, Prod.mk.injEq] at hrun
            obtain ⟨-, rfl, rfl⟩ := hrun
            refine ⟨by simp, ?_⟩
            rw [(locked_restartDHSession_frame env s vpid pinfo.own_gxs_id).1]
            exact habs
          · split at hrun
            · simp only [Option.some.injEq, Prod.mk.injEq] at hrun
              obtain ⟨-, rfl, rfl⟩ := hrun
              exact ⟨by simp, hmod⟩
            · simp only [Option.some.injEq, Prod.mk.injEq] at hrun
              obtain ⟨-, rfl, rfl⟩ := hrun
              refine ⟨?_, handleIncomingItem_absent _ _ _ _ hmod⟩
              intro service d hmem
              exact hne (handleIncomingItem_receiveData _ _ _ _ _ _ hmem)

/-- A sequence of encrypted frames delivers nothing for a tunnel id that has
no record, and creates no record for it. -/
theorem receiveFrames_absent (t : RsGxsTunnelId) :
    ∀ (frames : List InboundFrame) (s s' : State) (ev : List Event),
      Map.find s._gxs_tunnel_contacts t = none →
      (∀ f ∈ frames, f.data_bytes.take 8 ≠ List.replicate 8 0) →
      receiveFrames s frames = some (s', ev) →
      (∀ service d, Event.receiveData service t d ∉ ev)
      ∧ Map.find s'._gxs_tunnel_contacts t = none
  | [], s, s', ev, habs, _, hrun => by
    simp only [receiveFrames, Option.some.injEq, Prod.mk.injEq] at hrun
    obtain ⟨rfl, rfl⟩ := hrun
    exact ⟨by simp, habs⟩
  | f :: rest, s, s', ev, habs, henc, hrun => by
    unfold receiveFrames at hrun
    cases h1 : receiveTurtleData f.env f.now s f.data_bytes f.hash f.virtual_peer_id with
    | none => rw [h1] at hrun; simp at hrun
    | some r =>
      obtain ⟨s1, ev1⟩ := r
      rw [h1] at hrun
      simp only at hrun
      cases h2 : receiveFrames s1 rest with
      | none => rw [h2] at hrun; simp at hrun
      | some r2 =>
        obtain ⟨s2, ev2⟩ := r2
        rw [h2] at hrun
        simp only [Option.map_some', Option.some.injEq, Prod.mk.injEq] at hrun
        obtain ⟨rfl, rfl⟩ := hrun
        have hf : f.data_bytes.take 8 ≠ List.replicate 8 0 :=
          henc f (List.mem_cons_self _ _)
        have hstep : (∀ service d, Event.receiveData service t d ∉ ev1)
            ∧ Map.find s1._gxs_tunnel_contacts t = none := by
          unfold receiveTurtleData at h1
          by_cases hl : f.data_bytes.length < 8
          · rw [if_pos hl] at h1
            simp only [Option.some.injEq, Prod.mk.injEq] at h1
            obtain ⟨rfl, rfl⟩ := h1
            exact ⟨by simp, habs⟩
          · rw [if_neg hl, if_pos hf] at h1
            cases h3 : handleEncryptedData f.env f.now s f.data_bytes f.hash
                f.virtual_peer_id with
            | none => rw [h3] at h1; simp at h1
            | some r3 =>
              obtain ⟨ret, s3, ev3⟩ := r3
              rw [h3] at h1
              simp only [Option.map_some', Option.some.injEq, Prod.mk.injEq] at h1
              obtain ⟨rfl, rfl⟩ := h1
              exact handleEncryptedData_absent _ _ _ _ _ _ _ _ _ t habs h3
        have hrest := receiveFrames_absent t rest s1 s2 ev2 hstep.2
          (fun g hg => henc g (List.mem_cons_of_mem _ hg)) h2
        refine ⟨?_, hrest.2⟩
        intro service d hmem
        rcases List.mem_append.1 hmem with hm | hm
        · exact hstep.1 service d hm
        · exact hrest.1 service d hm

/-- C8 as worded fails.  On the answering side (direction CLIENT)
`closeExistingTunnel` returns true and the next data frame is still handed to
the client service with the closed tunnel id.  On the digging side (direction
SERVER) the record is erased, but a DH public key arriving on the virtual peer
still bound to the tunnel creates it again, and the next data frame is
delivered with that tunnel id, without any `requestSecuredTunnel`. -/
theorem receiveData_after_close :
    closeExistingTunnel sampleEnv 10 answerReg tunnelAB = some (true, answerReg, [])
    ∧ receiveTurtleData sampleEnv 101 answerReg frameData hashA vpid1
        = some (answerData, [Event.receiveData 99 tunnelAB [42]])
    ∧ (closeExistingTunnel sampleEnv 10 digReg tunnelAB).map (fun r => (r.1, r.2.1))
        = some (true, digClosed)
    ∧ (receiveTurtleData sampleEnv 102 digClosed frameDH hashB vpid1).map (fun r => r.1)
        = some digReopened
    ∧ (receiveTurtleData sampleEnv 103 digReopened frameData hashB vpid1).map (fun r => r.2)
        = some [Event.receiveData 99 tunnelAB [42]] := by
  decide

/-! ### C9: status and `virtual_peer_id` of a tunnel record -/

theorem AllDownUnbound.insert {m : Map RsGxsTunnelId GxsTunnelPeerInfo} (hm : AllDownUnbound m)
    (k : RsGxsTunnelId) (v : GxsTunnelPeerInfo) (hv : DownUnbound v) :
    AllDownUnbound (Map.insert RsId.lt k v m) := by
  intro p hp
  rcases Map.mem_insert _ _ _ _ _ hp with h | h
  · rw [h]; exact hv
  · exact hm p h

theorem AllDownUnbound.modify {m : Map RsGxsTunnelId GxsTunnelPeerInfo} (hm : AllDownUnbound m)
    (k : RsGxsTunnelId) (f : GxsTunnelPeerInfo → GxsTunnelPeerInfo)
    (hf : ∀ v, DownUnbound (f v)) : AllDownUnbound (Map.modify k f m) := by
  intro p hp
  rcases Map.mem_modify _ _ _ _ hp with h | ⟨v, -, h⟩
  · exact hm p h
  · rw [h]; exact hf v

theorem AllDownUnbound.erase {m : Map RsGxsTunnelId GxsTunnelPeerInfo} (hm : AllDownUnbound m)
    (k : RsGxsTunnelId) : AllDownUnbound (Map.erase k m) :=
  fun p hp => hm p (Map.mem_erase _ _ _ hp)

theorem flushTunnel_downUnbound (env : Env) (now c : Nat) (t : GxsTunnelPeerInfo)
    (h : DownUnbound t) : DownUnbound (flushTunnel env now c t).1 := by
  unfold flushTunnel DownUnbound
  unfold DownUnbound at h
  simp only
  split <;> split <;> simp_all

theorem flushTunnels_downUnbound (env : Env) (now : Nat) :
    ∀ (m : Map RsGxsTunnelId GxsTunnelPeerInfo) (c : Nat),
      AllDownUnbound m → AllDownUnbound (flushTunnels env now m c).1
  | [], _, _ => by simp [flushTunnels, AllDownUnbound]
  | (k, t) :: rest, c, h => by
    intro p hp
    unfold flushTunnels at hp
    rcases List.mem_cons.1 hp with h1 | h1
    · rw [h1]
      exact flushTunnel_downUnbound env now c t (h (k, t) (List.mem_cons_self _ _))
    · exact flushTunnels_downUnbound env now rest _
        (fun q hq => h q (List.mem_cons_of_mem _ hq)) p h1

theorem flush_downUnbound (env : Env) (fuel now : Nat) (s s' : State) (ev : List Event)
    (h : AllDownUnbound s._gxs_tunnel_contacts) (hrun : flush env fuel now s = some (s', ev)) :
    AllDownUnbound s'._gxs_tunnel_contacts := by
  unfold flush at hrun
  split at hrun
  · simp at hrun
  · split at hrun
    · simp at hrun
    · split at hrun
      · simp at hrun
      · simp only [Option.some.injEq, Prod.mk.injEq] at hrun
        obtain ⟨rfl, -⟩ := hrun
        exact flushTunnels_downUnbound env now _ _ h

theorem handleIncomingItem_downUnbound (s : State) (tid : RsGxsTunnelId)
    (item : RsGxsTunnelItem) (h : AllDownUnbound s._gxs_tunnel_contacts) :
    AllDownUnbound (handleIncomingItem s tid item).1._gxs_tunnel_contacts := by
  cases item with
  | data i =>
    simp only [handleIncomingItem, handleRecvTunnelDataItem]
    split <;> exact h
  | ack i =>
    simp only [handleIncomingItem, handleRecvTunnelDataAckItem]
    split <;> exact h
  | status i =>
    simp only [handleIncomingItem, handleRecvStatusItem, markGxsTunnelAsClosed]
    repeat' split
    all_goals first
      | exact h
      | exact AllDownUnbound.modify h _ _ (fun v => by simp [DownUnbound])
  | dhkey i => exact h

theorem handleEncryptedData_downUnbound (env : Env) (now : Nat) (s s' : State)
    (data : Bytes) (hash : Sha1CheckSum) (vpid : RsPeerId) (ret : Bool) (ev : List Event)
    (h : AllDownUnbound s._gxs_tunnel_contacts)
    (hrun : handleEncryptedData env now s data hash vpid = some (ret, s', ev)) :
    AllDownUnbound s'._gxs_tunnel_contacts := by
  unfold handleEncryptedData at hrun
  simp only at hrun
  repeat' split at hrun
  all_goals first
    | (simp at hrun; done)
    | (simp only [Option.some.injEq, Prod.mk.injEq] at hrun
       obtain ⟨-, rfl, -⟩ := hrun
       first
         | exact h
         | (rw [(locked_restartDHSession_frame _ _ _ _).1]; exact h)
         | exact AllDownUnbound.modify h _ _ (fun v => by simp [DownUnbound])
         | exact handleIncomingItem_downUnbound _ _ _
             (AllDownUnbound.modify h _ _ (fun v => by simp [DownUnbound])))

theorem handleRecvDHPublicKey_downUnbound (env : Env) (now : Nat) (s s' : State)
    (item : RsGxsTunnelDHPublicKeyItem) (ev : List Event)
    (h : AllDownUnbound s._gxs_tunnel_contacts)
    (hrun : handleRecvDHPublicKey env now s item = some (s', ev)) :
    AllDownUnbound s'._gxs_tunnel_contacts := by
  unfold handleRecvDHPublicKey at hrun
  simp only at hrun
  repeat' split at hrun
  all_goals first
    | (simp at hrun; done)
    | (simp only [Option.some.injEq, Prod.mk.injEq] at hrun
       obtain ⟨rfl, -⟩ := hrun
       first
         | exact h
         | (simp only [(locked_restartDHSession_frame _ _ _ _).1]; exact h)
         | exact AllDownUnbound.insert h _ _ (by simp [DownUnbound])
         | (apply AllDownUnbound.insert _ _ _ (by simp [DownUnbound])
            simp only [(locked_restartDHSession_frame _ _ _ _).1]
            exact h))

theorem addVirtualPeer_contacts (env : Env) (s : State) (hash : Sha1CheckSum)
    (vpid : RsPeerId) (dir : Direction) :
    (addVirtualPeer env s hash vpid dir)._gxs_tunnel_contacts = s._gxs_tunnel_contacts := by
  unfold addVirtualPeer
  simp only
  repeat' split
  all_goals first
    | rfl
    | simp only [(locked_restartDHSession_frame _ _ _ _).1]

theorem removeVirtualPeer_downUnbound (s : State) (hash : Sha1CheckSum) (vpid : RsPeerId)
    (h : AllDownUnbound s._gxs_tunnel_contacts) :
    AllDownUnbound (removeVirtualPeer s hash vpid)._gxs_tunnel_contacts := by
  unfold removeVirtualPeer
  simp only
  repeat' split
  all_goals first
    | exact h
    | exact AllDownUnbound.modify h _ _ (fun v => by simp [DownUnbound])

theorem requestSecuredTunnel_downUnbound (env : Env) (now : Nat) (s : State)
    (to_gxs_id from_gxs_id : RsGxsId) (h : AllDownUnbound s._gxs_tunnel_contacts) :
    AllDownUnbound
      (requestSecuredTunnel env now s to_gxs_id from_gxs_id).2.2.2.1._gxs_tunnel_contacts := by
  unfold requestSecuredTunnel startClientGxsTunnelConnection
  simp only
  repeat' split
  all_goals first
    | exact h
    | exact AllDownUnbound.insert h _ _ (by simp [DownUnbound])

theorem closeExistingTunnel_downUnbound (env : Env) (fuel : Nat) (s s' : State)
    (t : RsGxsTunnelId) (ret : Bool) (ev : List Event)
    (h : AllDownUnbound s._gxs_tunnel_contacts)
    (hrun : closeExistingTunnel env fuel s t = some (ret, s', ev)) :
    AllDownUnbound s'._gxs_tunnel_contacts := by
  unfold closeExistingTunnel at hrun
  simp only at hrun
  repeat' split at hrun
  all_goals first
    | (simp at hrun; done)
    | (simp only [Option.some.injEq, Prod.mk.injEq] at hrun
       obtain ⟨-, rfl, -⟩ := hrun
       first
         | exact h
         | exact AllDownUnbound.erase h _)

theorem receiveTurtleData_downUnbound (env : Env) (now : Nat) (s s' : State)
    (data : Bytes) (hash : Sha1CheckSum) (vpid : RsPeerId) (ev : List Event)
    (h : AllDownUnbound s._gxs_tunnel_contacts)
    (hrun : receiveTurtleData env now s data hash vpid = some (s', ev)) :
    AllDownUnbound s'._gxs_tunnel_contacts := by
  unfold receiveTurtleData at hrun
  split at hrun
  · simp only [Option.some.injEq, Prod.mk.injEq] at hrun
    obtain ⟨rfl, -⟩ := hrun
    exact h
  · split at hrun
    · cases hr : handleEncryptedData env now s data hash vpid with
      | none => simp [hr] at hrun
      | some r =>
        obtain ⟨ret, s1, ev1⟩ := r
        simp only [hr, Option.map_some', Option.some.injEq, Prod.mk.injEq] at hrun
        obtain ⟨rfl, -⟩ := hrun
        exact handleEncryptedData_downUnbound env now s s1 data hash vpid ret ev1 h hr
    · split at hrun
      · exact handleRecvDHPublicKey_downUnbound env now s s' _ ev h hrun
      · simp only [Option.some.injEq, Prod.mk.injEq] at hrun
        obtain ⟨rfl, -⟩ := hrun
        exact h

/-- In every reachable state all tunnel records are `DownUnbound`. -/
theorem reachable_allDownUnbound (s : State) (h : Reachable s) :
    AllDownUnbound s._gxs_tunnel_contacts := by
  induction h with
  | init => intro p hp; simp [State.init] at hp
  | registerClientService service_id service _ ih =>
    unfold registerClientService
    split <;> exact ih
  | requestSecuredTunnel env now to_gxs_id from_gxs_id _ ih =>
    exact requestSecuredTunnel_downUnbound env now _ to_gxs_id from_gxs_id ih
  | closeExistingTunnel env fuel tunnel_id ret ev _ hrun ih =>
    exact closeExistingTunnel_downUnbound env fuel _ _ tunnel_id ret ev ih hrun
  | sendData tunnel_id service_id data _ ih =>
    unfold sendData
    repeat' split
    all_goals exact ih
  | flush env fuel now ev _ hrun ih =>
    exact flush_downUnbound env fuel now _ _ ev ih hrun
  | addVirtualPeer env hash vpid dir _ ih =>
    rw [addVirtualPeer_contacts]
    exact ih
  | removeVirtualPeer hash vpid _ ih =>
    exact removeVirtualPeer_downUnbound _ hash vpid ih
  | receiveTurtleData env now data hash vpid ev _ hrun ih =>
    exact receiveTurtleData_downUnbound env now _ _ data hash vpid ev ih hrun

/-- C9, as amended: in every state reachable from the initial empty state
through the public operations and overlay callbacks, every tunnel record
whose status is `TUNNEL_DN` has an empty `virtual_peer_id`. -/
theorem tunnel_down_has_no_virtual_peer (s : State) (h : Reachable s)
    (t : RsGxsTunnelId) (pinfo : GxsTunnelPeerInfo)
    (hmem : (t, pinfo) ∈ s._gxs_tunnel_contacts)
    (hdn : pinfo.status = TunnelStatus.TUNNEL_DN) :
    pinfo.virtual_peer_id = RsId.null 16 :=
  reachable_allDownUnbound s h (t, pinfo) hmem hdn

/-- The states of the sample run on the answering side are reachable. -/
theorem reachable_answerRemoteClosed : Reachable answerRemoteClosed := by
  have h1 : Reachable answer1 :=
    Reachable.addVirtualPeer sampleEnv hashA vpid1 Direction.CLIENT Reachable.init
  have h2 : Reachable answer2 :=
    Reachable.receiveTurtleData sampleEnv 100 frameDH hashA vpid1
      [Event.timeStampKey idB] h1 (by decide)
  exact Reachable.receiveTurtleData sampleEnv 101 frameClosing hashA vpid1 [] h2 (by decide)

/-- The states of the sample run on the digging side are reachable. -/
theorem reachable_dig1 : Reachable dig1 :=
  Reachable.requestSecuredTunnel sampleEnv 100 idB idA Reachable.init

/-- Witness of C9: the record created by `requestSecuredTunnel` in the sample
run is `TUNNEL_DN` and has the null virtual peer id. -/
theorem tunnel_down_has_no_virtual_peer_witness :
    (tunnelAB, dig3Tunnel0) ∈ dig1._gxs_tunnel_contacts
    ∧ dig3Tunnel0.status = TunnelStatus.TUNNEL_DN
    ∧ dig3Tunnel0.virtual_peer_id = RsId.null 16 :=
  ⟨by decide, by decide,
   tunnel_down_has_no_virtual_peer dig1 reachable_dig1 tunnelAB dig3Tunnel0 (by decide)
     (by decide)⟩

/-- C9 as worded fails: after the peer's closing packet the tunnel record of
the answering side is `REMOTELY_CLOSED` and still carries `vpid1`, so a
reachable state has a record that is not `CAN_TALK` with a `virtual_peer_id`
that is not empty. -/
theorem remotely_closed_keeps_virtual_peer :
    ¬ (∀ s : State, Reachable s → ∀ p ∈ s._gxs_tunnel_contacts,
        (p.2.virtual_peer_id = RsId.null 16 ↔ p.2.status ≠ TunnelStatus.CAN_TALK)) := by
  intro hall
  have h := hall answerRemoteClosed reachable_answerRemoteClosed
    (tunnelAB, { answer2Tunnel with status := TunnelStatus.REMOTELY_CLOSED, last_contact := 101 })
    (by decide)
  revert h
  decide

/-! ### C10: virtual peers with a derived key -/

/-- C10, as amended: whenever `handleRecvDHPublicKey` completes a handshake
for a virtual peer (it enqueues the connection ACK), the virtual peer's record
has DH status `KEY_AVAILABLE`, and the tunnel record at its `tunnel_id` exists
with `virtual_peer_id` equal to that virtual peer and with `aes_key` equal to
the first 16 bytes of the SHA-1 of the secret computed from the virtual peer's
DH key pair and the peer's public value.  Nothing keeps this binding later. -/
theorem handshake_binds_tunnel (env : Env) (now : Nat) (s s' : State)
    (item : RsGxsTunnelDHPublicKeyItem) (ev : List Event)
    (hrun : handleRecvDHPublicKey env now s item = some (s', ev))
    (hack : s'.pendingGxsTunnelItems = s.pendingGxsTunnelItems ++
      [RsGxsTunnelItem.status
        { peerId := item.peerId, flags := RS_GXS_TUNNEL_FLAG_ACK_DISTANT_CONNECTION }]) :
    ∃ dhinfo pinfo priv pub key_buff,
      Map.find s'._gxs_tunnel_virtual_peer_ids item.peerId = some dhinfo
      ∧ dhinfo.status = DHStatus.KEY_AVAILABLE
      ∧ dhinfo.dh = some { keys := some (priv, pub) }
      ∧ env.DH_compute_key item.public_key priv = some key_buff
      ∧ Map.find s'._gxs_tunnel_contacts dhinfo.tunnel_id = some pinfo
      ∧ pinfo.virtual_peer_id = item.peerId
      ∧ pinfo.status = TunnelStatus.CAN_TALK
      ∧ pinfo.aes_key = (env.sha1sum key_buff).val.take 16 := by
  unfold handleRecvDHPublicKey at hrun
  simp only at hrun
  split at hrun
  · simp only [Option.some.injEq, Prod.mk.injEq] at hrun
    obtain ⟨rfl, -⟩ := hrun
    simp at hack
  · rename_i dhinfo hv
    split at hrun
    · simp only [Option.some.injEq, Prod.mk.injEq] at hrun
      obtain ⟨rfl, -⟩ := hrun
      simp at hack
    · split at hrun
      · simp only [Option.some.injEq, Prod.mk.injEq] at hrun
        obtain ⟨rfl, -⟩ := hrun
        simp at hack
      · split at hrun
        · simp only [Option.some.injEq, Prod.mk.injEq] at hrun
          obtain ⟨rfl, -⟩ := hrun
          simp at hack
        · generalize hs1 : (if dhinfo.status = DHStatus.KEY_AVAILABLE then
              locked_restartDHSession env s item.peerId dhinfo.own_gxs_id else s) = s1 at hrun
          have hq1 : s1.pendingGxsTunnelItems = s.pendingGxsTunnelItems := by
            rw [← hs1]
            split
            · exact (locked_restartDHSession_frame env s item.peerId dhinfo.own_gxs_id).2.1
            · rfl
          have hf1 : ∃ d1, Map.find s1._gxs_tunnel_virtual_peer_ids item.peerId = some d1 := by
            rw [← hs1]
            split
            · obtain ⟨d, hd, -⟩ :=
                locked_restartDHSession_vpid env s item.peerId dhinfo.own_gxs_id
              exact ⟨d, hd⟩
            · exact ⟨dhinfo, hv⟩
          obtain ⟨d1, hd1⟩ := hf1
          simp only [hd1, Option.getD_some] at hrun
          split at hrun
          · simp at hrun
          · rename_i d hdd
            split at hrun
            · simp only [Option.some.injEq, Prod.mk.injEq] at hrun
              obtain ⟨rfl, -⟩ := hrun
              simp [hq1] at hack
            · rename_i key_buff hkb
              simp only [Option.some.injEq, Prod.mk.injEq] at hrun
              obtain ⟨rfl, -⟩ := hrun
              cases hk : d.keys with
              | none => simp [hk] at hkb
              | some kp =>
                obtain ⟨priv, pub⟩ := kp
                simp only [hk, Option.some_bind] at hkb
                refine ⟨{ d1 with
                            tunnel_id := makeGxsTunnelId env d1.own_gxs_id item.signature.keyId,
                            gxs_id := item.signature.keyId,
                            status := DHStatus.KEY_AVAILABLE }, _, priv, pub, key_buff,
                  ?_, rfl, ?_, hkb, Map.find_insert_self _ _ _ _, rfl, rfl, rfl⟩
                · simp only [Map.find_modify, if_true, hd1, Option.map_some']
                · simp only [hdd]
                  cases d
                  simp only at hk
                  rw [hk]


/-- Witness of C10: the handshake on the answering side of the sample run. -/
theorem handshake_binds_tunnel_witness :
    handleRecvDHPublicKey sampleEnv 100 answer1 sampleDHItem
        = some (answer2, [Event.timeStampKey idB])
    ∧ ∃ dhinfo pinfo priv pub key_buff,
        Map.find answer2._gxs_tunnel_virtual_peer_ids sampleDHItem.peerId = some dhinfo
        ∧ dhinfo.status = DHStatus.KEY_AVAILABLE
        ∧ dhinfo.dh = some { keys := some (priv, pub) }
        ∧ sampleEnv.DH_compute_key sampleDHItem.public_key priv = some key_buff
        ∧ Map.find answer2._gxs_tunnel_contacts dhinfo.tunnel_id = some pinfo
        ∧ pinfo.virtual_peer_id = sampleDHItem.peerId
        ∧ pinfo.status = TunnelStatus.CAN_TALK
        ∧ pinfo.aes_key = (sampleEnv.sha1sum key_buff).val.take 16 :=
  ⟨by decide,
   handshake_binds_tunnel sampleEnv 100 answer1 answer2 sampleDHItem [Event.timeStampKey idB]
     (by decide) (by decide)⟩

/-- The digging side of the sample run after the close is reachable. -/
theorem reachable_dig4 : Reachable dig4 := by
  have h2 : Reachable dig2 :=
    Reachable.addVirtualPeer sampleEnv hashB vpid1 Direction.SERVER reachable_dig1
  have h3 : Reachable dig3 :=
    Reachable.receiveTurtleData sampleEnv 100 frameDH hashB vpid1
      [Event.timeStampKey idB] h2 (by decide)
  exact Reachable.closeExistingTunnel sampleEnv 10 tunnelAB true
    [Event.sendTurtleData vpid1 (frameEnc [3, 2]), Event.stopMonitoringTunnels hashB] h3
    (by decide)

/-- C10 as worded fails: after `closeExistingTunnel` on the digging side of
the sample run the record of `vpid1` still has DH status `KEY_AVAILABLE`, and
the tunnel table holds no record at its `tunnel_id`. -/
theorem key_available_without_tunnel_record :
    ¬ (∀ s : State, Reachable s → ∀ (v : RsPeerId) (dhinfo : GxsTunnelDHInfo),
        Map.find s._gxs_tunnel_virtual_peer_ids v = some dhinfo →
        dhinfo.status = DHStatus.KEY_AVAILABLE →
        ∃ pinfo, Map.find s._gxs_tunnel_contacts dhinfo.tunnel_id = some pinfo
          ∧ pinfo.virtual_peer_id = v) := by
  intro hall
  obtain ⟨pinfo, hp, -⟩ := hall dig4 reachable_dig4 vpid1 dig3Vpid (by decide) (by decide)
  have hnone : Map.find dig4._gxs_tunnel_contacts dig3Vpid.tunnel_id = none := by decide
  rw [hnone] at hp
  cases hp

/-! ### C11: encrypted frames shorter than 28 bytes -/

/-- On a virtual peer bound to an existing tunnel, `handleEncryptedData` has
no defined behaviour exactly when the payload is shorter than the 28 bytes of
IV and MAC plus the size it computed for the ciphertext. -/
theorem handleEncryptedData_reads_past_end (env : Env) (now : Nat) (s : State)
    (data : Bytes) (hash : Sha1CheckSum) (vpid : RsPeerId) (dhinfo : GxsTunnelDHInfo)
    (pinfo : GxsTunnelPeerInfo)
    (hv : Map.find s._gxs_tunnel_virtual_peer_ids vpid = some dhinfo)
    (ht : Map.find s._gxs_tunnel_contacts dhinfo.tunnel_id = some pinfo)
    (hshort : data.length < 28) :
    (data.length + 2 ^ 32 - GXS_TUNNEL_ENCRYPTION_IV_SIZE - GXS_TUNNEL_ENCRYPTION_HMAC_SIZE)
        % 2 ^ 32 = data.length + (2 ^ 32 - 28)
    ∧ handleEncryptedData env now s data hash vpid = none := by
  have hsz : (data.length + 2 ^ 32 - GXS_TUNNEL_ENCRYPTION_IV_SIZE
      - GXS_TUNNEL_ENCRYPTION_HMAC_SIZE) % 2 ^ 32 = data.length + (2 ^ 32 - 28) := by
    simp only [GXS_TUNNEL_ENCRYPTION_IV_SIZE, GXS_TUNNEL_ENCRYPTION_HMAC_SIZE]
    norm_num
    omega
  refine ⟨hsz, ?_⟩
  unfold handleEncryptedData
  simp only [hv, ht, hsz]
  rw [if_pos]
  simp only [GXS_TUNNEL_ENCRYPTION_IV_SIZE, GXS_TUNNEL_ENCRYPTION_HMAC_SIZE]
  norm_num
  omega

/-- On an unknown virtual peer a short encrypted frame changes nothing. -/
theorem handleEncryptedData_unknown_vpid (env : Env) (now : Nat) (s : State)
    (data : Bytes) (hash : Sha1CheckSum) (vpid : RsPeerId)
    (hv : Map.find s._gxs_tunnel_virtual_peer_ids vpid = none) :
    handleEncryptedData env now s data hash vpid = some (true, s, []) := by
  unfold handleEncryptedData
  simp only [hv]

/-- C11, the code at a failing input: a payload of 10 bytes with a nonzero
head arrives on `vpid1`, which is bound to the tunnel of the sample run.
`receiveTurtleData` takes the encrypted branch, the size of the ciphertext is
computed as `10 - 8 - 20` in `uint32_t`, that is 4294967278, and the HMAC is
taken over that many bytes from offset 28 of a 10-byte buffer: the frame is
not dropped, the run has no defined behaviour. -/
theorem short_encrypted_frame_not_dropped :
    frameShort.length = 10
    ∧ frameShort.take 8 ≠ List.replicate 8 0
    ∧ (Map.find answer2._gxs_tunnel_virtual_peer_ids vpid1).map (fun d => d.tunnel_id)
        = some tunnelAB
    ∧ (Map.find answer2._gxs_tunnel_contacts tunnelAB).isSome = true
    ∧ (frameShort.length + 2 ^ 32 - GXS_TUNNEL_ENCRYPTION_IV_SIZE
        - GXS_TUNNEL_ENCRYPTION_HMAC_SIZE) % 2 ^ 32 = 4294967278
    ∧ handleEncryptedData sampleEnv 101 answer2 frameShort hashA vpid1 = none
    ∧ receiveTurtleData sampleEnv 101 answer2 frameShort hashA vpid1 = none := by
  decide

/-! ### C12 and C13: an inbound DH public key -/

/-- C13: for every inbound DH public key item whose signature over the DH
public value does not validate against the sender's key (or for which the
handler finds no key to check against), `handleRecvDHPublicKey` returns with
the whole state unchanged and without any call: the tunnel table, the
virtual-peer table and the three pending queues are as before, so there is no
DH restart, no DH public key and no status item enqueued. -/
theorem invalid_signature_changes_nothing (env : Env) (now : Nat) (s : State)
    (item : RsGxsTunnelDHPublicKeyItem)
    (hbad : ∀ key, signatureKey env item = some key →
      env.validateSignature item.public_key key item.signature = false) :
    handleRecvDHPublicKey env now s item = some (s, []) := by
  unfold signatureKey at hbad
  unfold handleRecvDHPublicKey
  simp only
  split
  · rfl
  · split
    · rfl
    · rename_i key hk
      rw [if_pos (hbad key hk)]

/-- Witness of C13: the DH public key of the sample run when the signature
check fails. -/
theorem invalid_signature_changes_nothing_witness :
    signatureKey sampleEnvBadSig sampleDHItem = some { keyId := idB, keyData := [] }
    ∧ handleRecvDHPublicKey sampleEnvBadSig 100 answer2 sampleDHItem = some (answer2, []) :=
  ⟨by decide,
   invalid_signature_changes_nothing sampleEnvBadSig 100 answer2 sampleDHItem
     (fun _ _ => rfl)⟩

/-! ### C14: an inbound data item -/

/-- C14: for every data item handed to `handleRecvTunnelDataItem`, exactly one
`DataAck` with the same counter and the same peer id is appended at the tail
of `pendingGxsTunnelItems` and nothing else in the state changes (the pending
data are untouched), whether or not the service id is registered; the handler
registered for the service id gets `receiveData(tunnel_id, data)` exactly
once, and no handler is called when the service id is not registered.
Processing the same item twice gives two acks and two deliveries. -/
theorem data_item_acked_and_delivered (s : State) (tunnel_id : RsGxsTunnelId)
    (item : RsGxsTunnelDataItem) :
    (handleRecvTunnelDataItem s tunnel_id item).1
        = { s with pendingGxsTunnelItems := s.pendingGxsTunnelItems ++
              [RsGxsTunnelItem.ack { peerId := item.peerId,
                                     unique_item_counter := item.unique_item_counter }] }
    ∧ (handleRecvTunnelDataItem s tunnel_id item).2
        = (match Map.find s.mRegisteredServices item.service_id with
           | some service => [Event.receiveData service tunnel_id item.data]
           | none => [])
    ∧ (handleRecvTunnelDataItem (handleRecvTunnelDataItem s tunnel_id item).1 tunnel_id item).1
        = { s with pendingGxsTunnelItems := s.pendingGxsTunnelItems ++
              [RsGxsTunnelItem.ack { peerId := item.peerId,
                                     unique_item_counter := item.unique_item_counter },
               RsGxsTunnelItem.ack { peerId := item.peerId,
                                     unique_item_counter := item.unique_item_counter }] }
    ∧ (handleRecvTunnelDataItem s tunnel_id item).2
        ++ (handleRecvTunnelDataItem (handleRecvTunnelDataItem s tunnel_id item).1
              tunnel_id item).2
        = (match Map.find s.mRegisteredServices item.service_id with
           | some service => [Event.receiveData service tunnel_id item.data,
                              Event.receiveData service tunnel_id item.data]
           | none => []) := by
  unfold handleRecvTunnelDataItem
  cases h : Map.find s.mRegisteredServices item.service_id <;> simp [h]

/-- C14 on the sample run: the data item of `frameData` processed twice on the
answering side gives two acks for counter 5 and two deliveries to handler
99. -/
theorem data_item_acked_and_delivered_witness :
    (handleRecvTunnelDataItem
        (handleRecvTunnelDataItem answerReg tunnelAB sampleDataItem).1 tunnelAB
        sampleDataItem).1.pendingGxsTunnelItems
      = answerReg.pendingGxsTunnelItems ++
          [RsGxsTunnelItem.ack { peerId := vpid1, unique_item_counter := 5 },
           RsGxsTunnelItem.ack { peerId := vpid1, unique_item_counter := 5 }]
    ∧ (handleRecvTunnelDataItem answerReg tunnelAB sampleDataItem).2
        ++ (handleRecvTunnelDataItem
              (handleRecvTunnelDataItem answerReg tunnelAB sampleDataItem).1 tunnelAB
              sampleDataItem).2
        = [Event.receiveData 99 tunnelAB [42], Event.receiveData 99 tunnelAB [42]] := by
  have h := data_item_acked_and_delivered answerReg tunnelAB sampleDataItem
  refine ⟨?_, ?_⟩
  · rw [h.2.2.1]
    rfl
  · rw [h.2.2.2]
    decide

/-! ### C15: an inbound ack -/

theorem Map.mem_erase_iff {K V : Type} [DecidableEq K] (k : K) (p : K × V) :
    ∀ m : Map K V, p ∈ Map.erase k m ↔ (p ∈ m ∧ p.1 ≠ k)
  | [] => by simp [Map.erase]
  | (k', v') :: rest => by
    have ih := Map.mem_erase_iff k p rest
    unfold Map.erase
    by_cases h : k' = k
    · rw [if_pos h, ih]
      constructor
      · intro ⟨h1, h2⟩
        exact ⟨List.mem_cons_of_mem _ h1, h2⟩
      · intro ⟨h1, h2⟩
        rcases List.mem_cons.1 h1 with e | e
        · rw [e] at h2
          exact absurd h h2
        · exact ⟨e, h2⟩
    · rw [if_neg h, List.mem_cons, ih, List.mem_cons]
      constructor
      · rintro (e | ⟨h1, h2⟩)
        · exact ⟨Or.inl e, by rw [e]; exact h⟩
        · exact ⟨Or.inr h1, h2⟩
      · rintro ⟨e | h1, h2⟩
        · exact Or.inl e
        · exact Or.inr ⟨h1, h2⟩

/-- C15: for every `DataAck` with counter `c`, `handleRecvTunnelDataAckItem`
changes nothing but `pendingGxsTunnelDataItems`; afterwards no entry has key
`c`, the entries with another key are exactly those of before with the same
values, and when there was no entry with key `c` the whole state is
unchanged. -/
theorem data_ack_removes_entry (s : State) (id : RsGxsTunnelId)
    (item : RsGxsTunnelDataAckItem) :
    (∃ q, handleRecvTunnelDataAckItem s id item = { s with pendingGxsTunnelDataItems := q })
    ∧ Map.find (handleRecvTunnelDataAckItem s id item).pendingGxsTunnelDataItems
        item.unique_item_counter = none
    ∧ (∀ k, k ≠ item.unique_item_counter →
        Map.find (handleRecvTunnelDataAckItem s id item).pendingGxsTunnelDataItems k
          = Map.find s.pendingGxsTunnelDataItems k)
    ∧ (∀ p, p ∈ (handleRecvTunnelDataAckItem s id item).pendingGxsTunnelDataItems
        ↔ (p ∈ s.pendingGxsTunnelDataItems ∧ p.1 ≠ item.unique_item_counter))
    ∧ (Map.find s.pendingGxsTunnelDataItems item.unique_item_counter = none →
        handleRecvTunnelDataAckItem s id item = s) := by
  unfold handleRecvTunnelDataAckItem
  cases h : Map.find s.pendingGxsTunnelDataItems item.unique_item_counter with
  | none =>
    refine ⟨⟨s.pendingGxsTunnelDataItems, rfl⟩, h, fun _ _ => rfl, ?_, fun _ => rfl⟩
    intro p
    constructor
    · intro hp
      refine ⟨hp, ?_⟩
      intro e
      have hfind : ∀ (m : Map Nat GxsTunnelData), p ∈ m → Map.find m p.1 ≠ none := by
        intro m
        induction m with
        | nil => intro hm; simp at hm
        | cons q rest ih =>
          intro hm
          obtain ⟨k', v'⟩ := q
          unfold Map.find
          by_cases hk : k' = p.1
          · rw [if_pos hk]; simp
          · rw [if_neg hk]
            rcases List.mem_cons.1 hm with e' | e'
            · rw [e'] at hk; exact absurd rfl hk
            · exact ih e'
      exact hfind _ hp (by rw [e]; exact h)
    · intro hp
      exact hp.1
  | some d =>
    refine ⟨⟨_, rfl⟩, Map.find_erase_self _ _, ?_, ?_, ?_⟩
    · intro k hk
      exact Map.find_erase_other _ _ hk _
    · intro p
      exact Map.mem_erase_iff _ _ _
    · intro hcontra
      simp at hcontra

/-- C15 on the sample run: the ack for counter 0 removes the entry queued by
`sendData` on the digging side, the ack for counter 9 changes nothing. -/
theorem data_ack_removes_entry_witness :
    (handleRecvTunnelDataAckItem digSent tunnelAB
        { peerId := vpid1, unique_item_counter := 0 }).pendingGxsTunnelDataItems = []
    ∧ handleRecvTunnelDataAckItem digSent tunnelAB
        { peerId := vpid1, unique_item_counter := 9 } = digSent :=
  ⟨by decide,
   (data_ack_removes_entry digSent tunnelAB { peerId := vpid1, unique_item_counter := 9 }).2.2.2.2
     (by decide)⟩

/-! ### C16: when `sendData` refuses -/

/-- C16: `sendData` returns false if and only if no tunnel record exists for
the tunnel id or the service id is not registered, and when it returns false
the state is unchanged (same pending data, same counter). -/
theorem sendData_false_iff (s : State) (tunnel_id : RsGxsTunnelId) (service_id : Nat)
    (data : Bytes) :
    ((sendData s tunnel_id service_id data).1 = false
      ↔ (Map.find s._gxs_tunnel_contacts tunnel_id = none
          ∨ Map.find s.mRegisteredServices service_id = none))
    ∧ ((sendData s tunnel_id service_id data).1 = false
        → (sendData s tunnel_id service_id data).2 = s) := by
  unfold sendData
  cases h1 : Map.find s._gxs_tunnel_contacts tunnel_id <;>
    cases h2 : Map.find s.mRegisteredServices service_id <;> simp

/-- C16 on the sample run: before the service is registered `sendData` is
refused and the state stays as it was; with tunnel and service known it is
accepted. -/
theorem sendData_false_iff_witness :
    Map.find dig3.mRegisteredServices 7 = none
    ∧ (sendData dig3 tunnelAB 7 [42]).1 = false
    ∧ (sendData dig3 tunnelAB 7 [42]).2 = dig3
    ∧ (sendData digDrained tunnelAB 7 [42]).1 = true :=
  ⟨by decide,
   (sendData_false_iff dig3 tunnelAB 7 [42]).1.2 (Or.inr (by decide)),
   (sendData_false_iff dig3 tunnelAB 7 [42]).2
     ((sendData_false_iff dig3 tunnelAB 7 [42]).1.2 (Or.inr (by decide))),
   by decide⟩

/-! ### C17: the item counter -/

theorem CounterKept.of_eq {s s' : State}
    (hg : s'.global_item_counter = s.global_item_counter)
    (hp : s'.pendingGxsTunnelDataItems = s.pendingGxsTunnelDataItems) : CounterKept s s' :=
  ⟨hg, fun p h => ⟨p, by rw [← hp]; exact h, rfl⟩⟩

theorem CounterKept.trans {s s1 s2 : State} (h1 : CounterKept s s1) (h2 : CounterKept s1 s2) :
    CounterKept s s2 := by
  refine ⟨h2.1.trans h1.1, ?_⟩
  intro p hp
  obtain ⟨q, hq, e⟩ := h2.2 p hp
  obtain ⟨r, hr, e'⟩ := h1.2 q hq
  exact ⟨r, hr, e'.trans e⟩

theorem locked_restartDHSession_counterKept (env : Env) (s : State) (v : RsPeerId)
    (own : RsGxsId) : CounterKept s (locked_restartDHSession env s v own) :=
  CounterKept.of_eq (locked_restartDHSession_frame env s v own).2.2.2.2
    (locked_restartDHSession_frame env s v own).2.2.1

theorem handleIncomingItem_counterKept (s : State) (tid : RsGxsTunnelId)
    (item : RsGxsTunnelItem) : CounterKept s (handleIncomingItem s tid item).1 := by
  cases item with
  | data i =>
    simp only [handleIncomingItem, handleRecvTunnelDataItem]
    split <;> exact CounterKept.of_eq rfl rfl
  | ack i =>
    simp only [handleIncomingItem, handleRecvTunnelDataAckItem]
    split
    · exact CounterKept.of_eq rfl rfl
    · exact ⟨rfl, fun p hp => ⟨p, Map.mem_erase _ _ _ hp, rfl⟩⟩
  | status i =>
    simp only [handleIncomingItem, handleRecvStatusItem, markGxsTunnelAsClosed]
    repeat' split
    all_goals exact CounterKept.of_eq rfl rfl
  | dhkey i => exact CounterKept.of_eq rfl rfl

theorem handleEncryptedData_counterKept (env : Env) (now : Nat) (s s' : State)
    (data : Bytes) (hash : Sha1CheckSum) (vpid : RsPeerId) (ret : Bool) (ev : List Event)
    (hrun : handleEncryptedData env now s data hash vpid = some (ret, s', ev)) :
    CounterKept s s' := by
  unfold handleEncryptedData at hrun
  simp only at hrun
  repeat' split at hrun
  all_goals first
    | (simp at hrun; done)
    | (simp only [Option.some.injEq, Prod.mk.injEq] at hrun
       obtain ⟨-, rfl, -⟩ := hrun
       first
         | exact CounterKept.of_eq rfl rfl
         | exact locked_restartDHSession_counterKept _ _ _ _
         | exact CounterKept.trans (CounterKept.of_eq rfl rfl)
             (handleIncomingItem_counterKept _ _ _))

theorem handleRecvDHPublicKey_counterKept (env : Env) (now : Nat) (s s' : State)
    (item : RsGxsTunnelDHPublicKeyItem) (ev : List Event)
    (hrun : handleRecvDHPublicKey env now s item = some (s', ev)) :
    CounterKept s s' := by
  unfold handleRecvDHPublicKey at hrun
  simp only at hrun
  repeat' split at hrun
  all_goals first
    | (simp at hrun; done)
    | (simp only [Option.some.injEq, Prod.mk.injEq] at hrun
       obtain ⟨rfl, -⟩ := hrun
       first
         | exact CounterKept.of_eq rfl rfl
         | exact CounterKept.of_eq (locked_restartDHSession_frame _ _ _ _).2.2.2.2
             (locked_restartDHSession_frame _ _ _ _).2.2.1)

theorem receiveTurtleData_counterKept (env : Env) (now : Nat) (s s' : State)
    (data : Bytes) (hash : Sha1CheckSum) (vpid : RsPeerId) (ev : List Event)
    (hrun : receiveTurtleData env now s data hash vpid = some (s', ev)) :
    CounterKept s s' := by
  unfold receiveTurtleData at hrun
  split at hrun
  · simp only [Option.some.injEq, Prod.mk.injEq] at hrun
    obtain ⟨rfl, -⟩ := hrun
    exact CounterKept.of_eq rfl rfl
  · split at hrun
    · cases hr : handleEncryptedData env now s data hash vpid with
      | none => simp [hr] at hrun
      | some r =>
        obtain ⟨ret, s1, ev1⟩ := r
        simp only [hr, Option.map_some', Option.some.injEq, Prod.mk.injEq] at hrun
        obtain ⟨rfl, -⟩ := hrun
        exact handleEncryptedData_counterKept env now s s1 data hash vpid ret ev1 hr
    · split at hrun
      · exact handleRecvDHPublicKey_counterKept env now s s' _ ev hrun
      · simp only [Option.some.injEq, Prod.mk.injEq] at hrun
        obtain ⟨rfl, -⟩ := hrun
        exact CounterKept.of_eq rfl rfl

theorem flushDataItems_keys (env : Env) (fuel now : Nat) (s : State) :
    ∀ (m r : Map Nat GxsTunnelData) (c c' : Nat) (ev : List Event),
      flushDataItems env fuel now s m c = some (r, c', ev) →
      r.map Prod.fst = m.map Prod.fst
  | [], r, c, c', ev, h => by
    simp only [flushDataItems, Option.some.injEq, Prod.mk.injEq] at h
    rw [← h.1]
  | (k, d) :: rest, r, c, c', ev, h => by
    unfold flushDataItems at h
    split at h
    · split at h
      · simp at h
      · rename_i sent c1 ev1 hsend
        cases hrec : flushDataItems env fuel now s rest c1 with
        | none => rw [hrec] at h; simp at h
        | some r1 =>
          obtain ⟨m1, c2, ev2⟩ := r1
          rw [hrec] at h
          simp only [Option.map_some', Option.some.injEq, Prod.mk.injEq] at h
          rw [← h.1]
          simp only [List.map_cons]
          rw [flushDataItems_keys env fuel now s rest m1 c1 c2 ev2 hrec]
    · cases hrec : flushDataItems env fuel now s rest c with
      | none => rw [hrec] at h; simp at h
      | some r1 =>
        obtain ⟨m1, c2, ev2⟩ := r1
        rw [hrec] at h
        simp only [Option.map_some', Option.some.injEq, Prod.mk.injEq] at h
        rw [← h.1]
        simp only [List.map_cons]
        rw [flushDataItems_keys env fuel now s rest m1 c c2 ev2 hrec]

theorem flush_counterKept (env : Env) (fuel now : Nat) (s s' : State) (ev : List Event)
    (hrun : flush env fuel now s = some (s', ev)) : CounterKept s s' := by
  unfold flush at hrun
  split at hrun
  · simp at hrun
  · split at hrun
    · simp at hrun
    · split at hrun
      · simp at hrun
      · rename_i dq c3 ev3 hdata
        simp only [Option.some.injEq, Prod.mk.injEq] at hrun
        obtain ⟨rfl, -⟩ := hrun
        refine ⟨rfl, ?_⟩
        intro p hp
        have hk := flushDataItems_keys env fuel now s _ _ _ _ _ hdata
        have hmem : p.1 ∈ dq.map Prod.fst := List.mem_map_of_mem _ hp
        rw [hk] at hmem
        obtain ⟨q, hq, e⟩ := List.mem_map.1 hmem
        exact ⟨q, hq, e⟩

theorem otherStep_counterKept (s s' : State) (h : OtherStep s s') : CounterKept s s' := by
  cases h with
  | registerClientService service_id service =>
    unfold registerClientService
    split <;> exact CounterKept.of_eq rfl rfl
  | requestSecuredTunnel env now to_gxs_id from_gxs_id =>
    unfold requestSecuredTunnel startClientGxsTunnelConnection
    simp only
    repeat' split
    all_goals exact CounterKept.of_eq rfl rfl
  | closeExistingTunnel env fuel tunnel_id ret ev hrun =>
    unfold closeExistingTunnel at hrun
    simp only at hrun
    repeat' split at hrun
    all_goals first
      | (simp at hrun; done)
      | (simp only [Option.some.injEq, Prod.mk.injEq] at hrun
         obtain ⟨-, rfl, -⟩ := hrun
         exact CounterKept.of_eq rfl rfl)
  | sendData_refused tunnel_id service_id data hret =>
    unfold sendData at hret ⊢
    repeat' split
    all_goals first
      | exact CounterKept.of_eq rfl rfl
      | simp_all
  | flush env fuel now ev hrun => exact flush_counterKept env fuel now s s' ev hrun
  | addVirtualPeer env hash vpid dir =>
    unfold addVirtualPeer
    simp only
    repeat' split
    all_goals first
      | exact CounterKept.of_eq rfl rfl
      | exact CounterKept.trans (CounterKept.of_eq rfl rfl)
          (locked_restartDHSession_counterKept _ _ _ _)
  | removeVirtualPeer hash vpid =>
    unfold removeVirtualPeer
    simp only
    repeat' split
    all_goals exact CounterKept.of_eq rfl rfl
  | receiveTurtleData env now data hash vpid ev hrun =>
    exact receiveTurtleData_counterKept env now s s' data hash vpid ev hrun

theorem Map.mem_of_find {K V : Type} [DecidableEq K] (k : K) (v : V) :
    ∀ m : Map K V, Map.find m k = some v → (k, v) ∈ m
  | [] => by simp [Map.find]
  | (k', v') :: rest => by
    intro h
    unfold Map.find at h
    by_cases hk : k' = k
    · rw [if_pos hk] at h
      simp only [Option.some.injEq] at h
      rw [hk, h]
      exact List.mem_cons_self _ _
    · rw [if_neg hk] at h
      exact List.mem_cons_of_mem _ (Map.mem_of_find k v rest h)

/-- What a `sendData` that returns true does to the state. -/
theorem sendData_accepted (s : State) (tunnel_id : RsGxsTunnelId) (service_id : Nat)
    (data : Bytes) (h : (sendData s tunnel_id service_id data).1 = true) :
    (sendData s tunnel_id service_id data).2
      = { s with
            global_item_counter := (s.global_item_counter + 1) % 2 ^ 64,
            pendingGxsTunnelDataItems :=
              Map.insert natLt s.global_item_counter
                { data_item := { peerId := RsId.null 16,
                                 unique_item_counter := s.global_item_counter,
                                 flags := 0, service_id := service_id, data := data },
                  last_sending_attempt := 0 }
                s.pendingGxsTunnelDataItems } := by
  unfold sendData at h ⊢
  repeat' split
  all_goals simp_all

/-- After `n` accepted calls the counter has advanced by `n` modulo 2^64. -/
theorem run_counter (s0 s : State) (n : Nat) (h : Run s0 n s)
    (h0 : s0.global_item_counter < 2 ^ 64) :
    s.global_item_counter = (s0.global_item_counter + n) % 2 ^ 64 := by
  induction h with
  | start =>
    norm_num at h0 ⊢
    omega
  | other _ hstep ih => rw [(otherStep_counterKept _ _ hstep).1, ih]
  | sendData tunnel_id service_id data _ hret ih =>
    rw [sendData_accepted _ _ _ _ hret]
    simp only
    rw [ih]
    norm_num
    omega

/-- In a run of fewer than 2^64 accepted calls from the initial state every
pending key is smaller than the number of accepted calls. -/
theorem run_keys (s : State) (n : Nat) (h : Run State.init n s) :
    n < 2 ^ 64 → ∀ p ∈ s.pendingGxsTunnelDataItems, p.1 < n := by
  induction h with
  | start =>
    intro _ p hp
    simp [State.init] at hp
  | other _ hstep ih =>
    intro hn p hp
    obtain ⟨q, hq, e⟩ := (otherStep_counterKept _ _ hstep).2 p hp
    rw [← e]
    exact ih hn q hq
  | @sendData n s1 tunnel_id service_id data hrun hret ih =>
    intro hn p hp
    have hn' : n < 2 ^ 64 := by omega
    have hc := run_counter State.init s1 n hrun (by simp [State.init])
    have hg : s1.global_item_counter = n := by
      rw [hc]
      simp only [State.init, Nat.zero_add]
      exact Nat.mod_eq_of_lt hn'
    rw [sendData_accepted _ _ _ _ hret] at hp
    simp only at hp
    rcases Map.mem_insert _ _ _ _ _ hp with e | hmem
    · rw [e]
      simp only
      omega
    · have := ih hn' p hmem
      omega

/-- C17: every `sendData` that returns true stores a data item whose counter
is the value of `global_item_counter` before the call, under that counter as
key and with `last_sending_attempt = 0`, and adds 1 to `global_item_counter`
modulo 2^64; no other operation changes `global_item_counter`; after `n`
accepted calls the counter has advanced by `n` modulo 2^64.  Hence in runs
from the initial state (counter 0) with fewer than 2^64 accepted calls the
call made after `i` accepted calls gets a strictly smaller counter than the
call made after `j > i` accepted calls, two calls fewer than 2^64 apart get
distinct counters, and no entry is pending under the counter the next call
will use. -/
theorem sendData_counter :
    (∀ (s : State) (tunnel_id : RsGxsTunnelId) (service_id : Nat) (data : Bytes),
      (sendData s tunnel_id service_id data).1 = true →
        Map.find (sendData s tunnel_id service_id data).2.pendingGxsTunnelDataItems
            s.global_item_counter
          = some { data_item := { peerId := RsId.null 16,
                                  unique_item_counter := s.global_item_counter,
                                  flags := 0, service_id := service_id, data := data },
                   last_sending_attempt := 0 }
        ∧ (sendData s tunnel_id service_id data).2.global_item_counter
            = (s.global_item_counter + 1) % 2 ^ 64)
    ∧ (∀ s s' : State, OtherStep s s' → s'.global_item_counter = s.global_item_counter)
    ∧ (∀ (s0 s : State) (n : Nat), Run s0 n s → s0.global_item_counter < 2 ^ 64 →
        s.global_item_counter = (s0.global_item_counter + n) % 2 ^ 64)
    ∧ (∀ (i j : Nat) (s1 s2 : State), Run State.init i s1 → Run State.init j s2 →
        i < j → j < 2 ^ 64 → s1.global_item_counter < s2.global_item_counter)
    ∧ (∀ (k : Nat) (s1 s2 : State), Run s1 k s2 → s1.global_item_counter < 2 ^ 64 →
        0 < k → k < 2 ^ 64 → s2.global_item_counter ≠ s1.global_item_counter)
    ∧ (∀ (n : Nat) (s : State), Run State.init n s → n < 2 ^ 64 →
        Map.find s.pendingGxsTunnelDataItems s.global_item_counter = none) := by
  refine ⟨?_, ?_, ?_, ?_, ?_, ?_⟩
  · intro s tunnel_id service_id data h
    rw [sendData_accepted s tunnel_id service_id data h]
    exact ⟨Map.find_insert_self _ _ _ _, rfl⟩
  · intro s s' h
    exact (otherStep_counterKept s s' h).1
  · intro s0 s n h h0
    exact run_counter s0 s n h h0
  · intro i j s1 s2 h1 h2 hij hj
    rw [run_counter State.init s1 i h1 (by simp [State.init]),
      run_counter State.init s2 j h2 (by simp [State.init])]
    simp only [State.init, Nat.zero_add]
    rw [Nat.mod_eq_of_lt (by omega), Nat.mod_eq_of_lt hj]
    exact hij
  · intro k s1 s2 h h0 hk hk'
    rw [run_counter s1 s2 k h h0]
    norm_num at h0 hk' ⊢
    omega
  · intro n s h hn
    have hg : s.global_item_counter = n := by
      rw [run_counter State.init s n h (by simp [State.init])]
      simp only [State.init, Nat.zero_add]
      exact Nat.mod_eq_of_lt hn
    cases hf : Map.find s.pendingGxsTunnelDataItems s.global_item_counter with
    | none => rfl
    | some v =>
      have hmem := Map.mem_of_find _ _ _ hf
      have hlt := run_keys s n h hn _ hmem
      simp only at hlt
      omega

/-- The digging side of the sample run after `sendData`: one accepted call. -/
theorem run_digSent : Run State.init 1 digSent := by
  have h1 : Run State.init 0 dig1 :=
    Run.other Run.start (OtherStep.requestSecuredTunnel sampleEnv 100 idB idA)
  have h2 : Run State.init 0 dig2 :=
    Run.other h1 (OtherStep.addVirtualPeer sampleEnv hashB vpid1 Direction.SERVER)
  have h3 : Run State.init 0 dig3 :=
    Run.other h2 (OtherStep.receiveTurtleData sampleEnv 100 frameDH hashB vpid1
      [Event.timeStampKey idB] (by decide))
  have h4 : Run State.init 0 digReg :=
    Run.other h3 (OtherStep.registerClientService 7 99)
  have h5 : Run State.init 0 digDrained :=
    Run.other h4 (OtherStep.flush sampleEnv 10 100
      [Event.sendTurtleData vpid1 (List.replicate 8 0 ++ [4, 1, 5]),
       Event.sendTurtleData vpid1 (frameEnc [3, 4])] (by decide))
  exact Run.sendData tunnelAB 7 [42] h5 (by decide)

/-- C17 on the sample run: the first accepted `sendData` got counter 0, the
counter is now 1 and nothing is pending under 1. -/
theorem sendData_counter_witness :
    Map.find digSent.pendingGxsTunnelDataItems 0
        = some { data_item := { peerId := RsId.null 16, unique_item_counter := 0, flags := 0,
                                service_id := 7, data := [42] },
                 last_sending_attempt := 0 }
    ∧ digSent.global_item_counter = (State.init.global_item_counter + 1) % 2 ^ 64
    ∧ Map.find digSent.pendingGxsTunnelDataItems digSent.global_item_counter = none :=
  ⟨by decide,
   sendData_counter.2.2.1 State.init digSent 1 run_digSent (by decide),
   sendData_counter.2.2.2.2.2 1 digSent run_digSent (by decide)⟩

/-! ### C18 and C19: `requestSecuredTunnel` -/

theorem any_eq_iff_mem (l : List RsGxsId) (x : RsGxsId) :
    l.any (fun id => decide (id = x)) = true ↔ x ∈ l := by
  simp only [List.any_eq_true, decide_eq_true_eq]
  constructor
  · rintro ⟨y, hy, rfl⟩
    exact hy
  · intro h
    exact ⟨x, h, rfl⟩

/-- A `requestSecuredTunnel` whose tunnel record exists changes nothing. -/
theorem requestSecuredTunnel_existing (env : Env) (now : Nat) (s : State)
    (to_gxs_id from_gxs_id : RsGxsId) (pinfo : GxsTunnelPeerInfo)
    (hown : from_gxs_id ∈ env.getOwnIds)
    (hrec : Map.find s._gxs_tunnel_contacts (makeGxsTunnelId env from_gxs_id to_gxs_id)
      = some pinfo) :
    requestSecuredTunnel env now s to_gxs_id from_gxs_id
      = (true, some (makeGxsTunnelId env from_gxs_id to_gxs_id),
          TunnelError.RS_GXS_TUNNEL_ERROR_NO_ERROR, s, []) := by
  have hany : ¬ env.getOwnIds.any (fun id => decide (id = from_gxs_id)) = false := by
    rw [(any_eq_iff_mem _ _).2 hown]
    simp
  unfold requestSecuredTunnel
  rw [if_neg hany]
  simp only [startClientGxsTunnelConnection, hrec]

/-- A `requestSecuredTunnel` whose tunnel record does not exist creates it and
asks the router once. -/
theorem requestSecuredTunnel_fresh (env : Env) (now : Nat) (s : State)
    (to_gxs_id from_gxs_id : RsGxsId)
    (hown : from_gxs_id ∈ env.getOwnIds)
    (hrec : Map.find s._gxs_tunnel_contacts (makeGxsTunnelId env from_gxs_id to_gxs_id)
      = none) :
    requestSecuredTunnel env now s to_gxs_id from_gxs_id
      = (true, some (makeGxsTunnelId env from_gxs_id to_gxs_id),
          TunnelError.RS_GXS_TUNNEL_ERROR_NO_ERROR,
          { s with
            _gxs_tunnel_contacts :=
              Map.insert RsId.lt (makeGxsTunnelId env from_gxs_id to_gxs_id)
                { last_contact := now, last_keep_alive_sent := now,
                  status := TunnelStatus.TUNNEL_DN, own_gxs_id := from_gxs_id,
                  to_gxs_id := to_gxs_id,
                  hash := randomHashFromDestinationGxsId env 0 to_gxs_id,
                  direction := Direction.SERVER, virtual_peer_id := RsId.null 16,
                  aes_key := List.replicate GXS_TUNNEL_AES_KEY_SIZE 0 }
                s._gxs_tunnel_contacts },
          [Event.monitorTunnels (randomHashFromDestinationGxsId env 0 to_gxs_id)]) := by
  have hany : ¬ env.getOwnIds.any (fun id => decide (id = from_gxs_id)) = false := by
    rw [(any_eq_iff_mem _ _).2 hown]
    simp
  unfold requestSecuredTunnel
  rw [if_neg hany]
  simp only [startClientGxsTunnelConnection, hrec]

/-- C18: when `from_gxs_id` is not among the ids returned by `getOwnIds`,
`requestSecuredTunnel` returns false with the error code
`RS_GXS_TUNNEL_ERROR_UNKNOWN_GXS_ID`, writes no tunnel id, leaves the whole
state unchanged (no tunnel record is created) and makes no overlay call; when
it is among them the call returns true with `RS_GXS_TUNNEL_ERROR_NO_ERROR` and
the tunnel id `makeGxsTunnelId(from_gxs_id, to_gxs_id)`. -/
theorem requestSecuredTunnel_checks_own_id (env : Env) (now : Nat) (s : State)
    (to_gxs_id from_gxs_id : RsGxsId) :
    (from_gxs_id ∉ env.getOwnIds →
      requestSecuredTunnel env now s to_gxs_id from_gxs_id
        = (false, none, TunnelError.RS_GXS_TUNNEL_ERROR_UNKNOWN_GXS_ID, s, []))
    ∧ (from_gxs_id ∈ env.getOwnIds →
        ∃ s' ev, requestSecuredTunnel env now s to_gxs_id from_gxs_id
          = (true, some (makeGxsTunnelId env from_gxs_id to_gxs_id),
              TunnelError.RS_GXS_TUNNEL_ERROR_NO_ERROR, s', ev)) := by
  constructor
  · intro h
    have hany : env.getOwnIds.any (fun id => decide (id = from_gxs_id)) = false := by
      rw [Bool.eq_false_iff]
      intro hc
      exact h ((any_eq_iff_mem _ _).1 hc)
    unfold requestSecuredTunnel
    rw [if_pos hany]
  · intro h
    cases hrec : Map.find s._gxs_tunnel_contacts
        (makeGxsTunnelId env from_gxs_id to_gxs_id) with
    | some pinfo =>
      exact ⟨_, _, requestSecuredTunnel_existing env now s to_gxs_id from_gxs_id pinfo h hrec⟩
    | none =>
      exact ⟨_, _, requestSecuredTunnel_fresh env now s to_gxs_id from_gxs_id h hrec⟩

/-- C18 on the sample run: `idB` is not an own id and is refused, `idA` is an
own id and gets the tunnel id. -/
theorem requestSecuredTunnel_checks_own_id_witness :
    idB ∉ sampleEnv.getOwnIds
    ∧ requestSecuredTunnel sampleEnv 100 State.init idA idB
        = (false, none, TunnelError.RS_GXS_TUNNEL_ERROR_UNKNOWN_GXS_ID, State.init, [])
    ∧ idA ∈ sampleEnv.getOwnIds
    ∧ requestSecuredTunnel sampleEnv 100 State.init idB idA
        = (true, some (makeGxsTunnelId sampleEnv idA idB),
            TunnelError.RS_GXS_TUNNEL_ERROR_NO_ERROR, dig1, [Event.monitorTunnels hashB]) :=
  ⟨by decide,
   (requestSecuredTunnel_checks_own_id sampleEnv 100 State.init idA idB).1 (by decide),
   by decide, by decide⟩

theorem makeGxsTunnelId_congr (env1 env2 : Env) (h : env2.sha1sum = env1.sha1sum)
    (a b : RsGxsId) : makeGxsTunnelId env2 a b = makeGxsTunnelId env1 a b := by
  apply Subtype.ext
  simp only [makeGxsTunnelId, RsId.fromBytes, h]

/-- C19: for every state and every `to`, `from` with `from` among the own
ids, two consecutive calls `requestSecuredTunnel(to, from)` return true with
the same tunnel id; the second call, which finds the record, leaves the state
unchanged and makes no router call; a first call that finds the record does
the same, and a first call that finds no record makes exactly one
`monitorTunnels` call, so that the two calls together make exactly one.  The
two calls may differ in time and random bytes; SHA-1 is the same function. -/
theorem requestSecuredTunnel_twice (env1 env2 : Env) (now1 now2 : Nat) (s : State)
    (to_gxs_id from_gxs_id : RsGxsId)
    (hsha : env2.sha1sum = env1.sha1sum)
    (h1 : from_gxs_id ∈ env1.getOwnIds) (h2 : from_gxs_id ∈ env2.getOwnIds) :
    (requestSecuredTunnel env1 now1 s to_gxs_id from_gxs_id).1 = true
    ∧ (requestSecuredTunnel env1 now1 s to_gxs_id from_gxs_id).2.1
        = some (makeGxsTunnelId env1 from_gxs_id to_gxs_id)
    ∧ requestSecuredTunnel env2 now2
          (requestSecuredTunnel env1 now1 s to_gxs_id from_gxs_id).2.2.2.1
          to_gxs_id from_gxs_id
        = (true, some (makeGxsTunnelId env1 from_gxs_id to_gxs_id),
            TunnelError.RS_GXS_TUNNEL_ERROR_NO_ERROR,
            (requestSecuredTunnel env1 now1 s to_gxs_id from_gxs_id).2.2.2.1, [])
    ∧ ((∃ pinfo, Map.find s._gxs_tunnel_contacts
            (makeGxsTunnelId env1 from_gxs_id to_gxs_id) = some pinfo) →
        (requestSecuredTunnel env1 now1 s to_gxs_id from_gxs_id).2.2.2.1 = s
        ∧ (requestSecuredTunnel env1 now1 s to_gxs_id from_gxs_id).2.2.2.2 = [])
    ∧ (Map.find s._gxs_tunnel_contacts (makeGxsTunnelId env1 from_gxs_id to_gxs_id) = none →
        (requestSecuredTunnel env1 now1 s to_gxs_id from_gxs_id).2.2.2.2
          ++ (requestSecuredTunnel env2 now2
                (requestSecuredTunnel env1 now1 s to_gxs_id from_gxs_id).2.2.2.1
                to_gxs_id from_gxs_id).2.2.2.2
          = [Event.monitorTunnels (randomHashFromDestinationGxsId env1 0 to_gxs_id)]) := by
  have hid := makeGxsTunnelId_congr env1 env2 hsha from_gxs_id to_gxs_id
  have hsecond : ∀ s1 pinfo, Map.find s1._gxs_tunnel_contacts
        (makeGxsTunnelId env1 from_gxs_id to_gxs_id) = some pinfo →
      requestSecuredTunnel env2 now2 s1 to_gxs_id from_gxs_id
        = (true, some (makeGxsTunnelId env1 from_gxs_id to_gxs_id),
            TunnelError.RS_GXS_TUNNEL_ERROR_NO_ERROR, s1, []) := by
    intro s1 pinfo hrec
    have := requestSecuredTunnel_existing env2 now2 s1 to_gxs_id from_gxs_id pinfo h2
      (by rw [hid]; exact hrec)
    rw [this, hid]
  cases hrec : Map.find s._gxs_tunnel_contacts (makeGxsTunnelId env1 from_gxs_id to_gxs_id) with
  | some pinfo =>
    have hfirst := requestSecuredTunnel_existing env1 now1 s to_gxs_id from_gxs_id pinfo h1 hrec
    rw [hfirst]
    refine ⟨rfl, rfl, hsecond s pinfo hrec, fun _ => ⟨rfl, rfl⟩, ?_⟩
    intro hc
    cases hc
  | none =>
    have hfirst := requestSecuredTunnel_fresh env1 now1 s to_gxs_id from_gxs_id h1 hrec
    rw [hfirst]
    have hnow := hsecond
      { s with
        _gxs_tunnel_contacts :=
          Map.insert RsId.lt (makeGxsTunnelId env1 from_gxs_id to_gxs_id)
            { last_contact := now1, last_keep_alive_sent := now1,
              status := TunnelStatus.TUNNEL_DN, own_gxs_id := from_gxs_id,
              to_gxs_id := to_gxs_id,
              hash := randomHashFromDestinationGxsId env1 0 to_gxs_id,
              direction := Direction.SERVER, virtual_peer_id := RsId.null 16,
              aes_key := List.replicate GXS_TUNNEL_AES_KEY_SIZE 0 }
            s._gxs_tunnel_contacts } _ (Map.find_insert_self _ _ _ _)
    refine ⟨rfl, rfl, hnow, ?_, ?_⟩
    · rintro ⟨pinfo, hc⟩
      cases hc
    · intro _
      simp only
      rw [hnow]
      rfl

/-- Witness of C19: `requestSecuredTunnel(idB, idA)` twice from the initial
state of the sample run. -/
theorem requestSecuredTunnel_twice_witness :
    idA ∈ sampleEnv.getOwnIds
    ∧ requestSecuredTunnel sampleEnv 100 State.init idB idA
        = (true, some tunnelAB, TunnelError.RS_GXS_TUNNEL_ERROR_NO_ERROR, dig1,
            [Event.monitorTunnels hashB])
    ∧ requestSecuredTunnel sampleEnvColdCache 105
          (requestSecuredTunnel sampleEnv 100 State.init idB idA).2.2.2.1 idB idA
        = (true, some (makeGxsTunnelId sampleEnv idA idB),
            TunnelError.RS_GXS_TUNNEL_ERROR_NO_ERROR,
            (requestSecuredTunnel sampleEnv 100 State.init idB idA).2.2.2.1, []) :=
  ⟨by decide, by decide,
   (requestSecuredTunnel_twice sampleEnv sampleEnvColdCache 100 105 State.init idB idA rfl
      (by decide) (by decide)).2.2.1⟩

/-! ### C20: `handleTunnelRequest` -/

/-- C20: `handleTunnelRequest(hash, peer)` returns true if and only if the id
made of the first 16 bytes of `hash` is one of the ids returned by
`getOwnIds`; the result is the same for every hash with the same first 16
bytes and for every peer id.  The function reads the own ids and nothing of
the service state, which it cannot change. -/
theorem handleTunnelRequest_iff (env : Env) (hash : Sha1CheckSum) (peer_id : RsPeerId) :
    (handleTunnelRequest env hash peer_id = true
      ↔ destinationGxsIdFromHash hash ∈ env.getOwnIds)
    ∧ (destinationGxsIdFromHash hash).val = hash.val.take 16
    ∧ (∀ (hash' : Sha1CheckSum) (peer_id' : RsPeerId),
        hash'.val.take 16 = hash.val.take 16 →
        handleTunnelRequest env hash' peer_id' = handleTunnelRequest env hash peer_id) := by
  refine ⟨?_, rfl, ?_⟩
  · unfold handleTunnelRequest
    exact any_eq_iff_mem _ _
  · intro hash' peer_id' h
    have e : destinationGxsIdFromHash hash' = destinationGxsIdFromHash hash :=
      Subtype.ext h
    unfold handleTunnelRequest
    rw [e]

/-- C20 on the sample run: the hash made for `idA` is accepted, whoever asks
and whatever its last four bytes, and the hash made for `idB` is refused. -/
theorem handleTunnelRequest_iff_witness :
    handleTunnelRequest sampleEnv hashA vpid1 = true
    ∧ handleTunnelRequest sampleEnv hashA2 (sampleId 3) = true
    ∧ handleTunnelRequest sampleEnv hashB vpid1 = false := by
  have h1 : handleTunnelRequest sampleEnv hashA vpid1 = true :=
    (handleTunnelRequest_iff sampleEnv hashA vpid1).1.2 (by decide)
  refine ⟨h1, ?_, by decide⟩
  rw [(handleTunnelRequest_iff sampleEnv hashA vpid1).2.2 hashA2 (sampleId 3) (by decide)]
  exact h1

/-! ### C21: the registry of client services -/

/-- C21: `registerClientService(id, handler)` returns false and leaves the
whole state unchanged, so the earlier handler stays mapped, when `id` is
already registered; otherwise it returns true, the registry afterwards maps
`id` to `handler` and is unchanged for every other id, and nothing else in
the state changes. -/
theorem registerClientService_rejects_duplicates (s : State) (service_id service : Nat) :
    (∀ earlier, Map.find s.mRegisteredServices service_id = some earlier →
      registerClientService s service_id service = (false, s))
    ∧ (Map.find s.mRegisteredServices service_id = none →
        (registerClientService s service_id service).1 = true
        ∧ Map.find (registerClientService s service_id service).2.mRegisteredServices
            service_id = some service
        ∧ (∀ k, k ≠ service_id →
            Map.find (registerClientService s service_id service).2.mRegisteredServices k
              = Map.find s.mRegisteredServices k)
        ∧ (∃ m, (registerClientService s service_id service).2
            = { s with mRegisteredServices := m })) := by
  unfold registerClientService
  constructor
  · intro earlier h
    rw [h]
  · intro h
    rw [h]
    exact ⟨rfl, Map.find_insert_self _ _ _ _,
      fun k hk => Map.find_insert_other _ _ _ _ hk _, ⟨_, rfl⟩⟩

/-- C21 on the sample run: service 7 is registered with handler 99; a second
registration of 7 with handler 55 is refused and 99 stays mapped. -/
theorem registerClientService_rejects_duplicates_witness :
    registerClientService answer2 7 99 = (true, answerReg)
    ∧ Map.find answerReg.mRegisteredServices 7 = some 99
    ∧ registerClientService answerReg 7 55 = (false, answerReg) :=
  ⟨by decide, by decide,
   (registerClientService_rejects_duplicates answerReg 7 55).1 99 (by decide)⟩

/-! ### Frames as built by the sender -/

theorem u64Bytes_eq (x : Nat) :
    u64Bytes x = [x / 256 ^ 0 % 256, x / 256 ^ 1 % 256, x / 256 ^ 2 % 256, x / 256 ^ 3 % 256,
      x / 256 ^ 4 % 256, x / 256 ^ 5 % 256, x / 256 ^ 6 % 256, x / 256 ^ 7 % 256] := rfl

theorem u64Bytes_length (x : Nat) : (u64Bytes x).length = 8 := by
  rw [u64Bytes_eq]
  rfl

theorem u64Bytes_ne_zero (x : Nat) (h0 : x ≠ 0) (hlt : x < 2 ^ 64) :
    u64Bytes x ≠ List.replicate 8 0 := by
  rw [u64Bytes_eq]
  intro h
  simp only [List.replicate, List.cons.injEq, and_true] at h
  norm_num at h hlt
  omega

/-- What the IV loop returns: a nonzero 64-bit value, the last one drawn; every
value drawn before it was zero. -/
theorem drawIV_spec (env : Env) :
    ∀ (fuel c IV c' : Nat), drawIV env fuel c = some (IV, c') →
      IV ≠ 0 ∧ IV < 2 ^ 64 ∧ c < c' ∧ IV = env.random_u64 (c' - 1) % 2 ^ 64
      ∧ ∀ n, c ≤ n → n + 1 < c' → env.random_u64 n % 2 ^ 64 = 0
  | 0, c, IV, c', h => by simp [drawIV] at h
  | fuel + 1, c, IV, c', h => by
    unfold drawIV at h
    simp only at h
    split at h
    · rename_i hz
      obtain ⟨h1, h2, h3, h4, h5⟩ := drawIV_spec env fuel (c + 1) IV c' h
      refine ⟨h1, h2, by omega, h4, ?_⟩
      intro n hn hn'
      by_cases e : n = c
      · rw [e]; exact hz
      · exact h5 n (by omega) hn'
    · rename_i hz
      simp only [Option.some.injEq, Prod.mk.injEq] at h
      obtain ⟨rfl, rfl⟩ := h
      refine ⟨hz, Nat.mod_lt _ (by norm_num), by omega, by simp, ?_⟩
      intro n hn hn'
      omega

/-- A `locked_sendEncryptedTunnelData` that returns true has found the virtual
peer of the item and a `CAN_TALK` tunnel, drawn an IV, encrypted the
serialised item and made exactly one router call. -/
theorem locked_sendEncryptedTunnelData_true (env : Env) (fuel c c' : Nat) (s : State)
    (item : RsGxsTunnelItem) (ev : List Event)
    (h : locked_sendEncryptedTunnelData env fuel c s item = some (true, c', ev)) :
    ∃ buff dhinfo pinfo IV ct,
      env.serialise item = some buff
      ∧ Map.find s._gxs_tunnel_virtual_peer_ids item.PeerId = some dhinfo
      ∧ Map.find s._gxs_tunnel_contacts dhinfo.tunnel_id = some pinfo
      ∧ pinfo.status = TunnelStatus.CAN_TALK
      ∧ drawIV env fuel c = some (IV, c')
      ∧ env.aes_crypt_8_16 pinfo.aes_key (u64Bytes IV) buff = some ct
      ∧ ev = [Event.sendTurtleData pinfo.virtual_peer_id
                (u64Bytes IV ++ (env.HMAC pinfo.aes_key ct).val ++ ct)] := by
  unfold locked_sendEncryptedTunnelData at h
  split at h
  · simp at h
  · rename_i buff hbuff
    split at h
    · simp at h
    · rename_i dhinfo hv
      split at h
      · simp at h
      · rename_i pinfo ht
        split at h
        · simp at h
        · rename_i hst
          split at h
          · simp at h
          · rename_i IV c1 hiv
            split at h
            · simp at h
            · rename_i ct hct
              simp only [Option.some.injEq, Prod.mk.injEq, true_and] at h
              obtain ⟨rfl, rfl⟩ := h
              exact ⟨buff, dhinfo, pinfo, IV, ct, hbuff, hv, ht, by simpa using hst, hiv, hct,
                rfl⟩

/-- The converse: the call made when every step of
`locked_sendEncryptedTunnelData` succeeds. -/
theorem locked_sendEncryptedTunnelData_ok (env : Env) (fuel c : Nat) (s : State)
    (item : RsGxsTunnelItem) (dhinfo : GxsTunnelDHInfo) (pinfo : GxsTunnelPeerInfo)
    (p ct : Bytes) (iv c' : Nat)
    (hv : Map.find s._gxs_tunnel_virtual_peer_ids item.PeerId = some dhinfo)
    (ht : Map.find s._gxs_tunnel_contacts dhinfo.tunnel_id = some pinfo)
    (hst : pinfo.status = TunnelStatus.CAN_TALK)
    (hser : env.serialise item = some p)
    (hiv : drawIV env fuel c = some (iv, c'))
    (hct : env.aes_crypt_8_16 pinfo.aes_key (u64Bytes iv) p = some ct) :
    locked_sendEncryptedTunnelData env fuel c s item
      = some (true, c',
          [Event.sendTurtleData pinfo.virtual_peer_id
            (u64Bytes iv ++ (env.HMAC pinfo.aes_key ct).val ++ ct)]) := by
  unfold locked_sendEncryptedTunnelData
  simp only [hser, hv, ht, hst, hiv, hct, ne_eq, not_true_eq_false, if_false]

/-- The three fields of an encrypted frame. -/
theorem frame_fields (iv mac ct : Bytes) (hiv : iv.length = 8) (hmac : mac.length = 20) :
    (iv ++ mac ++ ct).length = ct.length + 28
    ∧ (iv ++ mac ++ ct).take 8 = iv
    ∧ ((iv ++ mac ++ ct).drop 8).take 20 = mac
    ∧ (iv ++ mac ++ ct).drop 28 = ct := by
  refine ⟨?_, ?_, ?_, ?_⟩
  · simp only [List.length_append, hiv, hmac]
    omega
  · rw [List.append_assoc, List.take_left' hiv]
  · rw [List.append_assoc, List.drop_left' hiv, List.take_left' hmac]
  · have h28 : (iv ++ mac).length = 28 := by simp [hiv, hmac]
    rw [List.drop_left' h28]

/-! ### C30: the layout of an encrypted frame -/

/-- C30: for an item whose virtual peer is bound to a tunnel in `CAN_TALK`
with key `k`, whose serialisation is `p`, with the IV `iv` drawn and
`ct = aes_crypt_8_16(k, iv, p)`, `locked_sendEncryptedTunnelData` returns true
and hands the overlay exactly one payload, addressed to the tunnel record's
`virtual_peer_id`: the 8 bytes of `iv`, then the 20 bytes of `HMAC(k, ct)`
(the MAC input is the ciphertext only), then `ct`; its length is
`|ct| + 28`. -/
theorem encrypted_frame_layout (env : Env) (fuel c : Nat) (s : State)
    (item : RsGxsTunnelItem) (dhinfo : GxsTunnelDHInfo) (pinfo : GxsTunnelPeerInfo)
    (p ct : Bytes) (iv c' : Nat)
    (hv : Map.find s._gxs_tunnel_virtual_peer_ids item.PeerId = some dhinfo)
    (ht : Map.find s._gxs_tunnel_contacts dhinfo.tunnel_id = some pinfo)
    (hst : pinfo.status = TunnelStatus.CAN_TALK)
    (hser : env.serialise item = some p)
    (hiv : drawIV env fuel c = some (iv, c'))
    (hct : env.aes_crypt_8_16 pinfo.aes_key (u64Bytes iv) p = some ct) :
    locked_sendEncryptedTunnelData env fuel c s item
      = some (true, c',
          [Event.sendTurtleData pinfo.virtual_peer_id
            (u64Bytes iv ++ (env.HMAC pinfo.aes_key ct).val ++ ct)])
    ∧ (u64Bytes iv ++ (env.HMAC pinfo.aes_key ct).val ++ ct).length = ct.length + 28
    ∧ (u64Bytes iv ++ (env.HMAC pinfo.aes_key ct).val ++ ct).take 8 = u64Bytes iv
    ∧ ((u64Bytes iv ++ (env.HMAC pinfo.aes_key ct).val ++ ct).drop 8).take 20
        = (env.HMAC pinfo.aes_key ct).val
    ∧ (u64Bytes iv ++ (env.HMAC pinfo.aes_key ct).val ++ ct).drop 28 = ct
    ∧ (u64Bytes iv).length = 8 ∧ (env.HMAC pinfo.aes_key ct).val.length = 20 :=
  ⟨locked_sendEncryptedTunnelData_ok env fuel c s item dhinfo pinfo p ct iv c' hv ht hst hser
      hiv hct,
    (frame_fields _ _ ct (u64Bytes_length iv) (env.HMAC pinfo.aes_key ct).property).1,
    (frame_fields _ _ ct (u64Bytes_length iv) (env.HMAC pinfo.aes_key ct).property).2.1,
    (frame_fields _ _ ct (u64Bytes_length iv) (env.HMAC pinfo.aes_key ct).property).2.2.1,
    (frame_fields _ _ ct (u64Bytes_length iv) (env.HMAC pinfo.aes_key ct).property).2.2.2,
    u64Bytes_length iv, (env.HMAC pinfo.aes_key ct).property⟩

/-- C30 on the sample run: a keep-alive for `vpid1` sent on the answering side
after the handshake goes to `vpid1` as IV 1, MAC over `[3, 1]`, `[3, 1]`, 30
bytes in all. -/
theorem encrypted_frame_layout_witness :
    locked_sendEncryptedTunnelData sampleEnv 1 0 answer2 keepAlive1
      = some (true, 1, [Event.sendTurtleData vpid1 (frameEnc [3, 1])])
    ∧ (frameEnc [3, 1]).length = 30
    ∧ ((frameEnc [3, 1]).drop 8).take 20 = (sampleEnv.HMAC sampleKey [3, 1]).val := by
  have h := encrypted_frame_layout sampleEnv 1 0 answer2 keepAlive1 answer2Vpid answer2Tunnel
    [3, 1] [3, 1] 1 1 (by decide) (by decide) (by decide) (by decide) (by decide) (by decide)
  refine ⟨h.1.trans (by decide), by decide, by decide⟩

/-! ### C23: the first eight bytes of a payload -/

/-- The clear branch of `receiveTurtleData` on `0^8 ++ body`. -/
theorem receiveTurtleData_clear (env : Env) (now : Nat) (s : State) (body : Bytes)
    (hash : Sha1CheckSum) (v : RsPeerId) :
    receiveTurtleData env now s (List.replicate 8 0 ++ body) hash v
      = (match env.deserialise body with
         | some (.dhkey dhitem) => handleRecvDHPublicKey env now s { dhitem with peerId := v }
         | _ => some (s, [])) := by
  unfold receiveTurtleData
  have hl : ¬ (List.replicate 8 0 ++ body).length < 8 := by simp
  have ht : (List.replicate 8 0 ++ body).take 8 = List.replicate 8 0 :=
    List.take_left' (by simp)
  have hd : (List.replicate 8 0 ++ body).drop 8 = body := List.drop_left' (by simp)
  rw [if_neg hl, if_neg (by rw [ht]; simp), hd]

/-- The encrypted branch of `receiveTurtleData` on a payload that starts with
a nonzero IV. -/
theorem receiveTurtleData_encrypted (env : Env) (now : Nat) (s : State) (iv : Nat) (rest : Bytes)
    (hash : Sha1CheckSum) (v : RsPeerId) (h0 : iv ≠ 0) (hlt : iv < 2 ^ 64) :
    receiveTurtleData env now s (u64Bytes iv ++ rest) hash v
      = (handleEncryptedData env now s (u64Bytes iv ++ rest) hash v).map (fun r => r.2) := by
  unfold receiveTurtleData
  have hl : ¬ (u64Bytes iv ++ rest).length < 8 := by
    simp [u64Bytes_length]
  have ht : (u64Bytes iv ++ rest).take 8 = u64Bytes iv := List.take_left' (u64Bytes_length iv)
  rw [if_neg hl, if_pos (by rw [ht]; exact u64Bytes_ne_zero iv h0 hlt)]

/-- C23: the first 8 bytes tell clear from encrypted payloads, for sender and
receiver alike.  A payload built by `locked_sendClearTunnelData` is 8 zero
bytes followed by the serialised item (length `serial_size + 8`), and
`receiveTurtleData` (of any receiver) takes the clear branch for it.  A
payload built by `locked_sendEncryptedTunnelData` starts with the 8 bytes of an
IV that is not zero: it is the first nonzero value drawn, every value drawn
before it was 0; and `receiveTurtleData` takes the encrypted branch for it. -/
theorem first_eight_bytes_discriminate (env : Env) :
    (∀ (item : RsGxsTunnelDHPublicKeyItem) (ev : List Event),
        locked_sendClearTunnelData env item = (true, ev) →
        ∃ body, env.serialise (.dhkey item) = some body
          ∧ ev = [Event.sendTurtleData item.peerId (List.replicate 8 0 ++ body)]
          ∧ (List.replicate 8 0 ++ body).length = body.length + 8
          ∧ (List.replicate 8 0 ++ body).take 8 = List.replicate 8 0
          ∧ ∀ (env' : Env) (now : Nat) (s : State) (hash : Sha1CheckSum) (v : RsPeerId),
              receiveTurtleData env' now s (List.replicate 8 0 ++ body) hash v
                = (match env'.deserialise body with
                   | some (.dhkey dhitem) =>
                     handleRecvDHPublicKey env' now s { dhitem with peerId := v }
                   | _ => some (s, [])))
    ∧ (∀ (fuel c c' : Nat) (s : State) (item : RsGxsTunnelItem) (ev : List Event),
        locked_sendEncryptedTunnelData env fuel c s item = some (true, c', ev) →
        ∃ (dest : RsPeerId) (payload : Bytes) (iv : Nat),
          ev = [Event.sendTurtleData dest payload]
          ∧ payload.take 8 = u64Bytes iv
          ∧ iv ≠ 0
          ∧ iv = env.random_u64 (c' - 1) % 2 ^ 64
          ∧ (∀ n, c ≤ n → n + 1 < c' → env.random_u64 n % 2 ^ 64 = 0)
          ∧ payload.take 8 ≠ List.replicate 8 0
          ∧ ∀ (env' : Env) (now : Nat) (s' : State) (hash : Sha1CheckSum) (v : RsPeerId),
              receiveTurtleData env' now s' payload hash v
                = (handleEncryptedData env' now s' payload hash v).map (fun r => r.2)) := by
  constructor
  · intro item ev h
    unfold locked_sendClearTunnelData at h
    split at h
    · simp at h
    · rename_i body hb
      simp only [Prod.mk.injEq, true_and] at h
      refine ⟨body, hb, h.symm, by simp, List.take_left' (by simp), ?_⟩
      intro env' now s hash v
      exact receiveTurtleData_clear env' now s body hash v
  · intro fuel c c' s item ev h
    obtain ⟨buff, dhinfo, pinfo, IV, ct, _, _, _, _, hiv, _, hev⟩ :=
      locked_sendEncryptedTunnelData_true env fuel c c' s item ev h
    obtain ⟨h0, hlt, _, hlast, hzero⟩ := drawIV_spec env fuel c IV c' hiv
    have ht : (u64Bytes IV ++ (env.HMAC pinfo.aes_key ct).val ++ ct).take 8 = u64Bytes IV := by
      rw [List.append_assoc]
      exact List.take_left' (u64Bytes_length IV)
    refine ⟨pinfo.virtual_peer_id, _, IV, hev, ht, h0, hlast, hzero, ?_, ?_⟩
    · rw [ht]
      exact u64Bytes_ne_zero IV h0 hlt
    · intro env' now s' hash v
      rw [List.append_assoc]
      exact receiveTurtleData_encrypted env' now s' IV _ hash v h0 hlt

/-- C23 on the sample run: the DH public key that the answering side queued
goes out as 8 zero bytes and `[4, 1, 5]`; a keep-alive sent when the first
random draw is 0 carries the second draw, 1, as IV. -/
theorem first_eight_bytes_discriminate_witness :
    answer1.pendingDHItems.map (fun i => locked_sendClearTunnelData sampleEnv i)
      = [(true, [Event.sendTurtleData vpid1 (List.replicate 8 0 ++ [4, 1, 5])])]
    ∧ locked_sendEncryptedTunnelData sampleEnvZeroDraw 2 0 answer2 keepAlive1
        = some (true, 2, [Event.sendTurtleData vpid1 (frameEnc [3, 1])])
    ∧ (frameEnc [3, 1]).take 8 = u64Bytes 1
    ∧ receiveTurtleData sampleEnv 101 dig3 (frameEnc [3, 1]) hashB vpid1
        = (handleEncryptedData sampleEnv 101 dig3 (frameEnc [3, 1]) hashB vpid1).map
            (fun r => r.2) := by
  have h := (first_eight_bytes_discriminate sampleEnvZeroDraw).2 2 0 2 answer2 keepAlive1
    [Event.sendTurtleData vpid1 (frameEnc [3, 1])] (by decide)
  obtain ⟨dest, payload, iv, hev, _, _, _, _, _, hrecv⟩ := h
  simp only [List.cons.injEq, Event.sendTurtleData.injEq, and_true] at hev
  refine ⟨by decide, by decide, by decide, ?_⟩
  rw [hev.2]
  exact hrecv sampleEnv 101 dig3 hashB vpid1

/-! ### C22: a frame from the sender to the receiver -/

/-- The run of `handleEncryptedData` on a well-formed frame `iv ++ mac ++ ct`
whose MAC matches and whose ciphertext decrypts to `p`. -/
theorem handleEncryptedData_accepts (env : Env) (now : Nat) (s : State) (iv ct p : Bytes)
    (hash : Sha1CheckSum) (v : RsPeerId) (dhinfo : GxsTunnelDHInfo) (pinfo : GxsTunnelPeerInfo)
    (hiv : iv.length = 8)
    (hsize : (iv ++ (env.HMAC pinfo.aes_key ct).val ++ ct).length < 2 ^ 32)
    (hv : Map.find s._gxs_tunnel_virtual_peer_ids v = some dhinfo)
    (ht : Map.find s._gxs_tunnel_contacts dhinfo.tunnel_id = some pinfo)
    (hdec : env.aes_decrypt_8_16 pinfo.aes_key iv ct = some p) :
    handleEncryptedData env now s (iv ++ (env.HMAC pinfo.aes_key ct).val ++ ct) hash v
      = some (true,
          match env.deserialise p with
          | none =>
            ({ s with
                _gxs_tunnel_contacts :=
                  Map.modify dhinfo.tunnel_id
                    (fun q => { q with status := TunnelStatus.CAN_TALK, last_contact := now })
                    s._gxs_tunnel_contacts }, [])
          | some citem =>
            handleIncomingItem
              { s with
                _gxs_tunnel_contacts :=
                  Map.modify dhinfo.tunnel_id
                    (fun q => { q with status := TunnelStatus.CAN_TALK, last_contact := now })
                    s._gxs_tunnel_contacts }
              dhinfo.tunnel_id (citem.setPeerId v)) := by
  obtain ⟨hlen, htake, hmac, hdrop⟩ :=
    frame_fields iv (env.HMAC pinfo.aes_key ct).val ct hiv (env.HMAC pinfo.aes_key ct).property
  have hsz : (iv ++ (env.HMAC pinfo.aes_key ct).val ++ ct).length < 4294967296 :=
    lt_of_lt_of_le hsize (by norm_num)
  have hes : ((iv ++ (env.HMAC pinfo.aes_key ct).val ++ ct).length + 2 ^ 32
      - GXS_TUNNEL_ENCRYPTION_IV_SIZE - GXS_TUNNEL_ENCRYPTION_HMAC_SIZE) % 2 ^ 32
      = ct.length := by
    simp only [GXS_TUNNEL_ENCRYPTION_IV_SIZE, GXS_TUNNEL_ENCRYPTION_HMAC_SIZE]
    rw [hlen] at hsz ⊢
    norm_num
    omega
  unfold handleEncryptedData
  simp only [hv, ht, hes]
  have hb : ¬ (iv ++ (env.HMAC pinfo.aes_key ct).val ++ ct).length
      < GXS_TUNNEL_ENCRYPTION_IV_SIZE + GXS_TUNNEL_ENCRYPTION_HMAC_SIZE + ct.length := by
    simp only [GXS_TUNNEL_ENCRYPTION_IV_SIZE, GXS_TUNNEL_ENCRYPTION_HMAC_SIZE]
    rw [hlen]
    omega
  rw [if_neg hb]
  have hreg : ((iv ++ (env.HMAC pinfo.aes_key ct).val ++ ct).drop
      (GXS_TUNNEL_ENCRYPTION_IV_SIZE + GXS_TUNNEL_ENCRYPTION_HMAC_SIZE)).take ct.length = ct := by
    simp only [GXS_TUNNEL_ENCRYPTION_IV_SIZE, GXS_TUNNEL_ENCRYPTION_HMAC_SIZE]
    rw [hdrop]
    exact List.take_of_length_le (le_refl _)
  rw [hreg]
  have hm : ¬ ((env.HMAC pinfo.aes_key ct).val ≠
      ((iv ++ (env.HMAC pinfo.aes_key ct).val ++ ct).drop GXS_TUNNEL_ENCRYPTION_IV_SIZE).take
        GXS_TUNNEL_ENCRYPTION_HMAC_SIZE) := by
    simp only [GXS_TUNNEL_ENCRYPTION_IV_SIZE, GXS_TUNNEL_ENCRYPTION_HMAC_SIZE]
    rw [hmac]
    simp
  rw [if_neg hm]
  have hi : (iv ++ (env.HMAC pinfo.aes_key ct).val ++ ct).take GXS_TUNNEL_ENCRYPTION_IV_SIZE
      = iv := by
    simp only [GXS_TUNNEL_ENCRYPTION_IV_SIZE]
    exact htake
  rw [hi, hdec]
  dsimp only
  cases env.deserialise p <;> rfl

/-- C22: frame round trip.  Let the sender's `locked_sendEncryptedTunnelData`
return true for item `x` on a tunnel with key `k`, let `p` be the
serialisation of `x`, let the AES adapter decrypt with `k` what it encrypted
from `p`, and let deserialisation of `p` give back `x` (up to the peer id,
which the receiver stamps anyway).  Then the one payload handed to the
overlay, given to `receiveTurtleData` on a virtual peer `vr` bound to a tunnel
whose `aes_key` is `k`, has a MAC field equal to the HMAC of its ciphertext,
its ciphertext decrypts to `p`, and the run equals the dispatch of `x` (with
peer id `vr`) to `handleIncomingItem` with the id of that tunnel, whose
record was first set to `CAN_TALK` with `last_contact = now`.  The payload is
assumed to fit the `uint32_t` size of an overlay item. -/
theorem frame_round_trip (env : Env) (fuel c c' now : Nat) (ss sr : State)
    (x : RsGxsTunnelItem) (ev : List Event) (p : Bytes)
    (ds : GxsTunnelDHInfo) (ps : GxsTunnelPeerInfo)
    (vr : RsPeerId) (hash : Sha1CheckSum) (dr : GxsTunnelDHInfo) (pr : GxsTunnelPeerInfo)
    (hsend : locked_sendEncryptedTunnelData env fuel c ss x = some (true, c', ev))
    (hvs : Map.find ss._gxs_tunnel_virtual_peer_ids x.PeerId = some ds)
    (hts : Map.find ss._gxs_tunnel_contacts ds.tunnel_id = some ps)
    (hvr : Map.find sr._gxs_tunnel_virtual_peer_ids vr = some dr)
    (htr : Map.find sr._gxs_tunnel_contacts dr.tunnel_id = some pr)
    (hkey : ps.aes_key = pr.aes_key)
    (hser : env.serialise x = some p)
    (haes : ∀ iv ct, env.aes_crypt_8_16 pr.aes_key iv p = some ct →
      env.aes_decrypt_8_16 pr.aes_key iv ct = some p)
    (hcodec : ∃ y, env.deserialise p = some y ∧ y.setPeerId vr = x.setPeerId vr) :
    ∃ payload, ev = [Event.sendTurtleData ps.virtual_peer_id payload]
      ∧ (payload.length < 2 ^ 32 →
          (env.HMAC pr.aes_key (payload.drop 28)).val = (payload.drop 8).take 20
          ∧ env.aes_decrypt_8_16 pr.aes_key (payload.take 8) (payload.drop 28) = some p
          ∧ receiveTurtleData env now sr payload hash vr
              = some (handleIncomingItem
                  { sr with
                    _gxs_tunnel_contacts :=
                      Map.modify dr.tunnel_id
                        (fun q => { q with status := TunnelStatus.CAN_TALK,
                                           last_contact := now })
                        sr._gxs_tunnel_contacts }
                  dr.tunnel_id (x.setPeerId vr))) := by
  obtain ⟨buff, dhinfo, pinfo, IV, ct, hbuff, hv, ht, _, hiv, hct, hev⟩ :=
    locked_sendEncryptedTunnelData_true env fuel c c' ss x ev hsend
  rw [hser] at hbuff
  rw [hvs] at hv
  simp only [Option.some.injEq] at hbuff hv
  subst hbuff
  subst hv
  rw [hts] at ht
  simp only [Option.some.injEq] at ht
  subst ht
  obtain ⟨h0, hlt, _, _, _⟩ := drawIV_spec env fuel c IV c' hiv
  rw [hkey] at hct hev
  refine ⟨_, hev, ?_⟩
  intro hsize
  obtain ⟨_, htake, hmac, hdrop⟩ :=
    frame_fields (u64Bytes IV) (env.HMAC pr.aes_key ct).val ct (u64Bytes_length IV)
      (env.HMAC pr.aes_key ct).property
  have hdec := haes (u64Bytes IV) ct hct
  refine ⟨?_, ?_, ?_⟩
  · rw [hdrop, hmac]
  · rw [hdrop, htake]
    exact hdec
  · obtain ⟨y, hy, hyx⟩ := hcodec
    rw [List.append_assoc, receiveTurtleData_encrypted env now sr IV _ hash vr h0 hlt,
      ← List.append_assoc,
      handleEncryptedData_accepts env now sr (u64Bytes IV) ct p hash vr dr pr
        (u64Bytes_length IV) hsize hvr htr hdec, hy]
    simp only [Option.map_some', hyx]

/-- C22 on the sample run: the keep-alive that the answering side sends after
the handshake arrives on the digging side, which hands it to
`handleIncomingItem` with the id of the tunnel. -/
theorem frame_round_trip_witness :
    locked_sendEncryptedTunnelData sampleEnv 1 0 answer2 keepAlive1
      = some (true, 1, [Event.sendTurtleData vpid1 (frameEnc [3, 1])])
    ∧ receiveTurtleData sampleEnv 101 dig3 (frameEnc [3, 1]) hashB vpid1
        = some (handleIncomingItem
            { dig3 with
              _gxs_tunnel_contacts :=
                Map.modify tunnelAB
                  (fun q => { q with status := TunnelStatus.CAN_TALK, last_contact := 101 })
                  dig3._gxs_tunnel_contacts }
            tunnelAB keepAlive1) := by
  have h := frame_round_trip sampleEnv 1 0 1 101 answer2 dig3 keepAlive1
    [Event.sendTurtleData vpid1 (frameEnc [3, 1])] [3, 1] answer2Vpid answer2Tunnel vpid1 hashB
    dig3Vpid dig3Tunnel (by decide) (by decide) (by decide) (by decide) (by decide) (by decide)
    (by decide) (fun iv ct e => (Option.some.inj e) ▸ rfl) ⟨RsGxsTunnelItem.status { peerId := RsId.null 16, flags := 1 },
      by decide, by decide⟩
  obtain ⟨payload, hev, hrecv⟩ := h
  simp only [List.cons.injEq, Event.sendTurtleData.injEq, and_true] at hev
  refine ⟨by decide, ?_⟩
  have h3 := (hrecv (by rw [← hev.2]; decide)).2.2
  rw [← hev.2] at h3
  exact h3

/-! ### The phases of `flush` -/

theorem flushDHItems_queue (env : Env) :
    ∀ (fuel : Nat) (q r : List RsGxsTunnelDHPublicKeyItem) (ev : List Event),
      flushDHItems env fuel q = some (r, ev) → r = []
  | _, [], r, ev, h => by
    simp only [flushDHItems, Option.some.injEq, Prod.mk.injEq] at h
    exact h.1.symm
  | 0, _ :: _, r, ev, h => by simp [flushDHItems] at h
  | fuel + 1, item :: rest, r, ev, h => by
    unfold flushDHItems at h
    split at h
    · cases hrec : flushDHItems env fuel rest with
      | none => rw [hrec] at h; simp at h
      | some r1 =>
        rw [hrec] at h
        simp only [Option.map_some', Option.some.injEq, Prod.mk.injEq] at h
        rw [← h.1]
        exact flushDHItems_queue env fuel rest r1.1 r1.2 hrec
    · cases hrec : flushDHItems env fuel (item :: rest) with
      | none => rw [hrec] at h; simp at h
      | some r1 =>
        rw [hrec] at h
        simp only [Option.map_some', Option.some.injEq, Prod.mk.injEq] at h
        rw [← h.1]
        exact flushDHItems_queue env fuel (item :: rest) r1.1 r1.2 hrec

theorem flushTunnelItems_queue (env : Env) (s : State) :
    ∀ (fuel c : Nat) (q r : List RsGxsTunnelItem) (c' : Nat) (ev : List Event),
      flushTunnelItems env s fuel c q = some (r, c', ev) → r = []
  | _, _, [], r, c', ev, h => by
    simp only [flushTunnelItems, Option.some.injEq, Prod.mk.injEq] at h
    exact h.1.symm
  | 0, _, _ :: _, r, c', ev, h => by simp [flushTunnelItems] at h
  | fuel + 1, c, item :: rest, r, c', ev, h => by
    unfold flushTunnelItems at h
    split at h
    · simp at h
    · rename_i c1 ev1 _
      cases hrec : flushTunnelItems env s fuel c1 rest with
      | none => rw [hrec] at h; simp at h
      | some r1 =>
        rw [hrec] at h
        simp only [Option.map_some', Option.some.injEq, Prod.mk.injEq] at h
        rw [← h.1]
        exact flushTunnelItems_queue env s fuel c1 rest r1.1 r1.2.1 r1.2.2 hrec
    · rename_i c1 ev1 _
      cases hrec : flushTunnelItems env s fuel c1 (item :: rest) with
      | none => rw [hrec] at h; simp at h
      | some r1 =>
        rw [hrec] at h
        simp only [Option.map_some', Option.some.injEq, Prod.mk.injEq] at h
        rw [← h.1]
        exact flushTunnelItems_queue env s fuel c1 (item :: rest) r1.1 r1.2.1 r1.2.2 hrec

/-- A `flush` that returns went through its four phases. -/
theorem flush_phases (env : Env) (fuel now : Nat) (s s' : State) (ev : List Event)
    (h : flush env fuel now s = some (s', ev)) :
    ∃ ev1 c2 ev2 dq c3 ev3,
      flushDHItems env fuel s.pendingDHItems = some ([], ev1)
      ∧ flushTunnelItems env s fuel 0 s.pendingGxsTunnelItems = some ([], c2, ev2)
      ∧ flushDataItems env fuel now s s.pendingGxsTunnelDataItems c2 = some (dq, c3, ev3)
      ∧ s' = { s with
                pendingDHItems := [],
                pendingGxsTunnelItems := (flushTunnels env now s._gxs_tunnel_contacts c3).2.1,
                pendingGxsTunnelDataItems := dq,
                _gxs_tunnel_contacts := (flushTunnels env now s._gxs_tunnel_contacts c3).1 }
      ∧ ev = ev1 ++ ev2 ++ ev3 ++ (flushTunnels env now s._gxs_tunnel_contacts c3).2.2.2 := by
  unfold flush at h
  split at h
  · simp at h
  · rename_i dhq ev1 h1
    split at h
    · simp at h
    · rename_i q c2 ev2 h2
      split at h
      · simp at h
      · rename_i dq c3 ev3 h3
        have e1 := flushDHItems_queue env fuel _ _ _ h1
        have e2 := flushTunnelItems_queue env s fuel 0 _ _ _ _ h2
        subst e1
        subst e2
        simp only [Option.some.injEq, Prod.mk.injEq, List.nil_append] at h
        exact ⟨ev1, c2, ev2, dq, c3, ev3, h1, h2, h3, h.1.symm, h.2.symm⟩

theorem locked_sendEncryptedTunnelData_events (env : Env) (fuel c c' : Nat) (s : State)
    (item : RsGxsTunnelItem) (b : Bool) (ev : List Event)
    (h : locked_sendEncryptedTunnelData env fuel c s item = some (b, c', ev)) :
    ∀ e ∈ ev, IsSend e := by
  unfold locked_sendEncryptedTunnelData at h
  repeat' split at h
  all_goals
    simp only [Option.some.injEq, Prod.mk.injEq, reduceCtorEq] at h
  all_goals
    obtain ⟨-, -, rfl⟩ := h
    intro e he
    first
      | exact absurd he (List.not_mem_nil _)
      | exact ⟨_, _, List.mem_singleton.1 he⟩

theorem flushDHItems_events (env : Env) :
    ∀ (fuel : Nat) (q r : List RsGxsTunnelDHPublicKeyItem) (ev : List Event),
      flushDHItems env fuel q = some (r, ev) → ∀ e ∈ ev, IsSend e
  | _, [], r, ev, h => by
    simp only [flushDHItems, Option.some.injEq, Prod.mk.injEq] at h
    rw [← h.2]
    simp
  | 0, _ :: _, r, ev, h => by simp [flushDHItems] at h
  | fuel + 1, item :: rest, r, ev, h => by
    have hsend : ∀ b ev0, locked_sendClearTunnelData env item = (b, ev0) → ∀ e ∈ ev0, IsSend e := by
      intro b ev0 h0
      unfold locked_sendClearTunnelData at h0
      split at h0
      all_goals
        simp only [Prod.mk.injEq] at h0
        obtain ⟨-, rfl⟩ := h0
        intro e he
        first
          | exact absurd he (List.not_mem_nil _)
          | exact ⟨_, _, List.mem_singleton.1 he⟩
    unfold flushDHItems at h
    split at h
    · rename_i ev0 h0
      cases hrec : flushDHItems env fuel rest with
      | none => rw [hrec] at h; simp at h
      | some r1 =>
        rw [hrec] at h
        simp only [Option.map_some', Option.some.injEq, Prod.mk.injEq] at h
        rw [← h.2]
        intro e he
        rcases List.mem_append.1 he with he | he
        · exact hsend _ _ h0 e he
        · exact flushDHItems_events env fuel rest r1.1 r1.2 hrec e he
    · rename_i ev0 h0
      cases hrec : flushDHItems env fuel (item :: rest) with
      | none => rw [hrec] at h; simp at h
      | some r1 =>
        rw [hrec] at h
        simp only [Option.map_some', Option.some.injEq, Prod.mk.injEq] at h
        rw [← h.2]
        intro e he
        rcases List.mem_append.1 he with he | he
        · exact hsend _ _ h0 e he
        · exact flushDHItems_events env fuel (item :: rest) r1.1 r1.2 hrec e he

theorem flushTunnelItems_events (env : Env) (s : State) :
    ∀ (fuel c : Nat) (q r : List RsGxsTunnelItem) (c' : Nat) (ev : List Event),
      flushTunnelItems env s fuel c q = some (r, c', ev) → ∀ e ∈ ev, IsSend e
  | _, _, [], r, c', ev, h => by
    simp only [flushTunnelItems, Option.some.injEq, Prod.mk.injEq] at h
    rw [← h.2.2]
    simp
  | 0, _, _ :: _, r, c', ev, h => by simp [flushTunnelItems] at h
  | fuel + 1, c, item :: rest, r, c', ev, h => by
    unfold flushTunnelItems at h
    split at h
    · simp at h
    · rename_i c1 ev1 h0
      cases hrec : flushTunnelItems env s fuel c1 rest with
      | none => rw [hrec] at h; simp at h
      | some r1 =>
        rw [hrec] at h
        simp only [Option.map_some', Option.some.injEq, Prod.mk.injEq] at h
        rw [← h.2.2]
        intro e he
        rcases List.mem_append.1 he with he | he
        · exact locked_sendEncryptedTunnelData_events env _ _ _ s item _ _ h0 e he
        · exact flushTunnelItems_events env s fuel c1 rest r1.1 r1.2.1 r1.2.2 hrec e he
    · rename_i c1 ev1 h0
      cases hrec : flushTunnelItems env s fuel c1 (item :: rest) with
      | none => rw [hrec] at h; simp at h
      | some r1 =>
        rw [hrec] at h
        simp only [Option.map_some', Option.some.injEq, Prod.mk.injEq] at h
        rw [← h.2.2]
        intro e he
        rcases List.mem_append.1 he with he | he
        · exact locked_sendEncryptedTunnelData_events env _ _ _ s item _ _ h0 e he
        · exact flushTunnelItems_events env s fuel c1 (item :: rest) r1.1 r1.2.1 r1.2.2 hrec e he

theorem flushDataItems_events (env : Env) (fuel now : Nat) (s : State) :
    ∀ (m r : Map Nat GxsTunnelData) (c c' : Nat) (ev : List Event),
      flushDataItems env fuel now s m c = some (r, c', ev) → ∀ e ∈ ev, IsSend e
  | [], r, c, c', ev, h => by
    simp only [flushDataItems, Option.some.injEq, Prod.mk.injEq] at h
    rw [← h.2.2]
    simp
  | (k, d) :: rest, r, c, c', ev, h => by
    unfold flushDataItems at h
    split at h
    · split at h
      · simp at h
      · rename_i sent c1 ev1 hsend
        cases hrec : flushDataItems env fuel now s rest c1 with
        | none => rw [hrec] at h; simp at h
        | some r1 =>
          rw [hrec] at h
          simp only [Option.map_some', Option.some.injEq, Prod.mk.injEq] at h
          rw [← h.2.2]
          intro e he
          rcases List.mem_append.1 he with he | he
          · exact locked_sendEncryptedTunnelData_events env _ _ _ s _ _ _ hsend e he
          · exact flushDataItems_events env fuel now s rest r1.1 c1 r1.2.1 r1.2.2 hrec e he
    · cases hrec : flushDataItems env fuel now s rest c with
      | none => rw [hrec] at h; simp at h
      | some r1 =>
        rw [hrec] at h
        simp only [Option.map_some', Option.some.injEq, Prod.mk.injEq] at h
        rw [← h.2.2]
        exact flushDataItems_events env fuel now s rest r1.1 c r1.2.1 r1.2.2 hrec

/-! ### The last loop of `flush` -/

theorem flushTunnel_record (env : Env) (now c : Nat) (t : GxsTunnelPeerInfo) :
    (flushTunnel env now c t).1 = (flushTunnel env now 0 t).1
    ∧ (flushTunnel env now c t).2.1 = (flushTunnel env now 0 t).2.1 := ⟨rfl, rfl⟩

/-- A record that fails the liveness test. -/
theorem flushTunnel_timedOut (env : Env) (now c : Nat) (t : GxsTunnelPeerInfo)
    (h : timedOut now t = true) :
    flushTunnel env now c t
      = ({ t with status := TunnelStatus.TUNNEL_DN, virtual_peer_id := RsId.null 16 }, [],
          (if t.direction = Direction.SERVER then c + 1 else c),
          (if t.direction = Direction.SERVER then
            [Event.forceReDiggTunnels (randomHashFromDestinationGxsId env c t.to_gxs_id)]
           else [])) := by
  unfold timedOut at h
  unfold flushTunnel
  simp only [h, if_true, Bool.true_and, reduceCtorEq, decide_False, Bool.and_false,
    Bool.false_eq_true, if_false, decide_eq_true_eq]

/-- A record that passes the liveness test. -/
theorem flushTunnel_alive (env : Env) (now c : Nat) (t : GxsTunnelPeerInfo)
    (h : timedOut now t = false) :
    flushTunnel env now c t
      = (if t.last_keep_alive_sent + GXS_TUNNEL_KEEP_ALIVE_TIMEOUT < now
            ∧ t.status = TunnelStatus.CAN_TALK then
          ({ t with last_keep_alive_sent := now },
            [RsGxsTunnelItem.status
              { peerId := t.virtual_peer_id, flags := RS_GXS_TUNNEL_FLAG_KEEP_ALIVE }], c, [])
         else (t, [], c, [])) := by
  unfold timedOut at h
  unfold flushTunnel
  simp only [h, Bool.false_eq_true, if_false, Bool.false_and]
  by_cases hk : t.last_keep_alive_sent + GXS_TUNNEL_KEEP_ALIVE_TIMEOUT < now
      ∧ t.status = TunnelStatus.CAN_TALK
  · rw [if_pos hk]
    simp [hk.1, hk.2]
  · rw [if_neg hk]
    have : (decide (t.last_keep_alive_sent + GXS_TUNNEL_KEEP_ALIVE_TIMEOUT < now)
        && decide (t.status = TunnelStatus.CAN_TALK)) = false := by
      simpa using hk
    simp only [this, Bool.false_eq_true, if_false]

theorem timedOut_iff (now : Nat) (t : GxsTunnelPeerInfo) :
    timedOut now t = true ↔ (t.status = TunnelStatus.CAN_TALK ∧ t.last_contact + 26 < now) := by
  unfold timedOut GXS_TUNNEL_KEEP_ALIVE_TIMEOUT
  simp only [Bool.and_eq_true, decide_eq_true_eq]
  constructor
  · rintro ⟨h1, h2⟩
    exact ⟨h2, by omega⟩
  · rintro ⟨h1, h2⟩
    exact ⟨by omega, h1⟩

theorem flushTunnels_find (env : Env) (now : Nat) :
    ∀ (m : Map RsGxsTunnelId GxsTunnelPeerInfo) (c : Nat) (k : RsGxsTunnelId),
      Map.find (flushTunnels env now m c).1 k
        = (Map.find m k).map (fun t => (flushTunnel env now 0 t).1)
  | [], _, _ => rfl
  | (k', t) :: rest, c, k => by
    unfold flushTunnels
    simp only [Map.find]
    by_cases e : k' = k
    · rw [if_pos e, if_pos e]
      rfl
    · rw [if_neg e, if_neg e]
      exact flushTunnels_find env now rest _ k

theorem flushTunnels_keepAlives (env : Env) (now : Nat) :
    ∀ (m : Map RsGxsTunnelId GxsTunnelPeerInfo) (c : Nat),
      (flushTunnels env now m c).2.1
        = (m.map (fun kt => (flushTunnel env now 0 kt.2).2.1)).flatten
  | [], _ => rfl
  | (k', t) :: rest, c => by
    unfold flushTunnels
    simp only [List.map_cons, List.flatten_cons]
    rw [flushTunnels_keepAlives env now rest _]
    rfl

/-- The router calls of the last loop: one `forceReDiggTunnels` for each
record, in the order of the map, that fails the liveness test and has
direction `SERVER`. -/
theorem flushTunnels_events (env : Env) (now : Nat) :
    ∀ (m : Map RsGxsTunnelId GxsTunnelPeerInfo) (c : Nat),
      List.Forall₂
        (fun kt e => ∃ c1, e = Event.forceReDiggTunnels
          (randomHashFromDestinationGxsId env c1 kt.2.to_gxs_id))
        (m.filter (fun kt => timedOut now kt.2 && decide (kt.2.direction = Direction.SERVER)))
        (flushTunnels env now m c).2.2.2
  | [], _ => by
    simp [flushTunnels]
  | (k', t) :: rest, c => by
    unfold flushTunnels
    have ih := flushTunnels_events env now rest (flushTunnel env now c t).2.2.1
    cases hto : timedOut now t with
    | false =>
      have hft := flushTunnel_alive env now c t hto
      have hev : (flushTunnel env now c t).2.2.2 = [] := by
        rw [hft]
        split <;> rfl
      simp only [List.filter_cons, hto, Bool.false_and, Bool.false_eq_true, if_false, hev,
        List.nil_append]
      exact ih
    | true =>
      have hft := flushTunnel_timedOut env now c t hto
      by_cases hd : t.direction = Direction.SERVER
      · have hev : (flushTunnel env now c t).2.2.2
            = [Event.forceReDiggTunnels (randomHashFromDestinationGxsId env c t.to_gxs_id)] := by
          rw [hft]
          simp only [if_pos hd]
        simp only [List.filter_cons, hto, Bool.true_and, hd, decide_True, if_true, hev,
          List.singleton_append]
        exact List.Forall₂.cons ⟨c, rfl⟩ ih
      · have hev : (flushTunnel env now c t).2.2.2 = [] := by
          rw [hft]
          simp only [if_neg hd]
        simp only [List.filter_cons, hto, Bool.true_and, hd, decide_False, Bool.false_eq_true,
          if_false, hev, List.nil_append]
        exact ih

theorem randomHashFromDestinationGxsId_head (env : Env) (c : Nat) (id : RsGxsId) :
    (randomHashFromDestinationGxsId env c id).val.take 16 = id.val := by
  unfold randomHashFromDestinationGxsId
  exact List.take_left' id.property

/-! ### C24: the liveness test of `flush` -/

/-- C24: in the last phase of `flush` at time `now`, a tunnel record that is
`CAN_TALK` with `last_contact + 26 < now` becomes `TUNNEL_DN` with an empty
`virtual_peer_id` (nothing else of it changes) and `forceReDiggTunnels` is
called for it once, with a hash that starts with the 16 bytes of the record's
`to_gxs_id`, when its direction is `SERVER`, and not at all otherwise; a
`CAN_TALK` record with `last_contact + 26 >= now` keeps its status and
`virtual_peer_id` and causes no call; a record that is not `CAN_TALK` is not
touched.  A `flush` that returns has applied this to every record of the
tunnel table, and its router calls are `sendTurtleData` calls followed by
exactly one `forceReDiggTunnels` per timed-out `SERVER` record. -/
theorem flush_liveness_test (env : Env) (now : Nat) :
    (∀ (c : Nat) (t : GxsTunnelPeerInfo),
        t.status = TunnelStatus.CAN_TALK → t.last_contact + 26 < now →
        (flushTunnel env now c t).1
          = { t with status := TunnelStatus.TUNNEL_DN, virtual_peer_id := RsId.null 16 }
        ∧ (t.direction = Direction.SERVER →
            ∃ h, (flushTunnel env now c t).2.2.2 = [Event.forceReDiggTunnels h]
              ∧ h.val.take 16 = t.to_gxs_id.val)
        ∧ (t.direction ≠ Direction.SERVER → (flushTunnel env now c t).2.2.2 = []))
    ∧ (∀ (c : Nat) (t : GxsTunnelPeerInfo),
        t.status = TunnelStatus.CAN_TALK → ¬ t.last_contact + 26 < now →
        (flushTunnel env now c t).1.status = TunnelStatus.CAN_TALK
        ∧ (flushTunnel env now c t).1.virtual_peer_id = t.virtual_peer_id
        ∧ (flushTunnel env now c t).2.2.2 = [])
    ∧ (∀ (c : Nat) (t : GxsTunnelPeerInfo),
        t.status ≠ TunnelStatus.CAN_TALK → flushTunnel env now c t = (t, [], c, []))
    ∧ (∀ (fuel : Nat) (s s' : State) (ev : List Event),
        flush env fuel now s = some (s', ev) →
        (∀ k, Map.find s'._gxs_tunnel_contacts k
            = (Map.find s._gxs_tunnel_contacts k).map (fun t => (flushTunnel env now 0 t).1))
        ∧ ∃ sends redigs, ev = sends ++ redigs
            ∧ (∀ e ∈ sends, IsSend e)
            ∧ List.Forall₂
                (fun kt e => ∃ h, e = Event.forceReDiggTunnels h
                  ∧ h.val.take 16 = kt.2.to_gxs_id.val)
                (s._gxs_tunnel_contacts.filter (fun kt =>
                  timedOut now kt.2 && decide (kt.2.direction = Direction.SERVER)))
                redigs) := by
  refine ⟨?_, ?_, ?_, ?_⟩
  · intro c t hs hl
    have hto : timedOut now t = true := (timedOut_iff now t).2 ⟨hs, hl⟩
    rw [flushTunnel_timedOut env now c t hto]
    refine ⟨rfl, ?_, ?_⟩
    · intro hd
      exact ⟨_, by simp only [if_pos hd], randomHashFromDestinationGxsId_head env c t.to_gxs_id⟩
    · intro hd
      simp only [if_neg hd]
  · intro c t hs hl
    have hto : timedOut now t = false := by
      cases h : timedOut now t with
      | false => rfl
      | true => exact absurd ((timedOut_iff now t).1 h).2 hl
    rw [flushTunnel_alive env now c t hto]
    split
    · exact ⟨hs, rfl, rfl⟩
    · exact ⟨hs, rfl, rfl⟩
  · intro c t hs
    have hto : timedOut now t = false := by
      cases h : timedOut now t with
      | false => rfl
      | true => exact absurd ((timedOut_iff now t).1 h).1 hs
    rw [flushTunnel_alive env now c t hto, if_neg (fun h => hs h.2)]
  · intro fuel s s' ev h
    obtain ⟨ev1, c2, ev2, dq, c3, ev3, h1, h2, h3, hs', hev⟩ := flush_phases env fuel now s s' ev h
    subst hs'
    refine ⟨fun k => flushTunnels_find env now _ c3 k, ev1 ++ ev2 ++ ev3, _, hev, ?_, ?_⟩
    · intro e he
      rcases List.mem_append.1 he with he | he
      · rcases List.mem_append.1 he with he | he
        · exact flushDHItems_events env fuel _ _ _ h1 e he
        · exact flushTunnelItems_events env s fuel 0 _ _ _ _ h2 e he
      · exact flushDataItems_events env fuel now s _ _ _ _ _ h3 e he
    · refine List.Forall₂.imp ?_ (flushTunnels_events env now s._gxs_tunnel_contacts c3)
      rintro kt e ⟨c1, rfl⟩
      exact ⟨_, rfl, randomHashFromDestinationGxsId_head env c1 kt.2.to_gxs_id⟩

/-- C24 on the sample run: a `flush` at time 127, when the last contact was at
time 100, takes the tunnel down on both sides; the digging side (`SERVER`)
calls `forceReDiggTunnels` with a hash for `idB`, the answering side
(`CLIENT`), which first sends its two pending packets, does not. -/
theorem flush_liveness_test_witness :
    (flushTunnel sampleEnv 127 0 dig3Tunnel).1
      = { dig3Tunnel with status := TunnelStatus.TUNNEL_DN, virtual_peer_id := RsId.null 16 }
    ∧ digTimedOut.map (fun r => r.2) = some [Event.forceReDiggTunnels hashB]
    ∧ digTimedOut.map (fun r => Map.find r.1._gxs_tunnel_contacts tunnelAB)
        = some (some { dig3Tunnel with status := TunnelStatus.TUNNEL_DN,
                                       virtual_peer_id := RsId.null 16 })
    ∧ answerTimedOut.map (fun r => r.2)
        = some [Event.sendTurtleData vpid1 (List.replicate 8 0 ++ [4, 1, 5]),
                Event.sendTurtleData vpid1 (frameEnc [3, 4])]
    ∧ answerTimedOut.map (fun r => Map.find r.1._gxs_tunnel_contacts tunnelAB)
        = some (some { answer2Tunnel with status := TunnelStatus.TUNNEL_DN,
                                          virtual_peer_id := RsId.null 16 }) := by
  have h := (flush_liveness_test sampleEnv 127).1 0 dig3Tunnel (by decide) (by decide)
  exact ⟨h.1, by decide, by decide, by decide, by decide⟩

/-! ### C25: the keep-alive of `flush` -/

/-- C25: in `flush` at time `now`, a tunnel record that is `CAN_TALK` after the
liveness test (it is `CAN_TALK` and `last_contact + 26 >= now`) and has
`last_keep_alive_sent + 6 < now` causes exactly one Status item with flag
`KEEP_ALIVE` for its `virtual_peer_id`, and its `last_keep_alive_sent` becomes
`now` (nothing else of it changes); every other record causes no item and
keeps its `last_keep_alive_sent`; in particular a record that this `flush`
takes down gets no keep-alive.  When `flush` returns, `pendingGxsTunnelItems`
holds these keep-alives, in the order of the tunnel table, behind nothing (the
second loop has emptied the queue), and every record of the tunnel table has
been treated so. -/
theorem flush_keep_alive (env : Env) (now : Nat) :
    (∀ (c : Nat) (t : GxsTunnelPeerInfo),
        t.status = TunnelStatus.CAN_TALK → ¬ t.last_contact + 26 < now →
        t.last_keep_alive_sent + 6 < now →
        (flushTunnel env now c t).1 = { t with last_keep_alive_sent := now }
        ∧ (flushTunnel env now c t).2.1
            = [RsGxsTunnelItem.status
                { peerId := t.virtual_peer_id, flags := RS_GXS_TUNNEL_FLAG_KEEP_ALIVE }])
    ∧ (∀ (c : Nat) (t : GxsTunnelPeerInfo),
        ¬ (t.status = TunnelStatus.CAN_TALK ∧ ¬ t.last_contact + 26 < now
            ∧ t.last_keep_alive_sent + 6 < now) →
        (flushTunnel env now c t).2.1 = []
        ∧ (flushTunnel env now c t).1.last_keep_alive_sent = t.last_keep_alive_sent)
    ∧ (∀ (c : Nat) (t : GxsTunnelPeerInfo),
        t.status = TunnelStatus.CAN_TALK → t.last_contact + 26 < now →
        (flushTunnel env now c t).1.status = TunnelStatus.TUNNEL_DN
        ∧ (flushTunnel env now c t).2.1 = [])
    ∧ (∀ (fuel : Nat) (s s' : State) (ev : List Event),
        flush env fuel now s = some (s', ev) →
        s'.pendingGxsTunnelItems
          = (s._gxs_tunnel_contacts.map (fun kt => (flushTunnel env now 0 kt.2).2.1)).flatten
        ∧ ∀ k, Map.find s'._gxs_tunnel_contacts k
            = (Map.find s._gxs_tunnel_contacts k).map (fun t => (flushTunnel env now 0 t).1)) := by
  refine ⟨?_, ?_, ?_, ?_⟩
  · intro c t hs hl hk
    have hto : timedOut now t = false := by
      cases h : timedOut now t with
      | false => rfl
      | true => exact absurd ((timedOut_iff now t).1 h).2 hl
    rw [flushTunnel_alive env now c t hto, if_pos ⟨hk, hs⟩]
    exact ⟨rfl, rfl⟩
  · intro c t hn
    cases hto : timedOut now t with
    | true =>
      rw [flushTunnel_timedOut env now c t hto]
      exact ⟨rfl, rfl⟩
    | false =>
      rw [flushTunnel_alive env now c t hto]
      have hk : ¬ (t.last_keep_alive_sent + GXS_TUNNEL_KEEP_ALIVE_TIMEOUT < now
          ∧ t.status = TunnelStatus.CAN_TALK) := by
        rintro ⟨h1, h2⟩
        refine hn ⟨h2, ?_, h1⟩
        intro hl
        have := (timedOut_iff now t).2 ⟨h2, hl⟩
        rw [hto] at this
        exact Bool.false_ne_true this
      rw [if_neg hk]
      exact ⟨rfl, rfl⟩
  · intro c t hs hl
    rw [flushTunnel_timedOut env now c t ((timedOut_iff now t).2 ⟨hs, hl⟩)]
    exact ⟨rfl, rfl⟩
  · intro fuel s s' ev h
    obtain ⟨ev1, c2, ev2, dq, c3, ev3, h1, h2, h3, hs', hev⟩ := flush_phases env fuel now s s' ev h
    subst hs'
    exact ⟨flushTunnels_keepAlives env now _ c3, fun k => flushTunnels_find env now _ c3 k⟩

/-- C25 on the sample run: a `flush` at time 107, the last keep-alive being of
time 100, queues one keep-alive for `vpid1` and notes the time; the `flush` at
time 127 that takes the tunnel down queues none. -/
theorem flush_keep_alive_witness :
    (flushTunnel sampleEnv 107 0 dig3Tunnel).1 = { dig3Tunnel with last_keep_alive_sent := 107 }
    ∧ digKeptAlive.map (fun r => r.1.pendingGxsTunnelItems) = some [keepAlive1]
    ∧ digKeptAlive.map (fun r => Map.find r.1._gxs_tunnel_contacts tunnelAB)
        = some (some { dig3Tunnel with last_keep_alive_sent := 107 })
    ∧ digTimedOut.map (fun r => r.1.pendingGxsTunnelItems) = some [] := by
  have h := (flush_keep_alive sampleEnv 107).1 0 dig3Tunnel (by decide) (by decide) (by decide)
  exact ⟨h.1, by decide, by decide, by decide⟩

/-! ### C27: `removeVirtualPeer` -/

/-- C27: `removeVirtualPeer(hash, v)` leaves the state as it is when `v` has no
record.  Otherwise the record of `v` is erased from the virtual-peer table;
the tunnel record at the `tunnel_id` of `v`, when it exists and its
`virtual_peer_id` is `v`, gets status `TUNNEL_DN` and an empty
`virtual_peer_id` (nothing else of it changes); every tunnel record whose
`virtual_peer_id` is not `v` is unchanged, no tunnel record appears or
disappears, and nothing else of the state changes.  A second removal of the
same `v` changes nothing. -/
theorem removeVirtualPeer_effect (s : State) (hash : Sha1CheckSum) (v : RsPeerId) :
    (Map.find s._gxs_tunnel_virtual_peer_ids v = none → removeVirtualPeer s hash v = s)
    ∧ (∀ d, Map.find s._gxs_tunnel_virtual_peer_ids v = some d →
        (removeVirtualPeer s hash v)._gxs_tunnel_virtual_peer_ids
          = Map.erase v s._gxs_tunnel_virtual_peer_ids
        ∧ Map.find (removeVirtualPeer s hash v)._gxs_tunnel_virtual_peer_ids v = none
        ∧ (∀ w, w ≠ v → Map.find (removeVirtualPeer s hash v)._gxs_tunnel_virtual_peer_ids w
            = Map.find s._gxs_tunnel_virtual_peer_ids w)
        ∧ (∀ t, Map.find s._gxs_tunnel_contacts d.tunnel_id = some t → t.virtual_peer_id = v →
            Map.find (removeVirtualPeer s hash v)._gxs_tunnel_contacts d.tunnel_id
              = some { t with status := TunnelStatus.TUNNEL_DN,
                              virtual_peer_id := RsId.null 16 })
        ∧ (∀ k t, Map.find s._gxs_tunnel_contacts k = some t → t.virtual_peer_id ≠ v →
            Map.find (removeVirtualPeer s hash v)._gxs_tunnel_contacts k = some t)
        ∧ (∀ k, Map.find s._gxs_tunnel_contacts k = none →
            Map.find (removeVirtualPeer s hash v)._gxs_tunnel_contacts k = none)
        ∧ (removeVirtualPeer s hash v).mRegisteredServices = s.mRegisteredServices
        ∧ (removeVirtualPeer s hash v).pendingDHItems = s.pendingDHItems
        ∧ (removeVirtualPeer s hash v).pendingGxsTunnelItems = s.pendingGxsTunnelItems
        ∧ (removeVirtualPeer s hash v).pendingGxsTunnelDataItems = s.pendingGxsTunnelDataItems
        ∧ (removeVirtualPeer s hash v).global_item_counter = s.global_item_counter)
    ∧ removeVirtualPeer (removeVirtualPeer s hash v) hash v = removeVirtualPeer s hash v := by
  have hvp : ∀ d, Map.find s._gxs_tunnel_virtual_peer_ids v = some d →
      (removeVirtualPeer s hash v)._gxs_tunnel_virtual_peer_ids
        = Map.erase v s._gxs_tunnel_virtual_peer_ids := by
    intro d hd
    unfold removeVirtualPeer
    simp only [hd]
    split
    · rfl
    · split <;> rfl
  refine ⟨?_, ?_, ?_⟩
  · intro h
    unfold removeVirtualPeer
    rw [h]
  · intro d hd
    refine ⟨hvp d hd, ?_, ?_, ?_, ?_, ?_, ?_, ?_, ?_, ?_, ?_⟩
    · rw [hvp d hd]
      exact Map.find_erase_self v _
    · intro w hw
      rw [hvp d hd]
      exact Map.find_erase_other v w hw _
    · intro t ht hv
      unfold removeVirtualPeer
      simp only [hd, ht, hv, if_true]
      rw [Map.find_modify, if_pos rfl, ht]
      rfl
    · intro k t ht hv
      unfold removeVirtualPeer
      simp only [hd]
      split
      · exact ht
      · rename_i pinfo hp
        split
        · rename_i hpv
          simp only
          rw [Map.find_modify]
          by_cases e : k = d.tunnel_id
          · rw [e] at ht
            rw [hp] at ht
            simp only [Option.some.injEq] at ht
            rw [ht] at hpv
            exact absurd hpv hv
          · rw [if_neg e]
            exact ht
        · exact ht
    · intro k hk
      unfold removeVirtualPeer
      simp only [hd]
      split
      · exact hk
      · split
        · simp only
          rw [Map.find_modify, hk]
          split <;> rfl
        · exact hk
    all_goals
      unfold removeVirtualPeer
      simp only [hd]
      split
      · rfl
      · split <;> rfl
  · cases hd : Map.find s._gxs_tunnel_virtual_peer_ids v with
    | none =>
      have e : removeVirtualPeer s hash v = s := by
        unfold removeVirtualPeer
        rw [hd]
      rw [e, e]
    | some d =>
      have hnone : Map.find (removeVirtualPeer s hash v)._gxs_tunnel_virtual_peer_ids v
          = none := by
        rw [hvp d hd]
        exact Map.find_erase_self v _
      generalize removeVirtualPeer s hash v = s1 at hnone
      unfold removeVirtualPeer
      rw [hnone]

/-- C27 on the sample run: the removal of `vpid1` after the handshake takes the
tunnel down and unbinds it; a second removal gives the same state. -/
theorem removeVirtualPeer_effect_witness :
    Map.find answerGone._gxs_tunnel_virtual_peer_ids vpid1 = none
    ∧ Map.find answerGone._gxs_tunnel_contacts tunnelAB
        = some { answer2Tunnel with status := TunnelStatus.TUNNEL_DN,
                                    virtual_peer_id := RsId.null 16 }
    ∧ removeVirtualPeer answerGone hashA vpid1 = answerGone := by
  have h := (removeVirtualPeer_effect answer2 hashA vpid1).2.1 answer2Vpid (by decide)
  exact ⟨h.2.1, h.2.2.2.1 answer2Tunnel (by decide) (by decide),
    (removeVirtualPeer_effect answer2 hashA vpid1).2.2⟩

/-! ### C28: the hash that `closeExistingTunnel` stops monitoring -/

/-- For a tunnel record of direction `SERVER` whose `virtual_peer_id` has no
record in the virtual-peer table (as after `requestSecuredTunnel`, or after the
liveness test of `flush`, which empty it), `closeExistingTunnel` sends nothing
and calls `stopMonitoringTunnels` with the null hash. -/
theorem closeExistingTunnel_unbound (env : Env) (fuel : Nat) (s : State)
    (tunnel_id : RsGxsTunnelId) (pinfo : GxsTunnelPeerInfo)
    (ht : Map.find s._gxs_tunnel_contacts tunnel_id = some pinfo)
    (hdir : pinfo.direction = Direction.SERVER)
    (hv : Map.find s._gxs_tunnel_virtual_peer_ids pinfo.virtual_peer_id = none) :
    closeExistingTunnel env fuel s tunnel_id
      = some (true,
          { s with _gxs_tunnel_contacts := Map.erase tunnel_id s._gxs_tunnel_contacts },
          [Event.stopMonitoringTunnels (RsId.null 20)]) := by
  have hsend : locked_sendEncryptedTunnelData env fuel 0 s
      (.status { peerId := pinfo.virtual_peer_id,
                 flags := RS_GXS_TUNNEL_FLAG_CLOSING_DISTANT_CONNECTION })
      = some (false, 0, []) := by
    unfold locked_sendEncryptedTunnelData
    split
    · rfl
    · simp only [RsGxsTunnelItem.PeerId, hv]
  unfold closeExistingTunnel
  simp only [ht, hdir, reduceCtorEq, if_false, hv, hsend, List.nil_append]

/-- For a tunnel record of direction `SERVER` whose `virtual_peer_id` has a
record, `closeExistingTunnel` calls `stopMonitoringTunnels` with the hash of
the virtual peer's record, last. -/
theorem closeExistingTunnel_bound (env : Env) (fuel : Nat) (s s' : State)
    (tunnel_id : RsGxsTunnelId) (pinfo : GxsTunnelPeerInfo) (dhinfo : GxsTunnelDHInfo)
    (ret : Bool) (ev : List Event)
    (ht : Map.find s._gxs_tunnel_contacts tunnel_id = some pinfo)
    (hdir : pinfo.direction = Direction.SERVER)
    (hv : Map.find s._gxs_tunnel_virtual_peer_ids pinfo.virtual_peer_id = some dhinfo)
    (hrun : closeExistingTunnel env fuel s tunnel_id = some (ret, s', ev)) :
    ∃ sends, ev = sends ++ [Event.stopMonitoringTunnels dhinfo.hash]
      ∧ ∀ e ∈ sends, IsSend e := by
  unfold closeExistingTunnel at hrun
  simp only [ht, hdir, reduceCtorEq, if_false, hv] at hrun
  split at hrun
  · simp at hrun
  · rename_i b c' ev0 hsend
    simp only [Option.some.injEq, Prod.mk.injEq] at hrun
    exact ⟨ev0, hrun.2.2.symm,
      locked_sendEncryptedTunnelData_events env _ _ _ s _ _ _ hsend⟩

/-- C28, the code at a failing input: `requestSecuredTunnel(idB, idA)` on the
initial state asks the router to monitor `hashB` and stores `hashB` in the new
tunnel record, of direction `SERVER`, status `TUNNEL_DN` and with an empty
`virtual_peer_id`.  `closeExistingTunnel` for that tunnel then returns true
and drops the record, but its only router call is `stopMonitoringTunnels` with
the null hash, which is not `hashB`: the hash is read from the record of the
tunnel's virtual peer, and there is none.  Once a virtual peer is bound (after
the handshake), the call carries `hashB`. -/
theorem closeExistingTunnel_stops_null_hash :
    (requestSecuredTunnel sampleEnv 100 State.init idB idA).2.2.2.2
        = [Event.monitorTunnels hashB]
    ∧ Map.find dig1._gxs_tunnel_contacts tunnelAB = some dig3Tunnel0
    ∧ dig3Tunnel0.hash = hashB
    ∧ dig3Tunnel0.direction = Direction.SERVER
    ∧ dig3Tunnel0.status = TunnelStatus.TUNNEL_DN
    ∧ dig3Tunnel0.virtual_peer_id = RsId.null 16
    ∧ (∀ fuel, closeExistingTunnel sampleEnv fuel dig1 tunnelAB
        = some (true,
            { dig1 with _gxs_tunnel_contacts := Map.erase tunnelAB dig1._gxs_tunnel_contacts },
            [Event.stopMonitoringTunnels (RsId.null 20)]))
    ∧ RsId.null 20 ≠ hashB
    ∧ closeExistingTunnel sampleEnv 1 dig3 tunnelAB
        = some (true, dig4,
            [Event.sendTurtleData vpid1 (frameEnc [3, 2]), Event.stopMonitoringTunnels hashB]) := by
  refine ⟨by decide, by decide, by decide, by decide, by decide, by decide, ?_, by decide,
    by decide⟩
  intro fuel
  exact closeExistingTunnel_unbound sampleEnv fuel dig1 tunnelAB dig3Tunnel0 (by decide)
    (by decide) (by decide)

/-! ### C26: the third loop of `flush` -/

/-- A `locked_sendEncryptedTunnelData` that makes a router call has returned
true and made that call only. -/
theorem locked_sendEncryptedTunnelData_call (env : Env) (fuel c c' : Nat) (s : State)
    (item : RsGxsTunnelItem) (b : Bool) (ev : List Event) (e : Event)
    (h : locked_sendEncryptedTunnelData env fuel c s item = some (b, c', ev)) (he : e ∈ ev) :
    b = true ∧ ev = [e] := by
  unfold locked_sendEncryptedTunnelData at h
  repeat' split at h
  all_goals
    simp only [Option.some.injEq, Prod.mk.injEq, reduceCtorEq] at h
  all_goals
    obtain ⟨rfl, -, rfl⟩ := h
    first
      | exact absurd he (List.not_mem_nil _)
      | exact ⟨rfl, by rw [List.mem_singleton.1 he]⟩

theorem flushDataItems_entries (env : Env) (fuel now : Nat) (s : State) :
    ∀ (m r : Map Nat GxsTunnelData) (c c' : Nat) (ev : List Event),
      flushDataItems env fuel now s m c = some (r, c', ev) →
      List.Forall₂
        (fun p q =>
          q.1 = p.1 ∧ q.2.data_item = p.2.data_item
          ∧ (resendDue now p = false → q = p)
          ∧ (resendDue now p = true →
              ∃ c1 sent c2 e,
                locked_sendEncryptedTunnelData env fuel c1 s (.data p.2.data_item)
                  = some (sent, c2, e)
                ∧ q.2.last_sending_attempt
                    = if sent then now else p.2.last_sending_attempt))
        m r
  | [], r, c, c', ev, h => by
    simp only [flushDataItems, Option.some.injEq, Prod.mk.injEq] at h
    rw [← h.1]
    exact List.Forall₂.nil
  | (k, d) :: rest, r, c, c', ev, h => by
    unfold flushDataItems at h
    split at h
    · rename_i hdue
      have hd : resendDue now (k, d) = true := by
        unfold resendDue
        exact decide_eq_true hdue
      split at h
      · simp at h
      · rename_i sent c1 ev1 hsend
        cases hrec : flushDataItems env fuel now s rest c1 with
        | none => rw [hrec] at h; simp at h
        | some r1 =>
          obtain ⟨m1, c2, ev2⟩ := r1
          rw [hrec] at h
          simp only [Option.map_some', Option.some.injEq, Prod.mk.injEq] at h
          rw [← h.1]
          refine List.Forall₂.cons ⟨rfl, ?_, ?_, ?_⟩
            (flushDataItems_entries env fuel now s rest m1 c1 c2 ev2 hrec)
          · cases sent <;> rfl
          · intro hn
            rw [hd] at hn
            exact absurd hn (by decide)
          · intro _
            exact ⟨c, sent, c1, ev1, hsend, by cases sent <;> rfl⟩
    · rename_i hdue
      have hd : resendDue now (k, d) = false := by
        unfold resendDue
        exact decide_eq_false hdue
      cases hrec : flushDataItems env fuel now s rest c with
      | none => rw [hrec] at h; simp at h
      | some r1 =>
        obtain ⟨m1, c2, ev2⟩ := r1
        rw [hrec] at h
        simp only [Option.map_some', Option.some.injEq, Prod.mk.injEq] at h
        rw [← h.1]
        refine List.Forall₂.cons ⟨rfl, rfl, fun _ => rfl, ?_⟩
          (flushDataItems_entries env fuel now s rest m1 c c2 ev2 hrec)
        intro hn
        rw [hd] at hn
        exact absurd hn (by decide)

theorem flushDataItems_calls (env : Env) (fuel now : Nat) (s : State) :
    ∀ (m r : Map Nat GxsTunnelData) (c c' : Nat) (ev : List Event),
      flushDataItems env fuel now s m c = some (r, c', ev) →
      ∀ e ∈ ev, ∃ p ∈ m, resendDue now p = true
        ∧ ∃ c1 c2, locked_sendEncryptedTunnelData env fuel c1 s (.data p.2.data_item)
            = some (true, c2, [e])
  | [], r, c, c', ev, h => by
    simp only [flushDataItems, Option.some.injEq, Prod.mk.injEq] at h
    rw [← h.2.2]
    simp
  | (k, d) :: rest, r, c, c', ev, h => by
    unfold flushDataItems at h
    split at h
    · rename_i hdue
      have hd : resendDue now (k, d) = true := by
        unfold resendDue
        exact decide_eq_true hdue
      split at h
      · simp at h
      · rename_i sent c1 ev1 hsend
        cases hrec : flushDataItems env fuel now s rest c1 with
        | none => rw [hrec] at h; simp at h
        | some r1 =>
          obtain ⟨m1, c2, ev2⟩ := r1
          rw [hrec] at h
          simp only [Option.map_some', Option.some.injEq, Prod.mk.injEq] at h
          rw [← h.2.2]
          intro e he
          rcases List.mem_append.1 he with he | he
          · obtain ⟨hs, hev⟩ :=
              locked_sendEncryptedTunnelData_call env fuel c c1 s _ sent ev1 e hsend he
            rw [hs, hev] at hsend
            exact ⟨(k, d), List.mem_cons_self _ _, hd, c, c1, hsend⟩
          · obtain ⟨p, hp, hpd, hx⟩ :=
              flushDataItems_calls env fuel now s rest m1 c1 c2 ev2 hrec e he
            exact ⟨p, List.mem_cons_of_mem _ hp, hpd, hx⟩
    · cases hrec : flushDataItems env fuel now s rest c with
      | none => rw [hrec] at h; simp at h
      | some r1 =>
        obtain ⟨m1, c2, ev2⟩ := r1
        rw [hrec] at h
        simp only [Option.map_some', Option.some.injEq, Prod.mk.injEq] at h
        rw [← h.2.2]
        intro e he
        obtain ⟨p, hp, hpd, hx⟩ :=
          flushDataItems_calls env fuel now s rest m1 c c2 ev2 hrec e he
        exact ⟨p, List.mem_cons_of_mem _ hp, hpd, hx⟩

/-- With no entry due the third loop does nothing: no send is attempted,
whatever the fuel. -/
theorem flushDataItems_idle (env : Env) (fuel now : Nat) (s : State) :
    ∀ (m : Map Nat GxsTunnelData) (c : Nat), (∀ p ∈ m, resendDue now p = false) →
      flushDataItems env fuel now s m c = some (m, c, [])
  | [], c, _ => rfl
  | (k, d) :: rest, c, h => by
    have hd := h (k, d) (List.mem_cons_self _ _)
    unfold resendDue at hd
    unfold flushDataItems
    rw [if_neg (of_decide_eq_false hd),
      flushDataItems_idle env fuel now s rest c (fun p hp => h p (List.mem_cons_of_mem _ hp))]
    rfl

theorem handleIncomingItem_pendingData (s : State) (tid : RsGxsTunnelId)
    (item : RsGxsTunnelItem) :
    (handleIncomingItem s tid item).1.pendingGxsTunnelDataItems = s.pendingGxsTunnelDataItems
    ∨ ∃ a, item = .ack a ∧ (handleIncomingItem s tid item).1 = handleRecvTunnelDataAckItem s tid a := by
  cases item with
  | data i =>
    left
    simp only [handleIncomingItem, handleRecvTunnelDataItem]
    split <;> rfl
  | ack i => exact Or.inr ⟨i, rfl, rfl⟩
  | status i =>
    left
    simp only [handleIncomingItem, handleRecvStatusItem, markGxsTunnelAsClosed]
    repeat' split
    all_goals rfl
  | dhkey i => exact Or.inl rfl

theorem handleEncryptedData_pendingData (env : Env) (now : Nat) (s s' : State)
    (data : Bytes) (hash : Sha1CheckSum) (vpid : RsPeerId) (ret : Bool) (ev : List Event)
    (hrun : handleEncryptedData env now s data hash vpid = some (ret, s', ev)) :
    s'.pendingGxsTunnelDataItems = s.pendingGxsTunnelDataItems
    ∨ ∃ s1 tid a, s1.pendingGxsTunnelDataItems = s.pendingGxsTunnelDataItems
        ∧ s' = handleRecvTunnelDataAckItem s1 tid a := by
  unfold handleEncryptedData at hrun
  simp only at hrun
  repeat' split at hrun
  all_goals first
    | (simp at hrun; done)
    | (simp only [Option.some.injEq, Prod.mk.injEq] at hrun
       obtain ⟨-, rfl, -⟩ := hrun
       first
         | exact Or.inl rfl
         | exact Or.inl (locked_restartDHSession_frame _ _ _ _).2.2.1
         | (rcases handleIncomingItem_pendingData _ _ _ with h | ⟨a, -, h⟩
            · exact Or.inl h
            · right
              refine ⟨_, _, a, ?_, h⟩
              rfl))

theorem handleRecvDHPublicKey_pendingData (env : Env) (now : Nat) (s s' : State)
    (item : RsGxsTunnelDHPublicKeyItem) (ev : List Event)
    (hrun : handleRecvDHPublicKey env now s item = some (s', ev)) :
    s'.pendingGxsTunnelDataItems = s.pendingGxsTunnelDataItems := by
  unfold handleRecvDHPublicKey at hrun
  simp only at hrun
  repeat' split at hrun
  all_goals first
    | (simp at hrun; done)
    | (simp only [Option.some.injEq, Prod.mk.injEq] at hrun
       obtain ⟨rfl, -⟩ := hrun
       first
         | rfl
         | exact (locked_restartDHSession_frame _ _ _ _).2.2.1)

theorem receiveTurtleData_pendingData (env : Env) (now : Nat) (s s' : State)
    (data : Bytes) (hash : Sha1CheckSum) (vpid : RsPeerId) (ev : List Event)
    (hrun : receiveTurtleData env now s data hash vpid = some (s', ev)) :
    s'.pendingGxsTunnelDataItems = s.pendingGxsTunnelDataItems
    ∨ ∃ s1 tid a, s1.pendingGxsTunnelDataItems = s.pendingGxsTunnelDataItems
        ∧ s' = handleRecvTunnelDataAckItem s1 tid a := by
  unfold receiveTurtleData at hrun
  split at hrun
  · simp only [Option.some.injEq, Prod.mk.injEq] at hrun
    obtain ⟨rfl, -⟩ := hrun
    exact Or.inl rfl
  · split at hrun
    · cases hr : handleEncryptedData env now s data hash vpid with
      | none => simp [hr] at hrun
      | some r =>
        obtain ⟨ret, s1, ev1⟩ := r
        simp only [hr, Option.map_some', Option.some.injEq, Prod.mk.injEq] at hrun
        obtain ⟨rfl, -⟩ := hrun
        exact handleEncryptedData_pendingData env now s s1 data hash vpid ret ev1 hr
    · split at hrun
      · exact Or.inl (handleRecvDHPublicKey_pendingData env now s s' _ ev hrun)
      · simp only [Option.some.injEq, Prod.mk.injEq] at hrun
        obtain ⟨rfl, -⟩ := hrun
        exact Or.inl rfl

/-- A step other than an accepted `sendData` keeps the keys of
`pendingGxsTunnelDataItems`, or is an inbound frame whose effect on the map is
that of `handleRecvTunnelDataAckItem`. -/
theorem otherStep_pendingData (s s' : State) (h : OtherStep s s') :
    s'.pendingGxsTunnelDataItems.map Prod.fst = s.pendingGxsTunnelDataItems.map Prod.fst
    ∨ ∃ s1 tid a, s1.pendingGxsTunnelDataItems = s.pendingGxsTunnelDataItems
        ∧ s' = handleRecvTunnelDataAckItem s1 tid a := by
  cases h with
  | registerClientService service_id service =>
    left
    unfold registerClientService
    split <;> rfl
  | requestSecuredTunnel env now to_gxs_id from_gxs_id =>
    left
    unfold requestSecuredTunnel startClientGxsTunnelConnection
    simp only
    repeat' split
    all_goals rfl
  | closeExistingTunnel env fuel tunnel_id ret ev hrun =>
    left
    unfold closeExistingTunnel at hrun
    simp only at hrun
    repeat' split at hrun
    all_goals first
      | (simp at hrun; done)
      | (simp only [Option.some.injEq, Prod.mk.injEq] at hrun
         obtain ⟨-, rfl, -⟩ := hrun
         rfl)
  | sendData_refused tunnel_id service_id data hret =>
    left
    unfold sendData at hret ⊢
    repeat' split
    all_goals first
      | rfl
      | simp_all
  | flush env fuel now ev hrun =>
    left
    obtain ⟨ev1, c2, ev2, dq, c3, ev3, -, -, h3, hs', -⟩ := flush_phases env fuel now s s' ev hrun
    subst hs'
    exact flushDataItems_keys env fuel now s _ _ _ _ _ h3
  | addVirtualPeer env hash vpid dir =>
    left
    unfold addVirtualPeer
    simp only
    repeat' split
    all_goals first
      | rfl
      | rw [(locked_restartDHSession_frame _ _ _ _).2.2.1]
  | removeVirtualPeer hash vpid =>
    left
    unfold removeVirtualPeer
    simp only
    repeat' split
    all_goals rfl
  | receiveTurtleData env now data hash vpid ev hrun =>
    rcases receiveTurtleData_pendingData env now s s' data hash vpid ev hrun with h | h
    · exact Or.inl (by rw [h])
    · exact Or.inr h

/-- C26: in `flush` at time `now`, the third loop attempts an encrypted send
for an entry of `pendingGxsTunnelDataItems` if and only if
`now > last_sending_attempt + 10`: an entry that is not due is left as it is,
a due entry keeps its key and item and its `last_sending_attempt` becomes
`now` when the attempt returned true and stays when it returned false; each
router call of the loop is the frame of a due entry whose attempt returned
true, and with no entry due the loop does nothing at all.  `flush` never
removes an entry: the keys of the map are the same before and after.  A step
other than an accepted `sendData` either keeps the keys too, or is an inbound
frame that changes the map as `handleRecvTunnelDataAckItem` does (erasing the
acknowledged counter); an accepted `sendData` keeps every other entry. -/
theorem flush_resends_due_entries (env : Env) (fuel now : Nat) (s : State) :
    (∀ (m r : Map Nat GxsTunnelData) (c c' : Nat) (ev : List Event),
        flushDataItems env fuel now s m c = some (r, c', ev) →
        List.Forall₂
          (fun p q =>
            q.1 = p.1 ∧ q.2.data_item = p.2.data_item
            ∧ (¬ now > p.2.last_sending_attempt + 10 → q = p)
            ∧ (now > p.2.last_sending_attempt + 10 →
                ∃ c1 sent c2 e,
                  locked_sendEncryptedTunnelData env fuel c1 s (.data p.2.data_item)
                    = some (sent, c2, e)
                  ∧ q.2.last_sending_attempt
                      = if sent then now else p.2.last_sending_attempt))
          m r
        ∧ ∀ e ∈ ev, ∃ p ∈ m, now > p.2.last_sending_attempt + 10
            ∧ ∃ c1 c2, locked_sendEncryptedTunnelData env fuel c1 s (.data p.2.data_item)
                = some (true, c2, [e]))
    ∧ (∀ (m : Map Nat GxsTunnelData) (c : Nat),
        (∀ p ∈ m, ¬ now > p.2.last_sending_attempt + 10) →
        flushDataItems env fuel now s m c = some (m, c, []))
    ∧ (∀ (s' : State) (ev : List Event), flush env fuel now s = some (s', ev) →
        s'.pendingGxsTunnelDataItems.map Prod.fst = s.pendingGxsTunnelDataItems.map Prod.fst
        ∧ ∃ c2 c3 ev3,
            flushDataItems env fuel now s s.pendingGxsTunnelDataItems c2
              = some (s'.pendingGxsTunnelDataItems, c3, ev3))
    ∧ (∀ s', OtherStep s s' →
        s'.pendingGxsTunnelDataItems.map Prod.fst = s.pendingGxsTunnelDataItems.map Prod.fst
        ∨ ∃ s1 tid a, s1.pendingGxsTunnelDataItems = s.pendingGxsTunnelDataItems
            ∧ s' = handleRecvTunnelDataAckItem s1 tid a)
    ∧ (∀ (tunnel_id : RsGxsTunnelId) (service_id : Nat) (data : Bytes) (k : Nat),
        (sendData s tunnel_id service_id data).1 = true → k ≠ s.global_item_counter →
        Map.find (sendData s tunnel_id service_id data).2.pendingGxsTunnelDataItems k
          = Map.find s.pendingGxsTunnelDataItems k) := by
  have hdue : ∀ p : Nat × GxsTunnelData,
      (now > p.2.last_sending_attempt + 10) ↔ resendDue now p = true := by
    intro p
    unfold resendDue RS_GXS_TUNNEL_DELAY_BETWEEN_RESEND
    rw [decide_eq_true_eq]
    omega
  have hndue : ∀ p : Nat × GxsTunnelData,
      (¬ now > p.2.last_sending_attempt + 10) ↔ resendDue now p = false := by
    intro p
    rw [hdue p]
    cases resendDue now p <;> simp
  refine ⟨?_, ?_, ?_, ?_, ?_⟩
  · intro m r c c' ev h
    refine ⟨?_, ?_⟩
    · refine List.Forall₂.imp ?_ (flushDataItems_entries env fuel now s m r c c' ev h)
      rintro p q ⟨h1, h2, h3, h4⟩
      exact ⟨h1, h2, fun hn => h3 ((hndue p).1 hn), fun hd => h4 ((hdue p).1 hd)⟩
    · intro e he
      obtain ⟨p, hp, hpd, hx⟩ := flushDataItems_calls env fuel now s m r c c' ev h e he
      exact ⟨p, hp, (hdue p).2 hpd, hx⟩
  · intro m c h
    exact flushDataItems_idle env fuel now s m c (fun p hp => (hndue p).1 (h p hp))
  · intro s' ev h
    obtain ⟨ev1, c2, ev2, dq, c3, ev3, -, -, h3, hs', -⟩ := flush_phases env fuel now s s' ev h
    subst hs'
    exact ⟨flushDataItems_keys env fuel now s _ _ _ _ _ h3, c2, c3, ev3, h3⟩
  · intro s' h
    exact otherStep_pendingData s s' h
  · intro tunnel_id service_id data k h hk
    rw [sendData_accepted s tunnel_id service_id data h]
    exact Map.find_insert_other natLt _ k _ hk _

/-- C26 on the sample run: the entry made by `sendData` is due at time 111, but
its item cannot be sent, so the entry stays as it is; an entry whose item is
addressed to `vpid1` is sent by the `flush` at time 105, which notes the time,
and is left alone by the `flush` at time 10. -/
theorem flush_resends_due_entries_witness :
    (flush sampleEnv 10 105 digQueued).map
        (fun r => (r.1.pendingGxsTunnelDataItems, r.2))
      = some ([(5, { data_item := sampleDataItem, last_sending_attempt := 105 })],
              [Event.sendTurtleData vpid1 (frameEnc [1, 5, 7, 42])])
    ∧ (flush sampleEnv 10 10 digQueued).map
        (fun r => (r.1.pendingGxsTunnelDataItems, r.2))
      = some (digQueued.pendingGxsTunnelDataItems, [])
    ∧ (flush sampleEnv 10 105 digSent).map
        (fun r => (r.1.pendingGxsTunnelDataItems, r.2))
      = some (digSent.pendingGxsTunnelDataItems, [])
    ∧ flushDataItems sampleEnv 0 10 digQueued digQueued.pendingGxsTunnelDataItems 0
      = some (digQueued.pendingGxsTunnelDataItems, 0, []) := by
  have h := (flush_resends_due_entries sampleEnv 0 10 digQueued).2.1
    digQueued.pendingGxsTunnelDataItems 0 (by decide)
  exact ⟨by decide, by decide, by decide, h⟩

/-! ### C29: the order of the sends of one `flush` -/

theorem drawIV_mono (env : Env) :
    ∀ (f f' c : Nat) (r : Nat × Nat), drawIV env f c = some r → f ≤ f' → drawIV env f' c = some r
  | 0, _, _, _, h, _ => by simp [drawIV] at h
  | f + 1, 0, _, _, _, hle => by omega
  | f + 1, f' + 1, c, r, h, hle => by
    unfold drawIV at h ⊢
    simp only at h ⊢
    split
    · rename_i hz
      rw [if_pos hz] at h
      exact drawIV_mono env f f' (c + 1) r h (by omega)
    · rename_i hz
      rw [if_neg hz] at h
      exact h

/-- An item that is `Sendable` is sent once the IV loop has fuel enough. -/
theorem locked_sendEncryptedTunnelData_sendable (env : Env) (ivFuel fuel c : Nat) (s : State)
    (item : RsGxsTunnelItem) (hS : Sendable env s item)
    (hiv : ∀ c, (drawIV env ivFuel c).isSome = true) (hf : ivFuel ≤ fuel) :
    ∃ c' e, locked_sendEncryptedTunnelData env fuel c s item = some (true, c', [e])
      ∧ EncryptedFrame env s item e := by
  obtain ⟨buff, dhinfo, pinfo, hser, hv, ht, hst, haes⟩ := hS
  obtain ⟨r, hr⟩ := Option.isSome_iff_exists.1 (hiv c)
  obtain ⟨iv, c'⟩ := r
  have hdraw := drawIV_mono env ivFuel fuel c (iv, c') hr hf
  obtain ⟨ct, hct⟩ := haes (u64Bytes iv)
  obtain ⟨h0, hlt, -, -, -⟩ := drawIV_spec env fuel c iv c' hdraw
  exact ⟨c', _,
    locked_sendEncryptedTunnelData_ok env fuel c s item dhinfo pinfo buff ct iv c' hv ht hst hser
      hdraw hct,
    buff, dhinfo, pinfo, iv, ct, hser, hv, ht, hst, h0, hlt, hct, rfl⟩

theorem flushDHItems_ok (env : Env) :
    ∀ (q : List RsGxsTunnelDHPublicKeyItem) (fuel : Nat),
      (∀ i ∈ q, ∃ body, env.serialise (.dhkey i) = some body) → q.length ≤ fuel →
      ∃ ev, flushDHItems env fuel q = some ([], ev) ∧ List.Forall₂ (ClearFrame env) q ev
  | [], fuel, _, _ => ⟨[], by simp [flushDHItems], List.Forall₂.nil⟩
  | item :: rest, 0, _, hle => by simp at hle
  | item :: rest, fuel + 1, h, hle => by
    obtain ⟨body, hb⟩ := h item (List.mem_cons_self _ _)
    obtain ⟨ev, hev, hfr⟩ := flushDHItems_ok env rest fuel
      (fun i hi => h i (List.mem_cons_of_mem _ hi)) (by simpa using hle)
    refine ⟨Event.sendTurtleData item.peerId (List.replicate 8 0 ++ body) :: ev, ?_,
      List.Forall₂.cons ⟨body, hb, rfl⟩ hfr⟩
    unfold flushDHItems
    simp only [locked_sendClearTunnelData, hb, hev, Option.map_some', List.singleton_append]

theorem flushTunnelItems_ok (env : Env) (s : State) (ivFuel : Nat)
    (hiv : ∀ c, (drawIV env ivFuel c).isSome = true) :
    ∀ (q : List RsGxsTunnelItem) (fuel c : Nat),
      (∀ i ∈ q, Sendable env s i) → ivFuel + q.length ≤ fuel →
      ∃ c' ev, flushTunnelItems env s fuel c q = some ([], c', ev)
        ∧ List.Forall₂ (EncryptedFrame env s) q ev
  | [], fuel, c, _, _ => ⟨c, [], by simp [flushTunnelItems], List.Forall₂.nil⟩
  | item :: rest, 0, c, _, hle => by simp at hle
  | item :: rest, fuel + 1, c, h, hle => by
    simp only [List.length_cons] at hle
    obtain ⟨c1, e, hsend, hfr⟩ := locked_sendEncryptedTunnelData_sendable env ivFuel (fuel + 1) c s
      item (h item (List.mem_cons_self _ _)) hiv (by omega)
    obtain ⟨c2, ev, hev, hfrs⟩ := flushTunnelItems_ok env s ivFuel hiv rest fuel c1
      (fun i hi => h i (List.mem_cons_of_mem _ hi)) (by omega)
    refine ⟨c2, e :: ev, ?_, List.Forall₂.cons hfr hfrs⟩
    unfold flushTunnelItems
    simp only [hsend, hev, Option.map_some', List.singleton_append]

theorem flushDataItems_ok (env : Env) (s : State) (ivFuel fuel now : Nat)
    (hiv : ∀ c, (drawIV env ivFuel c).isSome = true) (hf : ivFuel ≤ fuel) :
    ∀ (m : Map Nat GxsTunnelData) (c : Nat),
      (∀ p ∈ m, resendDue now p = true → Sendable env s (.data p.2.data_item)) →
      ∃ c' ev,
        flushDataItems env fuel now s m c
          = some (m.map (fun p =>
                    if resendDue now p then (p.1, { p.2 with last_sending_attempt := now })
                    else p), c', ev)
        ∧ List.Forall₂ (fun p e => EncryptedFrame env s (.data p.2.data_item) e)
            (m.filter (resendDue now)) ev
  | [], c, _ => ⟨c, [], by simp [flushDataItems], by simp⟩
  | (k, d) :: rest, c, h => by
    cases hd : resendDue now (k, d) with
    | true =>
      obtain ⟨c1, e, hsend, hfr⟩ := locked_sendEncryptedTunnelData_sendable env ivFuel fuel c s
        (.data d.data_item) (h (k, d) (List.mem_cons_self _ _) hd) hiv hf
      obtain ⟨c2, ev, hev, hfrs⟩ := flushDataItems_ok env s ivFuel fuel now hiv hf rest c1
        (fun p hp => h p (List.mem_cons_of_mem _ hp))
      refine ⟨c2, e :: ev, ?_, ?_⟩
      · have hdue : now > RS_GXS_TUNNEL_DELAY_BETWEEN_RESEND + d.last_sending_attempt := by
          unfold resendDue at hd
          exact of_decide_eq_true hd
        unfold flushDataItems
        rw [if_pos hdue, hsend]
        simp only [hev, Option.map_some', List.map_cons, hd, if_true, List.singleton_append]
      · rw [List.filter_cons_of_pos hd]
        exact List.Forall₂.cons hfr hfrs
    | false =>
      obtain ⟨c2, ev, hev, hfrs⟩ := flushDataItems_ok env s ivFuel fuel now hiv hf rest c
        (fun p hp => h p (List.mem_cons_of_mem _ hp))
      refine ⟨c2, ev, ?_, ?_⟩
      · have hdue : ¬ now > RS_GXS_TUNNEL_DELAY_BETWEEN_RESEND + d.last_sending_attempt := by
          unfold resendDue at hd
          exact of_decide_eq_false hd
        unfold flushDataItems
        rw [if_neg hdue]
        simp only [hev, Option.map_some', List.map_cons, hd, Bool.false_eq_true, if_false]
      · rw [List.filter_cons_of_neg (by simp [hd])]
        exact hfrs

/-- The items queued by the last loop of `flush` are keep-alives. -/
theorem flushTunnel_keepAlive (env : Env) (now c : Nat) (t : GxsTunnelPeerInfo) :
    ∀ i ∈ (flushTunnel env now c t).2.1,
      ∃ v, i = RsGxsTunnelItem.status { peerId := v, flags := RS_GXS_TUNNEL_FLAG_KEEP_ALIVE } := by
  intro i hi
  cases hto : timedOut now t with
  | true =>
    rw [flushTunnel_timedOut env now c t hto] at hi
    exact absurd hi (List.not_mem_nil _)
  | false =>
    rw [flushTunnel_alive env now c t hto] at hi
    split at hi
    · exact ⟨_, List.mem_singleton.1 hi⟩
    · exact absurd hi (List.not_mem_nil _)

theorem flushTunnels_calls (env : Env) (now : Nat)
    (m : Map RsGxsTunnelId GxsTunnelPeerInfo) (c : Nat) :
    ∀ e ∈ (flushTunnels env now m c).2.2.2, ∃ h, e = Event.forceReDiggTunnels h := by
  have h := flushTunnels_events env now m c
  generalize (flushTunnels env now m c).2.2.2 = evs at h
  generalize m.filter _ = l at h
  induction h with
  | nil => simp
  | cons hab _ ih =>
    intro e he
    rcases List.mem_cons.1 he with he | he
    · obtain ⟨c1, hc1⟩ := hab
      exact ⟨_, he.trans hc1⟩
    · exact ih e he

theorem sampleEnv_drawIV (c : Nat) : (drawIV sampleEnv 2 c).isSome = true := by
  simp only [drawIV, sampleEnv]
  split
  · split
    · omega
    · rfl
  · rfl

/-! ### C31: the record that `requestSecuredTunnel` creates -/

theorem Map.length_insert_absent {K V : Type} [DecidableEq K] (lt : K → K → Bool) (k : K)
    (v : V) :
    ∀ m : Map K V, Map.find m k = none → (Map.insert lt k v m).length = m.length + 1
  | [], _ => rfl
  | (k', v') :: rest, h => by
    unfold Map.find at h
    by_cases e : k' = k
    · rw [if_pos e] at h
      cases h
    · rw [if_neg e] at h
      unfold Map.insert
      rw [if_neg e]
      split
      · rfl
      · simp only [List.length_cons]
        rw [Map.length_insert_absent lt k v rest h]

theorem Map.mem_insert_of_mem {K V : Type} [DecidableEq K] (lt : K → K → Bool) (k : K)
    (v : V) (p : K × V) :
    ∀ m : Map K V, Map.find m k = none → p ∈ m → p ∈ Map.insert lt k v m
  | [], _, hp => absurd hp (List.not_mem_nil _)
  | (k', v') :: rest, h, hp => by
    unfold Map.find at h
    by_cases e : k' = k
    · rw [if_pos e] at h
      cases h
    · rw [if_neg e] at h
      unfold Map.insert
      rw [if_neg e]
      split
      · exact List.mem_cons_of_mem _ hp
      · rcases List.mem_cons.1 hp with hp | hp
        · rw [hp]
          exact List.mem_cons_self _ _
        · exact List.mem_cons_of_mem _ (Map.mem_insert_of_mem lt k v p rest h hp)

/-- C31: when `from` is an own id and the tunnel table has no record for
`makeGxsTunnelId(from, to)`, `requestSecuredTunnel(to, from)` at time `now`
returns true with that id and creates exactly one tunnel record, at that id:
direction `SERVER`, status `TUNNEL_DN`, `own_gxs_id = from`, `to_gxs_id = to`,
an empty `virtual_peer_id`, a key of 16 zero bytes,
`last_contact = last_keep_alive_sent = now` and a hash of 20 bytes whose first
16 are `to`.  Its only router call is one `monitorTunnels` with that same
hash.  Every other tunnel record and every other part of the state is
unchanged. -/
theorem requestSecuredTunnel_creates_record (env : Env) (now : Nat) (s : State)
    (to_gxs_id from_gxs_id : RsGxsId)
    (hown : from_gxs_id ∈ env.getOwnIds)
    (hrec : Map.find s._gxs_tunnel_contacts (makeGxsTunnelId env from_gxs_id to_gxs_id)
      = none) :
    ∃ (hash : Sha1CheckSum) (m : Map RsGxsTunnelId GxsTunnelPeerInfo),
      hash.val.length = 20
      ∧ hash.val.take 16 = to_gxs_id.val
      ∧ requestSecuredTunnel env now s to_gxs_id from_gxs_id
          = (true, some (makeGxsTunnelId env from_gxs_id to_gxs_id),
              TunnelError.RS_GXS_TUNNEL_ERROR_NO_ERROR,
              { s with _gxs_tunnel_contacts := m }, [Event.monitorTunnels hash])
      ∧ Map.find m (makeGxsTunnelId env from_gxs_id to_gxs_id)
          = some { last_contact := now, last_keep_alive_sent := now,
                   aes_key := List.replicate 16 0, hash := hash,
                   status := TunnelStatus.TUNNEL_DN, virtual_peer_id := RsId.null 16,
                   to_gxs_id := to_gxs_id, own_gxs_id := from_gxs_id,
                   direction := Direction.SERVER }
      ∧ (∀ k, k ≠ makeGxsTunnelId env from_gxs_id to_gxs_id →
          Map.find m k = Map.find s._gxs_tunnel_contacts k)
      ∧ m.length = s._gxs_tunnel_contacts.length + 1
      ∧ (∀ p ∈ s._gxs_tunnel_contacts, p ∈ m) := by
  refine ⟨randomHashFromDestinationGxsId env 0 to_gxs_id, _,
    (randomHashFromDestinationGxsId env 0 to_gxs_id).property,
    randomHashFromDestinationGxsId_head env 0 to_gxs_id,
    requestSecuredTunnel_fresh env now s to_gxs_id from_gxs_id hown hrec,
    Map.find_insert_self _ _ _ _, ?_, Map.length_insert_absent _ _ _ _ hrec, ?_⟩
  · intro k hk
    exact Map.find_insert_other _ _ k _ hk _
  · intro p hp
    exact Map.mem_insert_of_mem _ _ _ p _ hrec hp

/-- C31 on the sample run: `requestSecuredTunnel(idB, idA)` at time 100 on the
initial state creates the record of `tunnelAB` with hash `hashB` and asks the
router to monitor `hashB`. -/
theorem requestSecuredTunnel_creates_record_witness :
    requestSecuredTunnel sampleEnv 100 State.init idB idA
      = (true, some tunnelAB, TunnelError.RS_GXS_TUNNEL_ERROR_NO_ERROR, dig1,
          [Event.monitorTunnels hashB])
    ∧ dig1._gxs_tunnel_contacts
        = [(tunnelAB,
            { last_contact := 100, last_keep_alive_sent := 100,
              aes_key := List.replicate 16 0, hash := hashB,
              status := TunnelStatus.TUNNEL_DN, virtual_peer_id := RsId.null 16,
              to_gxs_id := idB, own_gxs_id := idA, direction := Direction.SERVER })]
    ∧ ∃ (hash : Sha1CheckSum), hash.val.take 16 = idB.val
        ∧ (requestSecuredTunnel sampleEnv 100 State.init idB idA).2.2.2.2
            = [Event.monitorTunnels hash] := by
  obtain ⟨hash, m, -, hhead, hrun, -⟩ :=
    requestSecuredTunnel_creates_record sampleEnv 100 State.init idB idA (by decide) (by decide)
  refine ⟨by decide, by decide, hash, hhead, ?_⟩
  rw [hrun]

/-! ### C32: the hash of a destination -/

/-- C32: for every destination `d` and every 4 random bytes (every random
source and draw), the hash made by `randomHashFromDestinationGxsId` is the 20
bytes `d || random4` as they are, and `destinationGxsIdFromHash` gives back
`d`; hence `handleTunnelRequest` of any peer accepts a hash made for `d`
exactly when `d` is one of the ids that peer's `getOwnIds` returns. -/
theorem destinationGxsIdFromHash_randomHash (env : Env) (c : Nat) (d : RsGxsId) :
    destinationGxsIdFromHash (randomHashFromDestinationGxsId env c d) = d
    ∧ (randomHashFromDestinationGxsId env c d).val = d.val ++ (env.RAND_bytes c).val
    ∧ (randomHashFromDestinationGxsId env c d).val.length = 20
    ∧ (∀ (peer : Env) (peer_id : RsPeerId),
        handleTunnelRequest peer (randomHashFromDestinationGxsId env c d) peer_id = true
          ↔ d ∈ peer.getOwnIds) := by
  have h : destinationGxsIdFromHash (randomHashFromDestinationGxsId env c d) = d :=
    Subtype.ext (randomHashFromDestinationGxsId_head env c d)
  refine ⟨h, rfl, (randomHashFromDestinationGxsId env c d).property, ?_⟩
  intro peer peer_id
  unfold handleTunnelRequest
  rw [h]
  exact any_eq_iff_mem _ _

/-- C32 on the sample run: the hash made for `idA` is `idA` followed by four
bytes, and is accepted where `idA` is an own id; the one made for `idB` is
refused there. -/
theorem destinationGxsIdFromHash_randomHash_witness :
    destinationGxsIdFromHash hashA = idA
    ∧ hashA.val = idA.val ++ [0, 0, 0, 0]
    ∧ handleTunnelRequest sampleEnv hashA vpid1 = true
    ∧ handleTunnelRequest sampleEnv hashB vpid1 = false := by
  have h := destinationGxsIdFromHash_randomHash sampleEnv 0 idA
  refine ⟨h.1, h.2.1, (h.2.2.2 sampleEnv vpid1).2 (by decide), ?_⟩
  have hb := (destinationGxsIdFromHash_randomHash sampleEnv 0 idB).2.2.2 sampleEnv vpid1
  cases hr : handleTunnelRequest sampleEnv hashB vpid1 with
  | false => rfl
  | true => exact absurd (hb.1 hr) (by decide)

/-! ### C33: payloads shorter than 8 bytes -/

/-- C33: for every inbound overlay payload of fewer than 8 bytes,
`receiveTurtleData` returns with the state as it was and without any call:
no table or queue changes, no DH restart, no delivery to a service. -/
theorem receiveTurtleData_short (env : Env) (now : Nat) (s : State) (data_bytes : Bytes)
    (hash : Sha1CheckSum) (virtual_peer_id : RsPeerId) (h : data_bytes.length < 8) :
    receiveTurtleData env now s data_bytes hash virtual_peer_id = some (s, []) := by
  unfold receiveTurtleData
  rw [if_pos h]

/-- C33 on the sample run: after the handshake, a payload of 7 bytes with a
nonzero head and one of 7 zero bytes both leave the state as it was. -/
theorem receiveTurtleData_short_witness :
    receiveTurtleData sampleEnv 101 answer2 [1, 0, 0, 0, 0, 0, 0] hashA vpid1
      = some (answer2, [])
    ∧ receiveTurtleData sampleEnv 101 answer2 (List.replicate 7 0) hashA vpid1
      = some (answer2, []) :=
  ⟨receiveTurtleData_short sampleEnv 101 answer2 [1, 0, 0, 0, 0, 0, 0] hashA vpid1 (by decide),
   receiveTurtleData_short sampleEnv 101 answer2 (List.replicate 7 0) hashA vpid1 (by decide)⟩

/-! ### C34 and C35: `addVirtualPeer` -/

/-- The virtual-peer table after `locked_restartDHSession`: the record of the
virtual peer gets the own id, the new DH object and the status that tells
whether the key pair was generated. -/
theorem locked_restartDHSession_vpids (env : Env) (s : State) (v : RsPeerId) (own : RsGxsId) :
    (locked_restartDHSession env s v own)._gxs_tunnel_virtual_peer_ids
      = Map.insert RsId.lt v
          { (Map.find s._gxs_tunnel_virtual_peer_ids v).getD GxsTunnelDHInfo.default with
            status :=
              if (locked_initDHSessionKey env
                  ((Map.find s._gxs_tunnel_virtual_peer_ids v).getD
                    GxsTunnelDHInfo.default).dh).1 = true
              then DHStatus.HALF_KEY_DONE else DHStatus.UNINITIALIZED,
            own_gxs_id := own,
            dh := (locked_initDHSessionKey env
              ((Map.find s._gxs_tunnel_virtual_peer_ids v).getD GxsTunnelDHInfo.default).dh).2 }
          s._gxs_tunnel_virtual_peer_ids := by
  unfold locked_restartDHSession
  simp only
  split
  · rename_i h
    simp only [h, Bool.false_eq_true, if_false]
  · rename_i h
    have ht : (locked_initDHSessionKey env
        ((Map.find s._gxs_tunnel_virtual_peer_ids v).getD GxsTunnelDHInfo.default).dh).1
          = true := by
      simpa using h
    obtain ⟨q, hq⟩ := locked_sendDHPublicKey_frame env
      { s with _gxs_tunnel_virtual_peer_ids :=
                 Map.insert RsId.lt v
                   { (Map.find s._gxs_tunnel_virtual_peer_ids v).getD GxsTunnelDHInfo.default with
                     status := DHStatus.HALF_KEY_DONE, own_gxs_id := own,
                     dh := (locked_initDHSessionKey env
                       ((Map.find s._gxs_tunnel_virtual_peer_ids v).getD
                         GxsTunnelDHInfo.default).dh).2 }
                   s._gxs_tunnel_virtual_peer_ids }
      (locked_initDHSessionKey env
        ((Map.find s._gxs_tunnel_virtual_peer_ids v).getD GxsTunnelDHInfo.default).dh).2
      own v
    rw [hq]
    simp only [ht, if_true]

/-- The outcome of `locked_initDHSessionKey` does not depend on the old
object, which it frees. -/
theorem locked_initDHSessionKey_fresh (env : Env) (dh : Option DH) :
    locked_initDHSessionKey env dh = locked_initDHSessionKey env none := rfl

theorem locked_initDHSessionKey_ok (env : Env) (dh : Option DH) (priv : Nat) (pub : Bytes)
    (h : env.dh_init = DHInit.ok priv pub) :
    locked_initDHSessionKey env dh = (true, some { keys := some (priv, pub) }) := by
  unfold locked_initDHSessionKey
  rw [h]

theorem locked_initDHSessionKey_failed (env : Env) (dh : Option DH)
    (h : ∀ priv pub, env.dh_init ≠ DHInit.ok priv pub) :
    (locked_initDHSessionKey env dh).1 = false
    ∧ ∀ x, (locked_initDHSessionKey env dh).2 = some x → x.keys = none := by
  unfold locked_initDHSessionKey
  cases hd : env.dh_init with
  | new_failed => exact ⟨rfl, fun x hx => by cases hx⟩
  | check_failed => exact ⟨rfl, fun x hx => by cases hx; rfl⟩
  | generate_failed => exact ⟨rfl, fun x hx => by cases hx; rfl⟩
  | ok priv pub => exact absurd hd (h priv pub)

/-- Unless key generation, signing and the lookup of the own public key all
succeed, `locked_restartDHSession` leaves `pendingDHItems` as it is. -/
theorem locked_restartDHSession_pendingDH_unchanged (env : Env) (s : State) (v : RsPeerId)
    (own : RsGxsId)
    (h : ∀ priv pub, env.dh_init = DHInit.ok priv pub →
      env.signData pub own = none ∨ env.getKey own = none) :
    (locked_restartDHSession env s v own).pendingDHItems = s.pendingDHItems := by
  unfold locked_restartDHSession locked_sendDHPublicKey locked_initDHSessionKey
  cases hd : env.dh_init with
  | new_failed => simp
  | check_failed => simp
  | generate_failed => simp
  | ok priv pub =>
    rcases h priv pub hd with h1 | h1
    · simp [h1]
    · simp only [h1]
      cases env.signData pub own <;> simp

/-- The record of a virtual peer after `addVirtualPeer`, whatever the
direction, in terms of the own id that the DH session is started with. -/
theorem restarted_record (env : Env) (s : State) (v : RsPeerId) (own : RsGxsId)
    (rec0 : GxsTunnelDHInfo) (hdh : rec0.dh = none) :
    Map.find
        (locked_restartDHSession env
          { s with _gxs_tunnel_virtual_peer_ids :=
                     Map.insert RsId.lt v rec0 s._gxs_tunnel_virtual_peer_ids }
          v own)._gxs_tunnel_virtual_peer_ids v
      = some { rec0 with
                status :=
                  if (locked_initDHSessionKey env none).1 = true then DHStatus.HALF_KEY_DONE
                  else DHStatus.UNINITIALIZED,
                own_gxs_id := own,
                dh := (locked_initDHSessionKey env none).2 } := by
  rw [locked_restartDHSession_vpids, Map.find_insert_self]
  simp only [Map.find_insert_self, Option.getD_some, hdh]

/-- C34, as amended: `addVirtualPeer(hash, v, CLIENT)`, for every prior state
(also one where `v` has a record with DH status `KEY_AVAILABLE`), leaves `v`
with a record that has `hash = hash`, direction `CLIENT`, an empty
`tunnel_id` and peer `gxs_id`, `own_gxs_id` = the first 16 bytes of `hash`,
and a DH object that does not depend on the previous one (which is freed);
its DH status is not `KEY_AVAILABLE`.  When key generation succeeds the record
holds the fresh key pair and the status is `HALF_KEY_DONE`; when it fails the
record holds no key pair and the status is `UNINITIALIZED`.  Exactly one
DHPublicKey item addressed to `v` is appended to `pendingDHItems` when key
generation, signing and the lookup of the own public key (`getKey`) all
succeed; when one of them fails `pendingDHItems` is unchanged.  The tunnel
table and the records of the other virtual peers are unchanged. -/
theorem addVirtualPeer_client (env : Env) (s : State) (hash : Sha1CheckSum) (v : RsPeerId) :
    (∃ d, Map.find (addVirtualPeer env s hash v Direction.CLIENT)._gxs_tunnel_virtual_peer_ids v
            = some d
        ∧ d.hash = hash ∧ d.direction = Direction.CLIENT
        ∧ d.tunnel_id = RsId.null 20 ∧ d.gxs_id = RsId.null 16
        ∧ d.own_gxs_id = destinationGxsIdFromHash hash
        ∧ d.own_gxs_id.val = hash.val.take 16
        ∧ d.status ≠ DHStatus.KEY_AVAILABLE
        ∧ d.dh = (locked_initDHSessionKey env none).2
        ∧ (∀ priv pub, env.dh_init = DHInit.ok priv pub →
            d.dh = some { keys := some (priv, pub) } ∧ d.status = DHStatus.HALF_KEY_DONE)
        ∧ ((∀ priv pub, env.dh_init ≠ DHInit.ok priv pub) →
            d.status = DHStatus.UNINITIALIZED ∧ ∀ x, d.dh = some x → x.keys = none))
    ∧ (∀ priv pub sig key, env.dh_init = DHInit.ok priv pub →
        env.signData pub (destinationGxsIdFromHash hash) = some sig →
        env.getKey (destinationGxsIdFromHash hash) = some key →
        (addVirtualPeer env s hash v Direction.CLIENT).pendingDHItems
          = s.pendingDHItems ++
              [{ peerId := v, public_key := pub, signature := sig, gxs_key := key }])
    ∧ ((∀ priv pub, env.dh_init = DHInit.ok priv pub →
          env.signData pub (destinationGxsIdFromHash hash) = none
          ∨ env.getKey (destinationGxsIdFromHash hash) = none) →
        (addVirtualPeer env s hash v Direction.CLIENT).pendingDHItems = s.pendingDHItems)
    ∧ (addVirtualPeer env s hash v Direction.CLIENT)._gxs_tunnel_contacts
        = s._gxs_tunnel_contacts
    ∧ (∀ w, w ≠ v →
        Map.find (addVirtualPeer env s hash v Direction.CLIENT)._gxs_tunnel_virtual_peer_ids w
          = Map.find s._gxs_tunnel_virtual_peer_ids w) := by
  have heq : addVirtualPeer env s hash v Direction.CLIENT
      = locked_restartDHSession env
          { s with _gxs_tunnel_virtual_peer_ids :=
                     Map.insert RsId.lt v
                       { (Map.find s._gxs_tunnel_virtual_peer_ids v).getD
                           GxsTunnelDHInfo.default with
                         gxs_id := RsId.null 16, dh := none, direction := Direction.CLIENT,
                         hash := hash, status := DHStatus.UNINITIALIZED,
                         tunnel_id := RsId.null 20 }
                       s._gxs_tunnel_virtual_peer_ids }
          v (destinationGxsIdFromHash hash) := by
    unfold addVirtualPeer
    simp only [if_true]
  rw [heq]
  refine ⟨?_, ?_, ?_, (locked_restartDHSession_frame _ _ _ _).1, ?_⟩
  · refine ⟨_, restarted_record env s v (destinationGxsIdFromHash hash) _ rfl, rfl, rfl, rfl, rfl,
      rfl, rfl, ?_, rfl, ?_, ?_⟩
    · simp only
      split <;> simp
    · intro priv pub hd
      simp only [locked_initDHSessionKey_ok env none priv pub hd, if_true, and_self]
    · intro hd
      obtain ⟨h1, h2⟩ := locked_initDHSessionKey_failed env none hd
      simp only [h1, Bool.false_eq_true, if_false, true_and]
      exact h2
  · intro priv pub sig key hd hs hk
    rw [locked_restartDHSession_pendingDH env _ v _ priv pub sig key hd hs hk]
  · intro h
    rw [locked_restartDHSession_pendingDH_unchanged env _ v _ h]
  · intro w hw
    rw [locked_restartDHSession_vpids, Map.find_insert_other _ _ w _ hw,
      Map.find_insert_other _ _ w _ hw]

/-- C34 on the sample run: a second `addVirtualPeer` for `vpid1`, whose record
has DH status `KEY_AVAILABLE` after the handshake, resets the record and
queues one more DH public key. -/
theorem addVirtualPeer_client_witness :
    (Map.find answer2._gxs_tunnel_virtual_peer_ids vpid1).map (fun d => d.status)
      = some DHStatus.KEY_AVAILABLE
    ∧ Map.find answerAgain._gxs_tunnel_virtual_peer_ids vpid1
      = some { dh := some { keys := some (3, [5]) }, gxs_id := RsId.null 16,
               own_gxs_id := idA, tunnel_id := RsId.null 20,
               status := DHStatus.HALF_KEY_DONE, hash := hashA2,
               direction := Direction.CLIENT }
    ∧ answerAgain.pendingDHItems
      = answer2.pendingDHItems ++
          [{ peerId := vpid1, public_key := [5],
             signature := { keyId := idA, signData := [] },
             gxs_key := { keyId := idA, keyData := [] } }] := by
  have h := (addVirtualPeer_client sampleEnv answer2 hashA2 vpid1).2.1 3 [5]
    { keyId := idA, signData := [] } { keyId := idA, keyData := [] } (by decide) (by decide)
    (by decide)
  exact ⟨by decide, by decide, h⟩

/-- C34, the claim as it stands fails: with a cold key cache `getKey` does not
find the own public key; key generation and signing succeed, the record of
`vpid1` is `HALF_KEY_DONE`, and no DHPublicKey item is appended to
`pendingDHItems`. -/
theorem signing_succeeds_nothing_queued :
    sampleEnvColdCache.dh_init = DHInit.ok 3 [5]
    ∧ sampleEnvColdCache.signData [5] (destinationGxsIdFromHash hashA)
        = some { keyId := idA, signData := [] }
    ∧ (Map.find answerColdCache._gxs_tunnel_virtual_peer_ids vpid1).map (fun d => d.status)
        = some DHStatus.HALF_KEY_DONE
    ∧ State.init.pendingDHItems = []
    ∧ answerColdCache.pendingDHItems = [] := by
  decide

/-- C35: `addVirtualPeer(hash, v, SERVER)` gives up when no tunnel record has
the hash `hash`, or when the first tunnel record with that hash, in the order
of the tunnel table, is `CAN_TALK`: the state is then the prior one but for
the record of `v`, which has been reset (DH status `UNINITIALIZED`, no DH
object, the hash and the direction written, `own_gxs_id` as it was); no key
pair is generated, `pendingDHItems` and the tunnel table are unchanged.
Otherwise the DH session of `v` is started with the `own_gxs_id` of that
tunnel record: the call is `locked_restartDHSession` with that id on the
state with the reset record, so that the record of `v` gets this own id and
the new DH object, with status `HALF_KEY_DONE` when key generation succeeds;
the tunnel table is unchanged here too. -/
theorem addVirtualPeer_server (env : Env) (s : State) (hash : Sha1CheckSum) (v : RsPeerId) :
    ((s._gxs_tunnel_contacts.find? (fun p => decide (p.2.hash = hash)) = none
        ↔ ∀ p ∈ s._gxs_tunnel_contacts, p.2.hash ≠ hash)
      ∧ ∀ k p, s._gxs_tunnel_contacts.find? (fun q => decide (q.2.hash = hash)) = some (k, p) →
          p.hash = hash ∧ (k, p) ∈ s._gxs_tunnel_contacts)
    ∧ ((s._gxs_tunnel_contacts.find? (fun p => decide (p.2.hash = hash)) = none
          ∨ ∃ k p, s._gxs_tunnel_contacts.find? (fun q => decide (q.2.hash = hash))
                = some (k, p) ∧ p.status = TunnelStatus.CAN_TALK) →
        addVirtualPeer env s hash v Direction.SERVER
          = { s with
              _gxs_tunnel_virtual_peer_ids :=
                Map.insert RsId.lt v
                  { (Map.find s._gxs_tunnel_virtual_peer_ids v).getD GxsTunnelDHInfo.default with
                    gxs_id := RsId.null 16, dh := none, direction := Direction.SERVER,
                    hash := hash, status := DHStatus.UNINITIALIZED,
                    tunnel_id := RsId.null 20 }
                  s._gxs_tunnel_virtual_peer_ids }
        ∧ (addVirtualPeer env s hash v Direction.SERVER).pendingDHItems = s.pendingDHItems
        ∧ (addVirtualPeer env s hash v Direction.SERVER)._gxs_tunnel_contacts
            = s._gxs_tunnel_contacts
        ∧ ∃ d, Map.find
              (addVirtualPeer env s hash v Direction.SERVER)._gxs_tunnel_virtual_peer_ids v
              = some d
            ∧ d.status = DHStatus.UNINITIALIZED ∧ d.dh = none)
    ∧ (∀ k p, s._gxs_tunnel_contacts.find? (fun q => decide (q.2.hash = hash)) = some (k, p) →
        p.status ≠ TunnelStatus.CAN_TALK →
        addVirtualPeer env s hash v Direction.SERVER
          = locked_restartDHSession env
              { s with
                _gxs_tunnel_virtual_peer_ids :=
                  Map.insert RsId.lt v
                    { (Map.find s._gxs_tunnel_virtual_peer_ids v).getD
                        GxsTunnelDHInfo.default with
                      gxs_id := RsId.null 16, dh := none, direction := Direction.SERVER,
                      hash := hash, status := DHStatus.UNINITIALIZED,
                      tunnel_id := RsId.null 20 }
                    s._gxs_tunnel_virtual_peer_ids }
              v p.own_gxs_id
        ∧ (addVirtualPeer env s hash v Direction.SERVER)._gxs_tunnel_contacts
            = s._gxs_tunnel_contacts
        ∧ (∃ d, Map.find
              (addVirtualPeer env s hash v Direction.SERVER)._gxs_tunnel_virtual_peer_ids v
              = some d
            ∧ d.own_gxs_id = p.own_gxs_id ∧ d.hash = hash ∧ d.direction = Direction.SERVER
            ∧ d.dh = (locked_initDHSessionKey env none).2
            ∧ (∀ priv pub, env.dh_init = DHInit.ok priv pub →
                d.dh = some { keys := some (priv, pub) }
                ∧ d.status = DHStatus.HALF_KEY_DONE))
        ∧ (∀ priv pub sig key, env.dh_init = DHInit.ok priv pub →
            env.signData pub p.own_gxs_id = some sig → env.getKey p.own_gxs_id = some key →
            (addVirtualPeer env s hash v Direction.SERVER).pendingDHItems
              = s.pendingDHItems ++
                  [{ peerId := v, public_key := pub, signature := sig, gxs_key := key }])) := by
  refine ⟨⟨?_, ?_⟩, ?_, ?_⟩
  · rw [List.find?_eq_none]
    constructor
    · intro h p hp hc
      exact h p hp (by simpa using hc)
    · intro h p hp
      simpa using h p hp
  · intro k p h
    exact ⟨by simpa using List.find?_some h, List.mem_of_find?_eq_some h⟩
  · intro h
    have heq : addVirtualPeer env s hash v Direction.SERVER
        = { s with
            _gxs_tunnel_virtual_peer_ids :=
              Map.insert RsId.lt v
                { (Map.find s._gxs_tunnel_virtual_peer_ids v).getD GxsTunnelDHInfo.default with
                  gxs_id := RsId.null 16, dh := none, direction := Direction.SERVER,
                  hash := hash, status := DHStatus.UNINITIALIZED,
                  tunnel_id := RsId.null 20 }
                s._gxs_tunnel_virtual_peer_ids } := by
      unfold addVirtualPeer
      simp only [reduceCtorEq, if_false]
      rcases h with h | ⟨k, p, h, hs⟩
      · rw [h]
      · rw [h]
        simp only [hs, if_true]
    rw [heq]
    exact ⟨rfl, rfl, rfl, _, Map.find_insert_self _ _ _ _, rfl, rfl⟩
  · intro k p h hs
    have heq : addVirtualPeer env s hash v Direction.SERVER
        = locked_restartDHSession env
            { s with
              _gxs_tunnel_virtual_peer_ids :=
                Map.insert RsId.lt v
                  { (Map.find s._gxs_tunnel_virtual_peer_ids v).getD
                      GxsTunnelDHInfo.default with
                    gxs_id := RsId.null 16, dh := none, direction := Direction.SERVER,
                    hash := hash, status := DHStatus.UNINITIALIZED,
                    tunnel_id := RsId.null 20 }
                  s._gxs_tunnel_virtual_peer_ids }
            v p.own_gxs_id := by
      unfold addVirtualPeer
      simp only [reduceCtorEq, if_false]
      rw [h]
      simp only [hs, if_false]
    rw [heq]
    refine ⟨rfl, (locked_restartDHSession_frame _ _ _ _).1, ?_, ?_⟩
    · refine ⟨_, restarted_record env s v p.own_gxs_id _ rfl, rfl, rfl, rfl, rfl, ?_⟩
      intro priv pub hd
      simp only [locked_initDHSessionKey_ok env none priv pub hd, if_true, and_self]
    · intro priv pub sig key hd hsg hk
      rw [locked_restartDHSession_pendingDH env _ v _ priv pub sig key hd hsg hk]

/-- C35 on the sample run: with no tunnel requested, and with the tunnel of the
hash already `CAN_TALK`, the announced virtual peer is left without DH state
and nothing is queued; with the tunnel down, the session starts with the own
id `idA` of the tunnel record. -/
theorem addVirtualPeer_server_witness :
    digUnrequested
      = { State.init with
          _gxs_tunnel_virtual_peer_ids :=
            [(vpid1, { GxsTunnelDHInfo.default with direction := Direction.SERVER,
                                                    hash := hashB })] }
    ∧ digSecondPeer.pendingDHItems = dig3.pendingDHItems
    ∧ Map.find digSecondPeer._gxs_tunnel_virtual_peer_ids (sampleId 78)
        = some { GxsTunnelDHInfo.default with direction := Direction.SERVER, hash := hashB }
    ∧ Map.find dig2._gxs_tunnel_virtual_peer_ids vpid1
        = some { dh := some { keys := some (3, [5]) }, gxs_id := RsId.null 16,
                 own_gxs_id := idA, tunnel_id := RsId.null 20,
                 status := DHStatus.HALF_KEY_DONE, hash := hashB,
                 direction := Direction.SERVER }
    ∧ dig2.pendingDHItems.length = 1 := by
  have h := (addVirtualPeer_server sampleEnv State.init hashB vpid1).2.1 (Or.inl (by decide))
  have h2 := (addVirtualPeer_server sampleEnv dig3 hashB (sampleId 78)).2.1
    (Or.inr ⟨tunnelAB, dig3Tunnel, by decide, by decide⟩)
  exact ⟨h.1.trans (by decide), h2.2.1, by decide, by decide, by decide⟩

/-! ### C36: an inbound Status item -/

/-- C36: a Status item handed to `handleIncomingItem` for tunnel `t` goes to
`handleRecvStatusItem` and causes no call.  With the flag
`CLOSING_DISTANT_CONNECTION` set, the record of `t` gets status
`REMOTELY_CLOSED` (nothing else of it changes, and no other record) when its
direction is `CLIENT`; the state is unchanged when the direction is `SERVER`
and when `t` has no record.  Without that flag, in particular for a Status
item whose flags are `KEEP_ALIVE` or `ACK_DISTANT_CONNECTION`, the state is
unchanged. -/
theorem status_item_effect (s : State) (t : RsGxsTunnelId) (cs : RsGxsTunnelStatusItem) :
    handleIncomingItem s t (.status cs) = (handleRecvStatusItem s t cs, [])
    ∧ (cs.flags &&& RS_GXS_TUNNEL_FLAG_CLOSING_DISTANT_CONNECTION ≠ 0 →
        (∀ p, Map.find s._gxs_tunnel_contacts t = some p → p.direction = Direction.CLIENT →
          handleRecvStatusItem s t cs
            = { s with
                _gxs_tunnel_contacts :=
                  Map.modify t (fun q => { q with status := TunnelStatus.REMOTELY_CLOSED })
                    s._gxs_tunnel_contacts }
          ∧ Map.find (handleRecvStatusItem s t cs)._gxs_tunnel_contacts t
              = some { p with status := TunnelStatus.REMOTELY_CLOSED }
          ∧ ∀ k, k ≠ t → Map.find (handleRecvStatusItem s t cs)._gxs_tunnel_contacts k
              = Map.find s._gxs_tunnel_contacts k)
        ∧ (∀ p, Map.find s._gxs_tunnel_contacts t = some p → p.direction = Direction.SERVER →
            handleRecvStatusItem s t cs = s)
        ∧ (Map.find s._gxs_tunnel_contacts t = none → handleRecvStatusItem s t cs = s))
    ∧ (cs.flags &&& RS_GXS_TUNNEL_FLAG_CLOSING_DISTANT_CONNECTION = 0 →
        handleRecvStatusItem s t cs = s)
    ∧ (cs.flags = RS_GXS_TUNNEL_FLAG_KEEP_ALIVE
        ∨ cs.flags = RS_GXS_TUNNEL_FLAG_ACK_DISTANT_CONNECTION →
        handleRecvStatusItem s t cs = s) := by
  have hno : cs.flags &&& RS_GXS_TUNNEL_FLAG_CLOSING_DISTANT_CONNECTION = 0 →
      handleRecvStatusItem s t cs = s := by
    intro h
    unfold handleRecvStatusItem
    rw [if_neg (by rw [h]; simp)]
  refine ⟨rfl, ?_, hno, ?_⟩
  · intro hflag
    refine ⟨?_, ?_, ?_⟩
    · intro p hp hd
      have heq : handleRecvStatusItem s t cs
          = { s with
              _gxs_tunnel_contacts :=
                Map.modify t (fun q => { q with status := TunnelStatus.REMOTELY_CLOSED })
                  s._gxs_tunnel_contacts } := by
        unfold handleRecvStatusItem markGxsTunnelAsClosed
        rw [if_pos hflag]
        simp only [hp, hd, if_true]
      rw [heq]
      refine ⟨rfl, ?_, ?_⟩
      · simp only
        rw [Map.find_modify, if_pos rfl, hp]
        rfl
      · intro k hk
        simp only
        rw [Map.find_modify, if_neg hk]
    · intro p hp hd
      unfold handleRecvStatusItem markGxsTunnelAsClosed
      rw [if_pos hflag]
      simp only [hp, hd, reduceCtorEq, if_false]
    · intro hp
      unfold handleRecvStatusItem markGxsTunnelAsClosed
      rw [if_pos hflag]
      simp only [hp]
  · intro h
    apply hno
    rcases h with h | h
    · rw [h]
      decide
    · rw [h]
      decide

/-- C36 on the sample run: the closing packet marks the tunnel of the
answering side (`CLIENT`) as remotely closed and changes nothing on the
digging side (`SERVER`); a keep-alive changes nothing. -/
theorem status_item_effect_witness :
    Map.find (handleRecvStatusItem answer2 tunnelAB
        { peerId := vpid1, flags := RS_GXS_TUNNEL_FLAG_CLOSING_DISTANT_CONNECTION })._gxs_tunnel_contacts
        tunnelAB
      = some { answer2Tunnel with status := TunnelStatus.REMOTELY_CLOSED }
    ∧ handleRecvStatusItem dig3 tunnelAB
        { peerId := vpid1, flags := RS_GXS_TUNNEL_FLAG_CLOSING_DISTANT_CONNECTION } = dig3
    ∧ handleRecvStatusItem answer2 tunnelAB
        { peerId := vpid1, flags := RS_GXS_TUNNEL_FLAG_KEEP_ALIVE } = answer2
    ∧ (Map.find answerRemoteClosed._gxs_tunnel_contacts tunnelAB).map (fun p => p.status)
        = some TunnelStatus.REMOTELY_CLOSED := by
  have h := (status_item_effect answer2 tunnelAB
    { peerId := vpid1, flags := RS_GXS_TUNNEL_FLAG_CLOSING_DISTANT_CONNECTION }).2.1 (by decide)
  have h2 := (status_item_effect dig3 tunnelAB
    { peerId := vpid1, flags := RS_GXS_TUNNEL_FLAG_CLOSING_DISTANT_CONNECTION }).2.1 (by decide)
  have h3 := (status_item_effect answer2 tunnelAB
    { peerId := vpid1, flags := RS_GXS_TUNNEL_FLAG_KEEP_ALIVE }).2.2.2 (Or.inl rfl)
  exact ⟨(h.1 answer2Tunnel (by decide) (by decide)).2.1,
    h2.2.1 dig3Tunnel (by decide) (by decide), h3, by decide⟩

/-! ### C37: the tunnel an ack arrives on -/

/-- C37: `handleRecvTunnelDataAckItem` does not use the tunnel id: for every
state, ack item and tunnel ids `t1` and `t2` the resulting states are equal,
also through `handleIncomingItem`.  So after a `sendData` for tunnel `t` that
returns true, the entry it stored under the counter is removed by an ack of
that counter handled for any tunnel `t2`. -/
theorem ack_ignores_tunnel (s : State) (t1 t2 : RsGxsTunnelId) (a : RsGxsTunnelDataAckItem) :
    handleRecvTunnelDataAckItem s t1 a = handleRecvTunnelDataAckItem s t2 a
    ∧ handleIncomingItem s t1 (.ack a) = handleIncomingItem s t2 (.ack a)
    ∧ (∀ (t : RsGxsTunnelId) (service_id : Nat) (data : Bytes),
        (sendData s t service_id data).1 = true →
        a.unique_item_counter = s.global_item_counter →
        (∃ d, Map.find (sendData s t service_id data).2.pendingGxsTunnelDataItems
            s.global_item_counter = some d)
        ∧ Map.find
            (handleRecvTunnelDataAckItem (sendData s t service_id data).2 t2
              a).pendingGxsTunnelDataItems
            s.global_item_counter = none) := by
  refine ⟨rfl, rfl, ?_⟩
  intro t service_id data h ha
  rw [sendData_accepted s t service_id data h]
  have hf := Map.find_insert_self natLt s.global_item_counter
    ({ data_item := { peerId := RsId.null 16, unique_item_counter := s.global_item_counter,
                      flags := 0, service_id := service_id, data := data },
       last_sending_attempt := 0 } : GxsTunnelData) s.pendingGxsTunnelDataItems
  refine ⟨⟨_, hf⟩, ?_⟩
  unfold handleRecvTunnelDataAckItem
  simp only [ha, hf]
  exact Map.find_erase_self _ _

/-- C37 on a sample run with two tunnels: the data item with counter 0 is
queued by `sendData` for the tunnel to `idC`; the ack of counter 0 that
arrives on `vpid1`, the virtual peer of the tunnel to `idB`, removes it. -/
theorem ack_ignores_tunnel_witness :
    tunnelB2 ≠ tunnelC2
    ∧ (Map.find twoSent._gxs_tunnel_contacts tunnelB2).map (fun p => p.virtual_peer_id)
        = some vpid1
    ∧ (Map.find twoSent._gxs_tunnel_contacts tunnelC2).map (fun p => p.virtual_peer_id)
        = some vpid2
    ∧ sendData twoTunnels tunnelC2 7 [42] = (true, twoSent)
    ∧ twoSent.pendingGxsTunnelDataItems.map (fun p => p.1) = [0]
    ∧ twoAcked.map (fun r => r.1.pendingGxsTunnelDataItems) = some []
    ∧ handleRecvTunnelDataAckItem twoSent tunnelB2 { peerId := vpid1, unique_item_counter := 0 }
        = handleRecvTunnelDataAckItem twoSent tunnelC2
            { peerId := vpid1, unique_item_counter := 0 } :=
  ⟨by decide, by decide, by decide, by decide, by decide, by decide,
   (ack_ignores_tunnel twoSent tunnelB2 tunnelC2 { peerId := vpid1, unique_item_counter := 0 }).1⟩

/-! ### C8: deliveries after `closeExistingTunnel`, in every run -/

/-- The calls of a `flush` are `sendTurtleData` and `forceReDiggTunnels`
calls. -/
theorem flush_calls (env : Env) (fuel now : Nat) (s s' : State) (ev : List Event)
    (h : flush env fuel now s = some (s', ev)) :
    ∀ e ∈ ev, IsSend e ∨ ∃ hash, e = Event.forceReDiggTunnels hash := by
  obtain ⟨ev1, c2, ev2, dq, c3, ev3, h1, h2, h3, -, hev⟩ := flush_phases env fuel now s s' ev h
  rw [hev]
  intro e he
  rcases List.mem_append.1 he with he | he
  · left
    rcases List.mem_append.1 he with he | he
    · rcases List.mem_append.1 he with he | he
      · exact flushDHItems_events env fuel _ _ _ h1 e he
      · exact flushTunnelItems_events env s fuel 0 _ _ _ _ h2 e he
    · exact flushDataItems_events env fuel now s _ _ _ _ _ h3 e he
  · right
    exact flushTunnels_calls env now _ c3 e he

/-- The calls of `closeExistingTunnel` are `sendTurtleData` and
`stopMonitoringTunnels` calls. -/
theorem closeExistingTunnel_calls (env : Env) (fuel : Nat) (s s' : State)
    (t : RsGxsTunnelId) (ret : Bool) (ev : List Event)
    (hrun : closeExistingTunnel env fuel s t = some (ret, s', ev)) :
    ∀ e ∈ ev, IsSend e ∨ ∃ hash, e = Event.stopMonitoringTunnels hash := by
  unfold closeExistingTunnel at hrun
  simp only at hrun
  split at hrun
  · simp only [Option.some.injEq, Prod.mk.injEq] at hrun
    obtain ⟨-, -, rfl⟩ := hrun
    simp
  · split at hrun
    · simp only [Option.some.injEq, Prod.mk.injEq] at hrun
      obtain ⟨-, -, rfl⟩ := hrun
      simp
    · split at hrun
      · simp at hrun
      · rename_i b c' ev0 hsend
        have hs := locked_sendEncryptedTunnelData_events env _ _ _ s _ _ _ hsend
        split at hrun
        all_goals
          simp only [Option.some.injEq, Prod.mk.injEq] at hrun
          obtain ⟨-, -, rfl⟩ := hrun
          intro e he
          rcases List.mem_append.1 he with he | he
          · exact Or.inl (hs e he)
          · exact Or.inr ⟨_, List.mem_singleton.1 he⟩

/-- A step that starts without a record for `t` hands nothing to a client
service for `t`; it ends without a record for `t` unless it is a
`requestSecuredTunnel` that returns `t` or an inbound DH public key. -/
theorem step_without_record (t : RsGxsTunnelId) (s s' : State) (ev : List Event)
    (hstep : Step s ev s') (habs : Map.find s._gxs_tunnel_contacts t = none) :
    (∀ service d, Event.receiveData service t d ∉ ev)
    ∧ (Map.find s'._gxs_tunnel_contacts t = none
        ∨ (∃ env now to_gxs_id from_gxs_id,
            requestSecuredTunnel env now s to_gxs_id from_gxs_id
              = (true, some t, TunnelError.RS_GXS_TUNNEL_ERROR_NO_ERROR, s', ev))
        ∨ (∃ env now item, handleRecvDHPublicKey env now s item = some (s', ev))) := by
  cases hstep with
  | registerClientService service_id service =>
    refine ⟨by simp, Or.inl ?_⟩
    unfold registerClientService
    split <;> exact habs
  | requestSecuredTunnel env now to_gxs_id from_gxs_id =>
    by_cases hown : from_gxs_id ∈ env.getOwnIds
    · cases hrec : Map.find s._gxs_tunnel_contacts
          (makeGxsTunnelId env from_gxs_id to_gxs_id) with
      | some pinfo =>
        rw [requestSecuredTunnel_existing env now s to_gxs_id from_gxs_id pinfo hown hrec]
        exact ⟨by simp, Or.inl habs⟩
      | none =>
        have hf := requestSecuredTunnel_fresh env now s to_gxs_id from_gxs_id hown hrec
        rw [hf]
        refine ⟨by simp, ?_⟩
        by_cases e : makeGxsTunnelId env from_gxs_id to_gxs_id = t
        · right
          left
          refine ⟨env, now, to_gxs_id, from_gxs_id, ?_⟩
          rw [hf, e]
        · left
          simp only
          rw [Map.find_insert_other _ _ t _ (Ne.symm e)]
          exact habs
    · have hany : env.getOwnIds.any (fun id => decide (id = from_gxs_id)) = false := by
        rw [Bool.eq_false_iff]
        intro hc
        exact hown ((any_eq_iff_mem _ _).1 hc)
      have hr : requestSecuredTunnel env now s to_gxs_id from_gxs_id
          = (false, none, TunnelError.RS_GXS_TUNNEL_ERROR_UNKNOWN_GXS_ID, s, []) := by
        unfold requestSecuredTunnel
        rw [if_pos hany]
      rw [hr]
      exact ⟨by simp, Or.inl habs⟩
  | closeExistingTunnel env fuel tunnel_id ret ev hrun =>
    constructor
    · intro service d hmem
      rcases closeExistingTunnel_calls env fuel s s' tunnel_id ret ev hrun _ hmem with h | h
      · obtain ⟨v, b, hb⟩ := h
        cases hb
      · obtain ⟨hash, hb⟩ := h
        cases hb
    · left
      unfold closeExistingTunnel at hrun
      simp only at hrun
      repeat' split at hrun
      all_goals first
        | (simp at hrun; done)
        | (simp only [Option.some.injEq, Prod.mk.injEq] at hrun
           obtain ⟨-, rfl, -⟩ := hrun
           first
             | exact habs
             | (by_cases e : t = tunnel_id
                · rw [e]
                  exact Map.find_erase_self _ _
                · simp only
                  rw [Map.find_erase_other _ _ e]
                  exact habs))
  | sendData tunnel_id service_id data =>
    refine ⟨by simp, Or.inl ?_⟩
    unfold sendData
    repeat' split
    all_goals exact habs
  | flush env fuel now ev hrun =>
    constructor
    · intro service d hmem
      rcases flush_calls env fuel now s s' ev hrun _ hmem with h | h
      · obtain ⟨v, b, hb⟩ := h
        cases hb
      · obtain ⟨hash, hb⟩ := h
        cases hb
    · left
      obtain ⟨ev1, c2, ev2, dq, c3, ev3, -, -, -, hs', -⟩ := flush_phases env fuel now s s' ev hrun
      subst hs'
      simp only
      rw [flushTunnels_find, habs]
      rfl
  | addVirtualPeer env hash vpid dir =>
    refine ⟨by simp, Or.inl ?_⟩
    rw [addVirtualPeer_contacts]
    exact habs
  | removeVirtualPeer hash vpid =>
    refine ⟨by simp, Or.inl ?_⟩
    unfold removeVirtualPeer
    simp only
    repeat' split
    all_goals first
      | exact habs
      | (simp only [Map.find_modify, habs]
         split <;> rfl)
  | receiveTurtleData env now data hash vpid ev hrun =>
    unfold receiveTurtleData at hrun
    split at hrun
    · simp only [Option.some.injEq, Prod.mk.injEq] at hrun
      obtain ⟨rfl, rfl⟩ := hrun
      exact ⟨by simp, Or.inl habs⟩
    · split at hrun
      · cases h3 : handleEncryptedData env now s data hash vpid with
        | none => rw [h3] at hrun; simp at hrun
        | some r3 =>
          obtain ⟨ret, s3, ev3⟩ := r3
          rw [h3] at hrun
          simp only [Option.map_some', Option.some.injEq, Prod.mk.injEq] at hrun
          obtain ⟨rfl, rfl⟩ := hrun
          have h := handleEncryptedData_absent _ _ _ _ _ _ _ _ _ t habs h3
          exact ⟨h.1, Or.inl h.2⟩
      · split at hrun
        · rename_i dhitem _
          constructor
          · intro service d hmem
            have := handleRecvDHPublicKey_events env now s s' _ ev hrun _ hmem
            cases this
          · exact Or.inr (Or.inr ⟨env, now, _, hrun⟩)
        · simp only [Option.some.injEq, Prod.mk.injEq] at hrun
          obtain ⟨rfl, rfl⟩ := hrun
          exact ⟨by simp, Or.inl habs⟩

/-- A run whose steps start without a record for `t` hands nothing to a client
service for `t`. -/
theorem runWithout_no_receiveData (t : RsGxsTunnelId) (s s' : State) (ev : List Event)
    (hrun : RunWithout t s ev s') : ∀ service d, Event.receiveData service t d ∉ ev := by
  induction hrun with
  | done => simp
  | step habs hstep _ ih =>
    intro service d hmem
    rcases List.mem_append.1 hmem with hm | hm
    · exact (step_without_record t _ _ _ hstep habs).1 service d hm
    · exact ih service d hm

/-- C8, as amended: once `closeExistingTunnel(t)` has returned true for a
record of direction SERVER, the tunnel table has no record for `t`, and no
`receiveData` with tunnel id `t` is invoked, neither by the close itself nor
by any later run of operations and overlay callbacks (`flush`, `sendData`,
`registerClientService`, `closeExistingTunnel`, `requestSecuredTunnel`,
`addVirtualPeer`, `removeVirtualPeer`, inbound frames of either kind, in any
order and on any virtual peer) for as long as the table has no record for
`t`.  A step that starts without a record for `t` ends without one, unless it
is a `requestSecuredTunnel` that returns `t` or an inbound DH public key
handled by `handleRecvDHPublicKey`: only these create the record again. -/
theorem no_receiveData_after_server_close (env : Env) (fuel : Nat) (s s1 s2 : State)
    (t : RsGxsTunnelId) (pinfo : GxsTunnelPeerInfo) (ev0 ev : List Event)
    (ht : Map.find s._gxs_tunnel_contacts t = some pinfo)
    (hdir : pinfo.direction = Direction.SERVER)
    (hclose : closeExistingTunnel env fuel s t = some (true, s1, ev0))
    (hrun : RunWithout t s1 ev s2) :
    Map.find s1._gxs_tunnel_contacts t = none
    ∧ (∀ service d, Event.receiveData service t d ∉ ev0 ++ ev)
    ∧ (∀ (sa sb : State) (eva : List Event), Step sa eva sb →
        Map.find sa._gxs_tunnel_contacts t = none →
        (∀ service d, Event.receiveData service t d ∉ eva)
        ∧ (Map.find sb._gxs_tunnel_contacts t = none
            ∨ (∃ env' now to_gxs_id from_gxs_id,
                requestSecuredTunnel env' now sa to_gxs_id from_gxs_id
                  = (true, some t, TunnelError.RS_GXS_TUNNEL_ERROR_NO_ERROR, sb, eva))
            ∨ (∃ env' now item, handleRecvDHPublicKey env' now sa item = some (sb, eva)))) := by
  have habs : Map.find s1._gxs_tunnel_contacts t = none := by
    unfold closeExistingTunnel at hclose
    simp only [ht, hdir, reduceCtorEq, if_false] at hclose
    split at hclose
    · simp at hclose
    · simp only [Option.some.injEq, Prod.mk.injEq, true_and] at hclose
      obtain ⟨rfl, -⟩ := hclose
      exact Map.find_erase_self t _
  refine ⟨habs, ?_, fun sa sb eva hstep ha => step_without_record t sa sb eva hstep ha⟩
  intro service d hmem
  rcases List.mem_append.1 hmem with hm | hm
  · rcases closeExistingTunnel_calls env fuel s s1 t true ev0 hclose _ hm with h | h
    · obtain ⟨v, b, hb⟩ := h
      cases hb
    · obtain ⟨hash, hb⟩ := h
      cases hb
  · exact runWithout_no_receiveData t s1 s2 ev hrun service d hm

/-- Witness of C8: after the close on the digging side of the sample run, a
data frame on `vpid1` is dropped, `sendData` is refused, a `flush` at time 104
sends nothing, a second virtual peer announced for `hashB` starts no session
and `vpid1` is removed: nothing is delivered for `tunnelAB`. -/
theorem no_receiveData_after_server_close_witness :
    Map.find digDrained._gxs_tunnel_contacts tunnelAB = some digRegTunnel
    ∧ digRegTunnel.direction = Direction.SERVER
    ∧ closeExistingTunnel sampleEnv 10 digDrained tunnelAB
        = some (true, digDrainedClosed,
            [Event.sendTurtleData vpid1 (frameEnc [3, 2]), Event.stopMonitoringTunnels hashB])
    ∧ receiveTurtleData sampleEnv 103 digDrainedClosed frameData hashB vpid1
        = some (digDrainedClosed, [])
    ∧ flush sampleEnv 10 104 digDrainedClosed = some (digDrainedClosed, [])
    ∧ Map.find digDrainedClosed._gxs_tunnel_contacts tunnelAB = none
    ∧ Map.find
        (removeVirtualPeer
          (addVirtualPeer sampleEnv digDrainedClosed hashB vpid2
            Direction.SERVER) hashB vpid1)._gxs_tunnel_contacts tunnelAB = none := by
  have st1 : Step digDrainedClosed [] digDrainedClosed :=
    Step.receiveTurtleData sampleEnv 103 frameData hashB vpid1 [] (by decide)
  have st2 : Step digDrainedClosed [] digDrainedClosed :=
    Step.closeExistingTunnel sampleEnv 10 tunnelAB false [] (by decide)
  have st3 : Step digDrainedClosed [] digDrainedClosed :=
    Step.flush sampleEnv 10 104 [] (by decide)
  have st4 : Step digDrainedClosed []
      (addVirtualPeer sampleEnv digDrainedClosed hashB vpid2 Direction.SERVER) :=
    Step.addVirtualPeer sampleEnv hashB vpid2 Direction.SERVER
  have st5 : Step (addVirtualPeer sampleEnv digDrainedClosed hashB vpid2 Direction.SERVER) []
      (removeVirtualPeer
        (addVirtualPeer sampleEnv digDrainedClosed hashB vpid2 Direction.SERVER) hashB vpid1) :=
    Step.removeVirtualPeer hashB vpid1
  have habs : Map.find digDrainedClosed._gxs_tunnel_contacts tunnelAB = none := by decide
  have hrun : RunWithout tunnelAB digDrainedClosed ([] ++ ([] ++ ([] ++ ([] ++ ([] ++ [])))))
      (removeVirtualPeer
        (addVirtualPeer sampleEnv digDrainedClosed hashB vpid2 Direction.SERVER) hashB vpid1) :=
    RunWithout.step habs st1
      (RunWithout.step habs st2
        (RunWithout.step habs st3
          (RunWithout.step habs st4
            (RunWithout.step (by decide) st5 RunWithout.done))))
  have h := no_receiveData_after_server_close sampleEnv 10 digDrained digDrainedClosed _
    tunnelAB digRegTunnel
    [Event.sendTurtleData vpid1 (frameEnc [3, 2]), Event.stopMonitoringTunnels hashB] _
    (by decide) (by decide) (by decide) hrun
  exact ⟨by decide, by decide, by decide, by decide, by decide, h.1, by decide⟩

/-! ### C29: the order of the sends of one `flush`, on reachable states -/

theorem Map.erase_sublist {K V : Type} [DecidableEq K] (k : K) :
    ∀ m : Map K V, (Map.erase k m).Sublist m
  | [] => List.Sublist.slnil
  | (k', v') :: rest => by
    unfold Map.erase
    split
    · exact List.Sublist.cons _ (Map.erase_sublist k rest)
    · exact List.Sublist.cons₂ _ (Map.erase_sublist k rest)

theorem Map.insert_keys_sorted (k : Nat) (v : GxsTunnelData) :
    ∀ m : Map Nat GxsTunnelData, (m.map Prod.fst).Pairwise (fun a b => a < b) →
      ((Map.insert natLt k v m).map Prod.fst).Pairwise (fun a b => a < b)
  | [], _ => by simp [Map.insert]
  | (k', v') :: rest, h => by
    simp only [List.map_cons, List.pairwise_cons] at h
    obtain ⟨hhead, htail⟩ := h
    unfold Map.insert
    by_cases e : k' = k
    · rw [if_pos e]
      simp only [List.map_cons, List.pairwise_cons]
      rw [← e]
      exact ⟨hhead, htail⟩
    · rw [if_neg e]
      by_cases hl : natLt k k' = true
      · rw [if_pos hl]
        have hlt : k < k' := by
          unfold natLt at hl
          exact of_decide_eq_true hl
        simp only [List.map_cons, List.pairwise_cons, List.mem_cons]
        refine ⟨?_, hhead, htail⟩
        intro x hx
        rcases hx with hx | hx
        · rw [hx]
          exact hlt
        · exact Nat.lt_trans hlt (hhead x hx)
      · rw [if_neg hl]
        have hge : k' < k := by
          unfold natLt at hl
          have : ¬ k < k' := fun hc => hl (decide_eq_true hc)
          omega
        simp only [List.map_cons, List.pairwise_cons]
        refine ⟨?_, Map.insert_keys_sorted k v rest htail⟩
        intro x hx
        obtain ⟨p, hp, rfl⟩ := List.mem_map.1 hx
        rcases Map.mem_insert natLt k v p rest hp with hp | hp
        · rw [hp]
          exact hge
        · exact hhead p.1 (List.mem_map_of_mem _ hp)

theorem dataMapOk_insert {m : Map Nat GxsTunnelData} (h : DataMapOk m) (k : Nat)
    (v : GxsTunnelData) (hv : v.data_item.unique_item_counter = k) :
    DataMapOk (Map.insert natLt k v m) := by
  refine ⟨Map.insert_keys_sorted k v m h.1, ?_⟩
  intro p hp
  rcases Map.mem_insert natLt k v p m hp with hp | hp
  · rw [hp]
    exact hv
  · exact h.2 p hp

theorem dataMapOk_erase {m : Map Nat GxsTunnelData} (h : DataMapOk m) (k : Nat) :
    DataMapOk (Map.erase k m) :=
  ⟨List.Pairwise.sublist (List.Sublist.map _ (Map.erase_sublist k m)) h.1,
   fun p hp => h.2 p (Map.mem_erase k p m hp)⟩

/-- The third loop of `flush` keeps the keys and the items of the map. -/
theorem dataMapOk_flushDataItems (env : Env) (fuel now : Nat) (s : State)
    (m r : Map Nat GxsTunnelData) (c c' : Nat) (ev : List Event) (h : DataMapOk m)
    (hrun : flushDataItems env fuel now s m c = some (r, c', ev)) : DataMapOk r := by
  have hkeys := flushDataItems_keys env fuel now s m r c c' ev hrun
  have hent := flushDataItems_entries env fuel now s m r c c' ev hrun
  refine ⟨by rw [hkeys]; exact h.1, ?_⟩
  have hall : ∀ (m r : Map Nat GxsTunnelData),
      List.Forall₂
        (fun p q =>
          q.1 = p.1 ∧ q.2.data_item = p.2.data_item
          ∧ (resendDue now p = false → q = p)
          ∧ (resendDue now p = true →
              ∃ c1 sent c2 e,
                locked_sendEncryptedTunnelData env fuel c1 s (.data p.2.data_item)
                  = some (sent, c2, e)
                ∧ q.2.last_sending_attempt
                    = if sent then now else p.2.last_sending_attempt))
        m r →
      (∀ p ∈ m, p.2.data_item.unique_item_counter = p.1) →
      ∀ q ∈ r, q.2.data_item.unique_item_counter = q.1 := by
    intro m r hf
    induction hf with
    | nil => intro _ q hq; exact absurd hq (List.not_mem_nil _)
    | cons hpq _ ih =>
      intro hm q hq
      rcases List.mem_cons.1 hq with hq | hq
      · rw [hq, hpq.1, hpq.2.1]
        exact hm _ (List.mem_cons_self _ _)
      · exact ih (fun p hp => hm p (List.mem_cons_of_mem _ hp)) q hq
  exact hall m r hent h.2

/-- In every reachable state `pendingGxsTunnelDataItems` has ascending keys
and holds each item under its counter: `sendData` inserts in order, the ack
handler erases, `flush` keeps keys and items, nothing else touches the map. -/
theorem reachable_dataMapOk (s : State) (h : Reachable s) :
    DataMapOk s.pendingGxsTunnelDataItems := by
  induction h with
  | init => exact ⟨List.Pairwise.nil, fun p hp => absurd hp (List.not_mem_nil _)⟩
  | registerClientService service_id service _ ih =>
    unfold registerClientService
    split <;> exact ih
  | requestSecuredTunnel env now to_gxs_id from_gxs_id _ ih =>
    unfold requestSecuredTunnel startClientGxsTunnelConnection
    simp only
    repeat' split
    all_goals exact ih
  | closeExistingTunnel env fuel tunnel_id ret ev _ hrun ih =>
    unfold closeExistingTunnel at hrun
    simp only at hrun
    repeat' split at hrun
    all_goals first
      | (simp at hrun; done)
      | (simp only [Option.some.injEq, Prod.mk.injEq] at hrun
         obtain ⟨-, rfl, -⟩ := hrun
         exact ih)
  | sendData tunnel_id service_id data _ ih =>
    unfold sendData
    repeat' split
    all_goals first
      | exact ih
      | exact dataMapOk_insert ih _ _ rfl
  | flush env fuel now ev _ hrun ih =>
    obtain ⟨ev1, c2, ev2, dq, c3, ev3, -, -, h3, hs', -⟩ := flush_phases env fuel now _ _ ev hrun
    subst hs'
    exact dataMapOk_flushDataItems env fuel now _ _ _ _ _ _ ih h3
  | addVirtualPeer env hash vpid dir _ ih =>
    unfold addVirtualPeer
    simp only
    repeat' split
    all_goals first
      | exact ih
      | (rw [(locked_restartDHSession_frame _ _ _ _).2.2.1]
         exact ih)
  | removeVirtualPeer hash vpid _ ih =>
    unfold removeVirtualPeer
    simp only
    repeat' split
    all_goals exact ih
  | receiveTurtleData env now data hash vpid ev _ hrun ih =>
    rcases receiveTurtleData_pendingData env now _ _ data hash vpid ev hrun with h | h
    · rw [h]
      exact ih
    · obtain ⟨s1, tid, a, h1, rfl⟩ := h
      unfold handleRecvTunnelDataAckItem
      split
      · rw [h1]
        exact ih
      · simp only
        rw [h1]
        exact dataMapOk_erase ih _

/-- C29: when every send succeeds, one `flush` on a reachable state makes
these overlay sends, in this order: the clear frame of each item of
`pendingDHItems` in queue order, then an encrypted frame of each item of
`pendingGxsTunnelItems` in queue order, then an encrypted frame of each due
entry of `pendingGxsTunnelDataItems` in the order of the map, which is the
ascending order of the counters of their items (the order of the `sendData`
calls, the counter not having wrapped); the only other router calls are the
`forceReDiggTunnels` of the last loop, made after the sends.  Afterwards
`pendingDHItems` is empty and `pendingGxsTunnelItems` holds the keep-alives
queued by this `flush` and nothing else.  "Every send succeeds" is: each DH
item can be serialised, each queued item and each due data item is `Sendable`,
and the random source gives a nonzero IV within `ivFuel` draws; the loops are
given the iterations they need. -/
theorem flush_send_order (env : Env) (ivFuel fuel now : Nat) (s : State)
    (hreach : Reachable s)
    (hiv : ∀ c, (drawIV env ivFuel c).isSome = true)
    (hfuel1 : s.pendingDHItems.length ≤ fuel)
    (hfuel2 : ivFuel + s.pendingGxsTunnelItems.length ≤ fuel)
    (hdh : ∀ i ∈ s.pendingDHItems, ∃ body, env.serialise (.dhkey i) = some body)
    (hctrl : ∀ i ∈ s.pendingGxsTunnelItems, Sendable env s i)
    (hdata : ∀ p ∈ s.pendingGxsTunnelDataItems, resendDue now p = true →
      Sendable env s (.data p.2.data_item)) :
    ∃ s' ev1 ev2 ev3 redigs,
      flush env fuel now s = some (s', ev1 ++ ev2 ++ ev3 ++ redigs)
      ∧ List.Forall₂ (ClearFrame env) s.pendingDHItems ev1
      ∧ List.Forall₂ (EncryptedFrame env s) s.pendingGxsTunnelItems ev2
      ∧ List.Forall₂ (fun p e => EncryptedFrame env s (.data p.2.data_item) e)
          (s.pendingGxsTunnelDataItems.filter (resendDue now)) ev3
      ∧ ((s.pendingGxsTunnelDataItems.filter (resendDue now)).map
            (fun p => p.2.data_item.unique_item_counter)).Pairwise (fun a b => a < b)
      ∧ ((s.pendingGxsTunnelDataItems.filter (resendDue now)).map Prod.fst).Pairwise
          (fun a b => a < b)
      ∧ (∀ e ∈ redigs, ∃ h, e = Event.forceReDiggTunnels h)
      ∧ s'.pendingDHItems = []
      ∧ s'.pendingGxsTunnelItems
          = (s._gxs_tunnel_contacts.map (fun kt => (flushTunnel env now 0 kt.2).2.1)).flatten
      ∧ ∀ i ∈ s'.pendingGxsTunnelItems,
          ∃ v, i = RsGxsTunnelItem.status
            { peerId := v, flags := RS_GXS_TUNNEL_FLAG_KEEP_ALIVE } := by
  obtain ⟨hsorted, hcounter⟩ := reachable_dataMapOk s hreach
  obtain ⟨ev1, h1, hf1⟩ := flushDHItems_ok env s.pendingDHItems fuel hdh hfuel1
  obtain ⟨c2, ev2, h2, hf2⟩ :=
    flushTunnelItems_ok env s ivFuel hiv s.pendingGxsTunnelItems fuel 0 hctrl hfuel2
  obtain ⟨c3, ev3, h3, hf3⟩ :=
    flushDataItems_ok env s ivFuel fuel now hiv (by omega) s.pendingGxsTunnelDataItems c2 hdata
  have hka := flushTunnels_keepAlives env now s._gxs_tunnel_contacts c3
  generalize List.map _ s.pendingGxsTunnelDataItems = dq at h3
  have hrun : flush env fuel now s
      = some ({ s with
                pendingDHItems := [],
                pendingGxsTunnelItems := (flushTunnels env now s._gxs_tunnel_contacts c3).2.1,
                pendingGxsTunnelDataItems := dq,
                _gxs_tunnel_contacts := (flushTunnels env now s._gxs_tunnel_contacts c3).1 },
              ev1 ++ ev2 ++ ev3 ++ (flushTunnels env now s._gxs_tunnel_contacts c3).2.2.2) := by
    unfold flush
    simp only [h1, h2, h3, List.nil_append]
  have hdue : ((s.pendingGxsTunnelDataItems.filter (resendDue now)).map Prod.fst).Pairwise
      (fun a b => a < b) :=
    List.Pairwise.sublist (List.Sublist.map _ (List.filter_sublist _)) hsorted
  have hsame : (s.pendingGxsTunnelDataItems.filter (resendDue now)).map
        (fun p => p.2.data_item.unique_item_counter)
      = (s.pendingGxsTunnelDataItems.filter (resendDue now)).map Prod.fst := by
    apply List.map_congr_left
    intro p hp
    exact hcounter p (List.mem_of_mem_filter hp)
  refine ⟨_, ev1, ev2, ev3, (flushTunnels env now s._gxs_tunnel_contacts c3).2.2.2, hrun, hf1, hf2,
    hf3, by rw [hsame]; exact hdue, hdue, flushTunnels_calls env now _ c3, ?_, ?_, ?_⟩
  · rfl
  · exact hka
  · intro i hi
    have hi' : i ∈ (flushTunnels env now s._gxs_tunnel_contacts c3).2.1 := hi
    rw [hka] at hi'
    obtain ⟨l, hl, hil⟩ := List.mem_flatten.1 hi'
    obtain ⟨kt, -, rfl⟩ := List.mem_map.1 hl
    exact flushTunnel_keepAlive env now 0 kt.2 i hil

/-- The state `zeroQueued` is reached by `addVirtualPeer`, an inbound DH
public key, `registerClientService` and two `sendData` calls. -/
theorem reachable_zeroQueued : Reachable zeroQueued := by
  have h1 : Reachable zeroAnswer1 :=
    Reachable.addVirtualPeer sampleEnv hashA (RsId.null 16) Direction.CLIENT Reachable.init
  have h2 : Reachable zeroAnswer2 :=
    Reachable.receiveTurtleData sampleEnv 100 frameDH hashA (RsId.null 16)
      [Event.timeStampKey idB] h1 (by decide)
  exact Reachable.sendData tunnelAB 7 [43]
    (Reachable.sendData tunnelAB 7 [42] (Reachable.registerClientService 7 99 h2))

/-- C29 on a run of the code: the virtual peer of the tunnel has the all-zero
id, so the items that `sendData` queues are addressed to it.  With the DH
public key and the connection ACK of the handshake pending and the data items
0 and 1 due, the `flush` at time 101 sends the clear frame, the ACK, then the
data items 0 and 1, and leaves both queues empty. -/
theorem flush_send_order_witness :
    sendData (sendData (registerClientService zeroAnswer2 7 99).2 tunnelAB 7 [42]).2
        tunnelAB 7 [43] = (true, zeroQueued)
    ∧ zeroQueued.pendingGxsTunnelDataItems.map (fun p => (p.1, p.2.data_item.data))
        = [(0, [42]), (1, [43])]
    ∧ (flush sampleEnv 10 101 zeroQueued).map (fun r => r.2)
      = some [Event.sendTurtleData (RsId.null 16) (List.replicate 8 0 ++ [4, 1, 5]),
              Event.sendTurtleData (RsId.null 16) (frameEnc [3, 4]),
              Event.sendTurtleData (RsId.null 16) (frameEncWith 2 [1, 0, 7, 42]),
              Event.sendTurtleData (RsId.null 16) (frameEncWith 3 [1, 1, 7, 43])]
    ∧ ∃ s' ev, flush sampleEnv 10 101 zeroQueued = some (s', ev)
        ∧ s'.pendingDHItems = [] ∧ s'.pendingGxsTunnelItems = [] := by
  have hq : zeroQueued.pendingGxsTunnelItems
      = [RsGxsTunnelItem.status
          { peerId := RsId.null 16, flags := RS_GXS_TUNNEL_FLAG_ACK_DISTANT_CONNECTION }] := by
    decide
  have hd : zeroQueued.pendingGxsTunnelDataItems
      = [(0, { data_item := { peerId := RsId.null 16, unique_item_counter := 0, flags := 0,
                              service_id := 7, data := [42] },
               last_sending_attempt := 0 }),
         (1, { data_item := { peerId := RsId.null 16, unique_item_counter := 1, flags := 0,
                              service_id := 7, data := [43] },
               last_sending_attempt := 0 })] := by decide
  have hv : Map.find zeroQueued._gxs_tunnel_virtual_peer_ids (RsId.null 16)
      = some answer2Vpid := by decide
  have ht : Map.find zeroQueued._gxs_tunnel_contacts answer2Vpid.tunnel_id
      = some { answer2Tunnel with virtual_peer_id := RsId.null 16 } := by decide
  have h := flush_send_order sampleEnv 2 10 101 zeroQueued reachable_zeroQueued sampleEnv_drawIV
    (by decide) (by decide) (fun i _ => ⟨_, rfl⟩)
    (by
      intro i hi
      rw [hq, List.mem_singleton] at hi
      subst hi
      exact ⟨[3, 4], _, _, rfl, hv, ht, by decide, fun iv => ⟨_, rfl⟩⟩)
    (by
      intro p hp _
      rw [hd] at hp
      simp only [List.mem_cons, List.mem_singleton, List.not_mem_nil, or_false] at hp
      rcases hp with rfl | rfl
      · exact ⟨[1, 0, 7, 42], _, _, rfl, hv, ht, by decide, fun iv => ⟨_, rfl⟩⟩
      · exact ⟨[1, 1, 7, 43], _, _, rfl, hv, ht, by decide, fun iv => ⟨_, rfl⟩⟩)
  obtain ⟨s', ev1, ev2, ev3, redigs, hrun, -, -, -, -, -, -, hdh, hctrl, -⟩ := h
  refine ⟨by decide, by decide, by decide, s', _, hrun, hdh, ?_⟩
  rw [hctrl]
  decide

end GxsTunnel
